import Mathlib

/-!
Shallow embedding of the selemKitchen backend calculation services.

The embedding translates, from the Python sources:
* `app/models/units.py`, `app/models/settings.py`, `app/models/edge_band.py`,
  `app/models/summary.py` — the data model;
* `app/services/unit_calculators.py` — the 25 per-topology part calculators, the
  topology dispatcher `calculate_unit_parts` and its aggregators;
* `app/services/unit_calculator.py` — the legacy-generation calculator;
* `app/services/edge_band_calculator.py` — the edge-band breakdown and cost services;
* `app/services/summary_generator.py` — the summary generator.

Python floats are modelled as rationals (`ℚ`), Python ints as `ℤ`, Python dicts with
string keys as association lists.  Runtime failures of the dynamic language
(AttributeError on a missing pydantic field, TypeError on a keyword argument that
matches no parameter, ZeroDivisionError, the dispatcher's ValueError) are made
explicit through the `Except PyError` monad wherever the source can raise.
-/

namespace SelemKitchen

/-- Rounds to `n` decimal digits, modelling Python `round(x, n)`.  An exact decimal
half rounds toward the larger value here; the source operates on binary floats, where
exact decimal ties do not occur. -/
def roundTo (n : ℕ) (x : ℚ) : ℚ := (round (x * (10 : ℚ) ^ n) : ℤ) / (10 : ℚ) ^ n

/-- Runtime errors of the Python services that the embedding makes explicit. -/
inductive PyError where
  /-- ValueError raised by the topology dispatcher for an unrecognized unit type
  (unit_calculators.py line 745); the payload is the offending unit-type string. -/
  | valueError (unitType : String)
  /-- TypeError raised when a call passes a keyword argument that matches no
  parameter of the callee; the payload is the offending keyword. -/
  | typeError (keyword : String)
  /-- AttributeError raised when an object attribute does not exist; the payload is
  the attribute name. -/
  | attributeError (attr : String)
  /-- ZeroDivisionError raised by an unguarded division by an integer zero. -/
  | zeroDivisionError
deriving Repr, DecidableEq

/-- Per-edge banding flags, from `EdgeDistribution` in app/models/units.py; every
flag defaults to `true`. -/
structure EdgeDistribution where
  top : Bool := true
  left : Bool := true
  right : Bool := true
  bottom : Bool := true
deriving Repr, DecidableEq

/-- One cut piece, from `Part` in app/models/units.py.  `edge_band_m` is optional
and defaults to `None`; the current-generation calculators never set it. -/
structure Part where
  name : String
  width_cm : ℚ
  height_cm : ℚ
  depth_cm : Option ℚ := none
  qty : ℤ
  edge_distribution : Option EdgeDistribution := none
  area_m2 : Option ℚ := none
  edge_band_m : Option ℚ := none
deriving Repr, DecidableEq

/-- Unit-type enum of the legacy generation, from `UnitType` in app/models/units.py. -/
inductive UnitType where
  | GROUND
  | WALL
  | DOUBLE_DOOR
  | SINK_GROUND
deriving Repr, DecidableEq

/-- Assembly-method enum from app/models/settings.py. -/
inductive AssemblyMethod where
  | full_sides_back_routed
  | full_base_back_routed
  | base_full_top_sides_back_routed
  | full_sides_back_flush
  | full_base_back_flush
  | base_full_top_sides_back_flush
deriving Repr, DecidableEq

/-- Handle-type enum from app/models/settings.py. -/
inductive HandleType where
  | built_in
  | regular
  | hidden_cl_chassis
  | hidden_cl_drop
deriving Repr, DecidableEq

/-- Edge-banding style code enum from app/models/settings.py (`EdgeBandingType`). -/
inductive EdgeBandingType where
  | NONE
  | I
  | L
  | L_M_RIGHT
  | C
  | U
  | O
  | SLASH
  | II
  | DOUBLE_SLASH
  | IM
  | CM
  | UM_RIGHT
  | IIM
  | SLASH_M
  | DOUBLE_SLASH_M
  | OM
  | DR
  | LL
  | LS
  | LLM
  | LSM
deriving Repr, DecidableEq

/-- String value of each banding-style code, from the enum literals in
app/models/settings.py. -/
def EdgeBandingType.value : EdgeBandingType → String
  | .NONE => "-"
  | .I => "I"
  | .L => "L"
  | .L_M_RIGHT => "LM-يمين"
  | .C => "C"
  | .U => "U"
  | .O => "O"
  | .SLASH => "\\"
  | .II => "II"
  | .DOUBLE_SLASH => "\\\\"
  | .IM => "IM"
  | .CM => "CM"
  | .UM_RIGHT => "UM-يمين"
  | .IIM => "IIM"
  | .SLASH_M => "\\M"
  | .DOUBLE_SLASH_M => "\\\\M"
  | .OM => "OM"
  | .DR => "DR"
  | .LL => "LL"
  | .LS => "LS"
  | .LLM => "LLM"
  | .LSM => "LSM"

/-- Price record for one material, from `MaterialInfo` in app/models/settings.py. -/
structure MaterialInfo where
  price_per_sheet : Option ℚ := none
  sheet_size_m2 : Option ℚ := none
  price_per_meter : Option ℚ := none
  description : Option String := none
deriving Repr, DecidableEq

/-- Settings record, from `SettingsModel` in app/models/settings.py, with the same
field defaults.  The `last_updated` metadata timestamp is omitted: no service
function reads it.  Note which fields do NOT exist: the legacy services also read
`default_board_thickness_cm`, `back_clearance_cm`, `top_clearance_cm`,
`bottom_clearance_cm`, `side_overlap_cm`, `back_panel_thickness_cm`,
`sheet_size_m2` and `edge_overlap_cm`, none of which this model defines. -/
structure SettingsModel where
  assembly_method : AssemblyMethod := AssemblyMethod.full_sides_back_routed
  handle_type : HandleType := HandleType.built_in
  edge_banding_type : EdgeBandingType := EdgeBandingType.NONE
  handle_profile_height : ℚ := 3.5
  chassis_handle_drop : ℚ := 2.0
  counter_thickness : ℚ := 1.8
  mirror_width : ℚ := 8.0
  back_deduction : ℚ := 2.0
  router_depth : ℚ := 0.9
  router_distance : ℚ := 2.0
  router_thickness : ℚ := 0.5
  door_width_deduction_no_edge : ℚ := 0.4
  shelf_depth_deduction : ℚ := 5.0
  ground_door_height_deduction_no_edge : ℚ := 1.0
  edge_banding_waste_per_size : ℚ := 6.0
  materials : List (String × MaterialInfo) := []
deriving Repr, DecidableEq

/-- Python attribute lookup for the numeric fields of a `SettingsModel` value.
A pydantic model raises AttributeError for a name that is not one of its fields,
so the lookup returns `none` exactly for such names (in particular for
`default_board_thickness_cm`, `back_clearance_cm`, `top_clearance_cm`,
`bottom_clearance_cm`, `side_overlap_cm`, `back_panel_thickness_cm`,
`sheet_size_m2` and `edge_overlap_cm`, which the legacy services read). -/
def SettingsModel.getFloatAttr (s : SettingsModel) : String → Option ℚ
  | "handle_profile_height" => some s.handle_profile_height
  | "chassis_handle_drop" => some s.chassis_handle_drop
  | "counter_thickness" => some s.counter_thickness
  | "mirror_width" => some s.mirror_width
  | "back_deduction" => some s.back_deduction
  | "router_depth" => some s.router_depth
  | "router_distance" => some s.router_distance
  | "router_thickness" => some s.router_thickness
  | "door_width_deduction_no_edge" => some s.door_width_deduction_no_edge
  | "shelf_depth_deduction" => some s.shelf_depth_deduction
  | "ground_door_height_deduction_no_edge" => some s.ground_door_height_deduction_no_edge
  | "edge_banding_waste_per_size" => some s.edge_banding_waste_per_size
  | _ => none

/-- Edge-band material enum from app/models/edge_band.py (`EdgeType`). -/
inductive EdgeType where
  | wood
  | pvc
deriving Repr, DecidableEq

/-- String value of each edge-band material, from app/models/edge_band.py. -/
def EdgeType.value : EdgeType → String
  | .wood => "wood"
  | .pvc => "pvc"

/-- Detail record for a single edge, from `EdgeDetail` in app/models/edge_band.py. -/
structure EdgeDetail where
  edge : String
  length_mm : ℚ
  length_m : ℚ
  edge_type : EdgeType := EdgeType.pvc
  has_edge : Bool
deriving Repr, DecidableEq

/-- Edge-band detail for one part, from `EdgeBandPart` in app/models/edge_band.py. -/
structure EdgeBandPart where
  part_name : String
  qty : ℤ
  edges : List EdgeDetail
  total_edge_m : ℚ
  edge_type : EdgeType := EdgeType.pvc
deriving Repr, DecidableEq

/-- One summary line, from `SummaryItem` in app/models/summary.py. -/
structure SummaryItem where
  part_name : String
  description : Option String := none
  width_mm : ℚ
  height_mm : ℚ
  depth_mm : Option ℚ := none
  qty : ℤ
  area_m2 : Option ℚ := none
  edge_band_m : Option ℚ := none
deriving Repr, DecidableEq

namespace UnitCalculators

/-- Default board thickness constant, unit_calculators.py line 10. -/
def DEFAULT_BOARD_THICKNESS : ℚ := 1.8

/-- Embeds `calculate_ground_unit` (unit_calculators.py lines 12-156). -/
def calculate_ground_unit (width_cm height_cm depth_cm : ℚ) (shelf_count door_count : ℤ)
    (settings : SettingsModel) : List Part :=
  let board_thickness := DEFAULT_BOARD_THICKNESS
  let base_width := depth_cm
  let base_length :=
    if settings.assembly_method = AssemblyMethod.base_full_top_sides_back_routed then width_cm
    else width_cm - board_thickness * 2
  let mirror_width := settings.mirror_width
  let mirror_length := width_cm - board_thickness * 2
  let side_width := depth_cm
  let side_height :=
    if settings.assembly_method = AssemblyMethod.base_full_top_sides_back_routed then
      height_cm - board_thickness
    else height_cm
  let back_width := width_cm - settings.back_deduction
  let back_height := height_cm - settings.back_deduction
  [{ name := "base", width_cm := base_width, height_cm := base_length, qty := 1,
     edge_distribution := some { top := true, bottom := true, left := true, right := true },
     area_m2 := some (roundTo 4 (base_width * base_length / 10000)) },
   { name := "front_mirror", width_cm := mirror_width, height_cm := mirror_length, qty := 1,
     edge_distribution := some { top := true, bottom := true, left := true, right := true },
     area_m2 := some (roundTo 4 (mirror_width * mirror_length / 10000)) },
   { name := "back_mirror", width_cm := mirror_width, height_cm := mirror_length, qty := 1,
     edge_distribution := some { top := true, bottom := true, left := true, right := true },
     area_m2 := some (roundTo 4 (mirror_width * mirror_length / 10000)) },
   { name := "side_panel", width_cm := side_width, height_cm := side_height, qty := 2,
     edge_distribution := some { top := true, bottom := true, left := true, right := true },
     area_m2 := some (roundTo 4 (side_width * side_height * 2 / 10000)) }]
  ++ (if shelf_count > 0 then
        [{ name := "shelf", width_cm := depth_cm - settings.shelf_depth_deduction,
           height_cm := width_cm - board_thickness * 2, qty := shelf_count,
           edge_distribution := some { top := true, bottom := false, left := true, right := true },
           area_m2 := some (roundTo 4 ((depth_cm - settings.shelf_depth_deduction) *
             (width_cm - board_thickness * 2) * (shelf_count : ℚ) / 10000)) }]
      else [])
  ++ [{ name := "back_panel", width_cm := back_width, height_cm := back_height,
        depth_cm := some settings.router_thickness, qty := 1,
        edge_distribution := some { top := false, bottom := false, left := false, right := false },
        area_m2 := some (roundTo 4 (back_width * back_height / 10000)) }]
  ++ (if door_count > 0 then
        [{ name := "door",
           width_cm := width_cm / (door_count : ℚ) - settings.door_width_deduction_no_edge,
           height_cm := height_cm - settings.handle_profile_height -
             settings.ground_door_height_deduction_no_edge,
           qty := door_count,
           edge_distribution := some { top := true, bottom := true, left := true, right := true },
           area_m2 := some (roundTo 4 ((width_cm / (door_count : ℚ) -
             settings.door_width_deduction_no_edge) *
             (height_cm - settings.handle_profile_height -
               settings.ground_door_height_deduction_no_edge) * (door_count : ℚ) / 10000)) }]
      else [])

/-- Embeds `calculate_sink_unit` (unit_calculators.py lines 159-271): a front mirror
with qty 3, no back mirror and no back panel. -/
def calculate_sink_unit (width_cm height_cm depth_cm : ℚ) (shelf_count door_count : ℤ)
    (settings : SettingsModel) : List Part :=
  let board_thickness := DEFAULT_BOARD_THICKNESS
  let base_width := depth_cm
  let base_length :=
    if settings.assembly_method = AssemblyMethod.base_full_top_sides_back_routed then width_cm
    else width_cm - board_thickness * 2
  let mirror_width := settings.mirror_width
  let mirror_length := width_cm - board_thickness * 2
  let side_width := depth_cm
  let side_height :=
    if settings.assembly_method = AssemblyMethod.base_full_top_sides_back_routed then
      height_cm - board_thickness
    else height_cm
  [{ name := "base", width_cm := base_width, height_cm := base_length, qty := 1,
     edge_distribution := some { top := true, bottom := true, left := true, right := true },
     area_m2 := some (roundTo 4 (base_width * base_length / 10000)) },
   { name := "front_mirror", width_cm := mirror_width, height_cm := mirror_length, qty := 3,
     edge_distribution := some { top := true, bottom := true, left := true, right := true },
     area_m2 := some (roundTo 4 (mirror_width * mirror_length * 3 / 10000)) },
   { name := "side_panel", width_cm := side_width, height_cm := side_height, qty := 2,
     edge_distribution := some { top := true, bottom := true, left := true, right := true },
     area_m2 := some (roundTo 4 (side_width * side_height * 2 / 10000)) }]
  ++ (if shelf_count > 0 then
        [{ name := "shelf", width_cm := depth_cm - settings.shelf_depth_deduction,
           height_cm := width_cm - board_thickness * 2, qty := shelf_count,
           edge_distribution := some { top := true, bottom := false, left := true, right := true },
           area_m2 := some (roundTo 4 ((depth_cm - settings.shelf_depth_deduction) *
             (width_cm - board_thickness * 2) * (shelf_count : ℚ) / 10000)) }]
      else [])
  ++ (if door_count > 0 then
        [{ name := "door",
           width_cm := width_cm / (door_count : ℚ) - settings.door_width_deduction_no_edge,
           height_cm := height_cm - settings.handle_profile_height -
             settings.ground_door_height_deduction_no_edge,
           qty := door_count,
           edge_distribution := some { top := true, bottom := true, left := true, right := true },
           area_m2 := some (roundTo 4 ((width_cm / (door_count : ℚ) -
             settings.door_width_deduction_no_edge) *
             (height_cm - settings.handle_profile_height -
               settings.ground_door_height_deduction_no_edge) * (door_count : ℚ) / 10000)) }]
      else [])

/-- Embeds `calculate_drawers_unit` (unit_calculators.py lines 274-431).  The
drawers topology produces no shelf, no door and no drawer-front part: the source
notes that drawers units have neither shelves (line 363) nor doors (line 428). -/
def calculate_drawers_unit (width_cm height_cm depth_cm : ℚ)
    (_shelf_count _door_count drawer_count : ℤ) (drawer_height_cm : ℚ)
    (settings : SettingsModel) : List Part :=
  let board_thickness := DEFAULT_BOARD_THICKNESS
  let base_width := depth_cm
  let base_length :=
    if settings.assembly_method = AssemblyMethod.base_full_top_sides_back_routed then width_cm
    else width_cm - board_thickness * 2
  let mirror_width := settings.mirror_width
  let mirror_length := width_cm - board_thickness * 2
  let side_width := depth_cm
  let side_height :=
    if settings.assembly_method = AssemblyMethod.base_full_top_sides_back_routed then
      height_cm - board_thickness
    else height_cm
  let back_width := width_cm - settings.back_deduction
  let back_height := height_cm - settings.back_deduction
  [{ name := "base", width_cm := base_width, height_cm := base_length, qty := 1,
     edge_distribution := some { top := true, bottom := true, left := true, right := true },
     area_m2 := some (roundTo 4 (base_width * base_length / 10000)) },
   { name := "front_mirror", width_cm := mirror_width, height_cm := mirror_length, qty := 1,
     edge_distribution := some { top := true, bottom := true, left := true, right := true },
     area_m2 := some (roundTo 4 (mirror_width * mirror_length / 10000)) },
   { name := "back_mirror", width_cm := mirror_width, height_cm := mirror_length, qty := 1,
     edge_distribution := some { top := true, bottom := true, left := true, right := true },
     area_m2 := some (roundTo 4 (mirror_width * mirror_length / 10000)) },
   { name := "side_panel", width_cm := side_width, height_cm := side_height, qty := 2,
     edge_distribution := some { top := true, bottom := true, left := true, right := true },
     area_m2 := some (roundTo 4 (side_width * side_height * 2 / 10000)) }]
  ++ (if drawer_count > 0 then
        let drawer_width_length := width_cm - board_thickness * 2 - board_thickness * 2 - 2.6
        let drawer_depth_length := depth_cm - 8
        let drawer_bottom_length := depth_cm - 8 - settings.back_deduction
        let drawer_bottom_width :=
          width_cm - board_thickness * 2 - settings.back_deduction - 2.6
        [{ name := "drawer_width", width_cm := drawer_height_cm,
           height_cm := drawer_width_length, qty := 2 * drawer_count,
           edge_distribution := some { top := true, bottom := true, left := true, right := true },
           area_m2 := some (roundTo 4 (drawer_height_cm * drawer_width_length *
             ((2 * drawer_count : ℤ) : ℚ) / 10000)) },
         { name := "drawer_depth", width_cm := drawer_height_cm,
           height_cm := drawer_depth_length, qty := 2 * drawer_count,
           edge_distribution := some { top := true, bottom := true, left := true, right := true },
           area_m2 := some (roundTo 4 (drawer_height_cm * drawer_depth_length *
             ((2 * drawer_count : ℤ) : ℚ) / 10000)) },
         { name := "drawer_bottom", width_cm := drawer_bottom_width,
           height_cm := drawer_bottom_length, qty := drawer_count,
           edge_distribution := some { top := false, bottom := false, left := false, right := false },
           area_m2 := some (roundTo 4 (drawer_bottom_width * drawer_bottom_length *
             (drawer_count : ℚ) / 10000)) }]
      else [])
  ++ [{ name := "back_panel", width_cm := back_width, height_cm := back_height,
        depth_cm := some settings.router_thickness, qty := 1,
        edge_distribution := some { top := false, bottom := false, left := false, right := false },
        area_m2 := some (roundTo 4 (back_width * back_height / 10000)) }]

/-- Embeds `calculate_drawers_bottom_rail_unit` (unit_calculators.py lines 434-582):
like the drawers unit, but the drawer-width strip length is `width - 8.4` and the
drawer bottom width is `width - 6.4`. -/
def calculate_drawers_bottom_rail_unit (width_cm height_cm depth_cm : ℚ)
    (_shelf_count _door_count drawer_count : ℤ) (drawer_height_cm : ℚ)
    (settings : SettingsModel) : List Part :=
  let board_thickness := DEFAULT_BOARD_THICKNESS
  let base_width := depth_cm
  let base_length :=
    if settings.assembly_method = AssemblyMethod.base_full_top_sides_back_routed then width_cm
    else width_cm - board_thickness * 2
  let mirror_width := settings.mirror_width
  let mirror_length := width_cm - board_thickness * 2
  let side_width := depth_cm
  let side_height :=
    if settings.assembly_method = AssemblyMethod.base_full_top_sides_back_routed then
      height_cm - board_thickness
    else height_cm
  let back_width := width_cm - settings.back_deduction
  let back_height := height_cm - settings.back_deduction
  [{ name := "base", width_cm := base_width, height_cm := base_length, qty := 1,
     edge_distribution := some { top := true, bottom := true, left := true, right := true },
     area_m2 := some (roundTo 4 (base_width * base_length / 10000)) },
   { name := "front_mirror", width_cm := mirror_width, height_cm := mirror_length, qty := 1,
     edge_distribution := some { top := true, bottom := true, left := true, right := true },
     area_m2 := some (roundTo 4 (mirror_width * mirror_length / 10000)) },
   { name := "back_mirror", width_cm := mirror_width, height_cm := mirror_length, qty := 1,
     edge_distribution := some { top := true, bottom := true, left := true, right := true },
     area_m2 := some (roundTo 4 (mirror_width * mirror_length / 10000)) },
   { name := "side_panel", width_cm := side_width, height_cm := side_height, qty := 2,
     edge_distribution := some { top := true, bottom := true, left := true, right := true },
     area_m2 := some (roundTo 4 (side_width * side_height * 2 / 10000)) }]
  ++ (if drawer_count > 0 then
        let drawer_width_length := width_cm - 8.4
        let drawer_depth_length := depth_cm - 8
        let drawer_bottom_length := depth_cm - 8 - settings.back_deduction
        let drawer_bottom_width := width_cm - 6.4
        [{ name := "drawer_width", width_cm := drawer_height_cm,
           height_cm := drawer_width_length, qty := 2 * drawer_count,
           edge_distribution := some { top := true, bottom := true, left := true, right := true },
           area_m2 := some (roundTo 4 (drawer_height_cm * drawer_width_length *
             ((2 * drawer_count : ℤ) : ℚ) / 10000)) },
         { name := "drawer_depth", width_cm := drawer_height_cm,
           height_cm := drawer_depth_length, qty := 2 * drawer_count,
           edge_distribution := some { top := true, bottom := true, left := true, right := true },
           area_m2 := some (roundTo 4 (drawer_height_cm * drawer_depth_length *
             ((2 * drawer_count : ℤ) : ℚ) / 10000)) },
         { name := "drawer_bottom", width_cm := drawer_bottom_width,
           height_cm := drawer_bottom_length, qty := drawer_count,
           edge_distribution := some { top := false, bottom := false, left := false, right := false },
           area_m2 := some (roundTo 4 (drawer_bottom_width * drawer_bottom_length *
             (drawer_count : ℚ) / 10000)) }]
      else [])
  ++ [{ name := "back_panel", width_cm := back_width, height_cm := back_height,
        depth_cm := some settings.router_thickness, qty := 1,
        edge_distribution := some { top := false, bottom := false, left := false, right := false },
        area_m2 := some (roundTo 4 (back_width * back_height / 10000)) }]

/-- Embeds `calculate_ground_fixed_unit` (unit_calculators.py lines 795-962). -/
def calculate_ground_fixed_unit (width_cm height_cm depth_cm : ℚ)
    (shelf_count door_count : ℤ) (fixed_part_cm : ℚ) (settings : SettingsModel) : List Part :=
  let board_thickness := DEFAULT_BOARD_THICKNESS
  let base_width := depth_cm
  let base_length :=
    if settings.assembly_method = AssemblyMethod.base_full_top_sides_back_routed then width_cm
    else width_cm - board_thickness * 2
  let mirror_width := settings.mirror_width
  let mirror_length := width_cm - board_thickness * 2
  let side_width := depth_cm
  let side_height :=
    if settings.assembly_method = AssemblyMethod.base_full_top_sides_back_routed then
      height_cm - board_thickness
    else height_cm
  let detailed_mirror_length := height_cm - board_thickness * 2
  let fixed_part_width := fixed_part_cm - 4.5
  let back_width := width_cm - settings.back_deduction
  let back_height := height_cm - settings.back_deduction
  [{ name := "base", width_cm := base_width, height_cm := base_length, qty := 1,
     edge_distribution := some { top := true, bottom := true, left := true, right := true },
     area_m2 := some (roundTo 4 (base_width * base_length / 10000)) },
   { name := "front_mirror", width_cm := mirror_width, height_cm := mirror_length, qty := 1,
     edge_distribution := some { top := true, bottom := true, left := true, right := true },
     area_m2 := some (roundTo 4 (mirror_width * mirror_length / 10000)) },
   { name := "back_mirror", width_cm := mirror_width, height_cm := mirror_length, qty := 1,
     edge_distribution := some { top := true, bottom := true, left := true, right := true },
     area_m2 := some (roundTo 4 (mirror_width * mirror_length / 10000)) },
   { name := "side_panel", width_cm := side_width, height_cm := side_height, qty := 2,
     edge_distribution := some { top := true, bottom := true, left := true, right := true },
     area_m2 := some (roundTo 4 (side_width * side_height * 2 / 10000)) }]
  ++ (if shelf_count > 0 then
        [{ name := "shelf", width_cm := depth_cm - settings.shelf_depth_deduction,
           height_cm := width_cm - board_thickness * 2, qty := shelf_count,
           edge_distribution := some { top := true, bottom := false, left := true, right := true },
           area_m2 := some (roundTo 4 ((depth_cm - settings.shelf_depth_deduction) *
             (width_cm - board_thickness * 2) * (shelf_count : ℚ) / 10000)) }]
      else [])
  ++ [{ name := "detailed_installation_mirror", width_cm := mirror_width,
        height_cm := detailed_mirror_length, qty := 1,
        edge_distribution := some { top := true, bottom := true, left := true, right := true },
        area_m2 := some (roundTo 4 (mirror_width * detailed_mirror_length / 10000)) },
      { name := "fixed_part", width_cm := fixed_part_width, height_cm := height_cm, qty := 1,
        edge_distribution := some { top := true, bottom := true, left := true, right := true },
        area_m2 := some (roundTo 4 (fixed_part_width * height_cm / 10000)) },
      { name := "back_panel", width_cm := back_width, height_cm := back_height,
        depth_cm := some settings.router_thickness, qty := 1,
        edge_distribution := some { top := false, bottom := false, left := false, right := false },
        area_m2 := some (roundTo 4 (back_width * back_height / 10000)) }]
  ++ (if door_count > 0 then
        let door_width := (width_cm - fixed_part_cm - 3) / (door_count : ℚ) -
          settings.door_width_deduction_no_edge
        let door_height := height_cm - settings.handle_profile_height
        [{ name := "door", width_cm := door_width, height_cm := door_height, qty := door_count,
           edge_distribution := some { top := true, bottom := true, left := true, right := true },
           area_m2 := some (roundTo 4 (door_width * door_height * (door_count : ℚ) / 10000)) }]
      else [])
  ++ [{ name := "filler", width_cm := mirror_width, height_cm := height_cm, qty := 2,
        edge_distribution := some { top := true, bottom := true, left := true, right := true },
        area_m2 := some (roundTo 4 (mirror_width * height_cm * 2 / 10000)) }]

/-- Embeds `calculate_sink_fixed_unit` (unit_calculators.py lines 965-1111): like
the ground-fixed unit, but the front mirror has qty 3 and there is no back mirror
and no back panel. -/
def calculate_sink_fixed_unit (width_cm height_cm depth_cm : ℚ)
    (shelf_count door_count : ℤ) (fixed_part_cm : ℚ) (settings : SettingsModel) : List Part :=
  let board_thickness := DEFAULT_BOARD_THICKNESS
  let base_width := depth_cm
  let base_length :=
    if settings.assembly_method = AssemblyMethod.base_full_top_sides_back_routed then width_cm
    else width_cm - board_thickness * 2
  let mirror_width := settings.mirror_width
  let mirror_length := width_cm - board_thickness * 2
  let side_width := depth_cm
  let side_height :=
    if settings.assembly_method = AssemblyMethod.base_full_top_sides_back_routed then
      height_cm - board_thickness
    else height_cm
  let detailed_mirror_length := height_cm - board_thickness * 2
  let fixed_part_width := fixed_part_cm - 4.5
  [{ name := "base", width_cm := base_width, height_cm := base_length, qty := 1,
     edge_distribution := some { top := true, bottom := true, left := true, right := true },
     area_m2 := some (roundTo 4 (base_width * base_length / 10000)) },
   { name := "front_mirror", width_cm := mirror_width, height_cm := mirror_length, qty := 3,
     edge_distribution := some { top := true, bottom := true, left := true, right := true },
     area_m2 := some (roundTo 4 (mirror_width * mirror_length * 3 / 10000)) },
   { name := "side_panel", width_cm := side_width, height_cm := side_height, qty := 2,
     edge_distribution := some { top := true, bottom := true, left := true, right := true },
     area_m2 := some (roundTo 4 (side_width * side_height * 2 / 10000)) }]
  ++ (if shelf_count > 0 then
        [{ name := "shelf", width_cm := depth_cm - settings.shelf_depth_deduction,
           height_cm := width_cm - board_thickness * 2, qty := shelf_count,
           edge_distribution := some { top := true, bottom := false, left := true, right := true },
           area_m2 := some (roundTo 4 ((depth_cm - settings.shelf_depth_deduction) *
             (width_cm - board_thickness * 2) * (shelf_count : ℚ) / 10000)) }]
      else [])
  ++ [{ name := "detailed_installation_mirror", width_cm := mirror_width,
        height_cm := detailed_mirror_length, qty := 1,
        edge_distribution := some { top := true, bottom := true, left := true, right := true },
        area_m2 := some (roundTo 4 (mirror_width * detailed_mirror_length / 10000)) },
      { name := "fixed_part", width_cm := fixed_part_width, height_cm := height_cm, qty := 1,
        edge_distribution := some { top := true, bottom := true, left := true, right := true },
        area_m2 := some (roundTo 4 (fixed_part_width * height_cm / 10000)) }]
  ++ (if door_count > 0 then
        let door_width := (width_cm - fixed_part_cm - 3) / (door_count : ℚ) -
          settings.door_width_deduction_no_edge
        let door_height := height_cm - settings.handle_profile_height
        [{ name := "door", width_cm := door_width, height_cm := door_height, qty := door_count,
           edge_distribution := some { top := true, bottom := true, left := true, right := true },
           area_m2 := some (roundTo 4 (door_width * door_height * (door_count : ℚ) / 10000)) }]
      else [])
  ++ [{ name := "filler", width_cm := mirror_width, height_cm := height_cm, qty := 2,
        edge_distribution := some { top := true, bottom := true, left := true, right := true },
        area_m2 := some (roundTo 4 (mirror_width * height_cm * 2 / 10000)) }]

/-- Embeds `calculate_wall_unit` (unit_calculators.py lines 1114-1232).  In the
door branch the source tests `door_type == "hinged" or door_type == DoorType.HINGED`;
for a string discriminant both disjuncts hold exactly when the string is "hinged",
so the condition is embedded as equality with "hinged". -/
def calculate_wall_unit (width_cm height_cm depth_cm : ℚ) (shelf_count door_count : ℤ)
    (door_type : String) (settings : SettingsModel) : List Part :=
  let board_thickness := DEFAULT_BOARD_THICKNESS
  let base_width := depth_cm
  let base_length := width_cm - board_thickness * 2
  let top_width := depth_cm - settings.chassis_handle_drop
  let top_length := width_cm - board_thickness * 2
  let back_width := width_cm - settings.back_deduction
  let back_height := height_cm - settings.back_deduction
  [{ name := "base", width_cm := base_width, height_cm := base_length, qty := 1,
     edge_distribution := some { top := true, bottom := true, left := true, right := true },
     area_m2 := some (roundTo 4 (base_width * base_length / 10000)) },
   { name := "top_ceiling", width_cm := top_width, height_cm := top_length, qty := 1,
     edge_distribution := some { top := true, bottom := true, left := true, right := true },
     area_m2 := some (roundTo 4 (top_width * top_length / 10000)) },
   { name := "side_panel", width_cm := depth_cm, height_cm := height_cm, qty := 2,
     edge_distribution := some { top := true, bottom := true, left := true, right := true },
     area_m2 := some (roundTo 4 (depth_cm * height_cm * 2 / 10000)) }]
  ++ (if shelf_count > 0 then
        [{ name := "shelf", width_cm := depth_cm - settings.shelf_depth_deduction,
           height_cm := width_cm - board_thickness * 2, qty := shelf_count,
           edge_distribution := some { top := true, bottom := false, left := true, right := true },
           area_m2 := some (roundTo 4 ((depth_cm - settings.shelf_depth_deduction) *
             (width_cm - board_thickness * 2) * (shelf_count : ℚ) / 10000)) }]
      else [])
  ++ [{ name := "back_panel", width_cm := back_width, height_cm := back_height,
        depth_cm := some settings.router_thickness, qty := 1,
        edge_distribution := some { top := false, bottom := false, left := false, right := false },
        area_m2 := some (roundTo 4 (back_width * back_height / 10000)) }]
  ++ (if door_count > 0 then
        if door_type = "hinged" then
          let door_width := width_cm / (door_count : ℚ) - settings.door_width_deduction_no_edge
          let door_height := height_cm - settings.handle_profile_height
          [{ name := "door_hinged", width_cm := door_width, height_cm := door_height,
             qty := door_count,
             edge_distribution := some { top := true, bottom := true, left := true, right := true },
             area_m2 := some (roundTo 4 (door_width * door_height * (door_count : ℚ) / 10000)) }]
        else
          let door_width := width_cm - settings.door_width_deduction_no_edge
          let door_height := height_cm / (door_count : ℚ) - settings.handle_profile_height - 0.5
          [{ name := "door_flip", width_cm := door_width, height_cm := door_height,
             qty := door_count,
             edge_distribution := some { top := true, bottom := true, left := true, right := true },
             area_m2 := some (roundTo 4 (door_width * door_height * (door_count : ℚ) / 10000)) }]
      else [])

/-- Embeds `calculate_wall_fixed_unit` (unit_calculators.py lines 1235-1378). -/
def calculate_wall_fixed_unit (width_cm height_cm depth_cm : ℚ)
    (shelf_count door_count : ℤ) (fixed_part_cm : ℚ) (settings : SettingsModel) : List Part :=
  let board_thickness := DEFAULT_BOARD_THICKNESS
  let base_width := depth_cm
  let base_length := width_cm - board_thickness * 2
  let top_width := depth_cm
  let top_length := width_cm - board_thickness * 2
  let mirror_width := settings.mirror_width
  let detailed_mirror_length := height_cm - board_thickness * 2
  let fixed_part_width := fixed_part_cm - 4.5
  let back_width := width_cm - settings.back_deduction
  let back_height := height_cm - settings.back_deduction
  [{ name := "base", width_cm := base_width, height_cm := base_length, qty := 1,
     edge_distribution := some { top := true, bottom := true, left := true, right := true },
     area_m2 := some (roundTo 4 (base_width * base_length / 10000)) },
   { name := "top_ceiling", width_cm := top_width, height_cm := top_length, qty := 1,
     edge_distribution := some { top := true, bottom := true, left := true, right := true },
     area_m2 := some (roundTo 4 (top_width * top_length / 10000)) },
   { name := "side_panel", width_cm := depth_cm, height_cm := height_cm, qty := 2,
     edge_distribution := some { top := true, bottom := true, left := true, right := true },
     area_m2 := some (roundTo 4 (depth_cm * height_cm * 2 / 10000)) }]
  ++ (if shelf_count > 0 then
        [{ name := "shelf", width_cm := depth_cm - settings.shelf_depth_deduction,
           height_cm := width_cm - board_thickness * 2, qty := shelf_count,
           edge_distribution := some { top := true, bottom := false, left := true, right := true },
           area_m2 := some (roundTo 4 ((depth_cm - settings.shelf_depth_deduction) *
             (width_cm - board_thickness * 2) * (shelf_count : ℚ) / 10000)) }]
      else [])
  ++ [{ name := "detailed_installation_mirror", width_cm := mirror_width,
        height_cm := detailed_mirror_length, qty := 1,
        edge_distribution := some { top := true, bottom := true, left := true, right := true },
        area_m2 := some (roundTo 4 (mirror_width * detailed_mirror_length / 10000)) },
      { name := "fixed_part", width_cm := fixed_part_width, height_cm := height_cm, qty := 1,
        edge_distribution := some { top := true, bottom := true, left := true, right := true },
        area_m2 := some (roundTo 4 (fixed_part_width * height_cm / 10000)) },
      { name := "back_panel", width_cm := back_width, height_cm := back_height,
        depth_cm := some settings.router_thickness, qty := 1,
        edge_distribution := some { top := false, bottom := false, left := false, right := false },
        area_m2 := some (roundTo 4 (back_width * back_height / 10000)) }]
  ++ (if door_count > 0 then
        let door_width := (width_cm - fixed_part_cm - 3) / (door_count : ℚ) -
          settings.door_width_deduction_no_edge
        let door_height := height_cm - settings.handle_profile_height
        [{ name := "door", width_cm := door_width, height_cm := door_height, qty := door_count,
           edge_distribution := some { top := true, bottom := true, left := true, right := true },
           area_m2 := some (roundTo 4 (door_width * door_height * (door_count : ℚ) / 10000)) }]
      else [])
  ++ [{ name := "filler", width_cm := mirror_width, height_cm := height_cm, qty := 2,
        edge_distribution := some { top := true, bottom := true, left := true, right := true },
        area_m2 := some (roundTo 4 (mirror_width * height_cm * 2 / 10000)) }]

/-- Embeds `calculate_wall_flip_top_doors_bottom_unit` (unit_calculators.py lines
1380-1517). -/
def calculate_wall_flip_top_doors_bottom_unit (width_cm height_cm depth_cm : ℚ)
    (shelf_count door_count : ℤ) (flip_door_height : ℚ) (settings : SettingsModel) : List Part :=
  let board_thickness := DEFAULT_BOARD_THICKNESS
  let base_width := depth_cm
  let base_length := width_cm - board_thickness * 2
  let top_width := depth_cm - settings.chassis_handle_drop
  let top_length := width_cm - board_thickness * 2
  let extra_shelf_width := depth_cm - settings.router_distance - settings.router_thickness - 0.2
  let extra_shelf_length := width_cm - board_thickness * 2
  let back_width := width_cm - settings.back_deduction
  let back_height := height_cm - settings.back_deduction
  let flip_door_width := width_cm - settings.door_width_deduction_no_edge
  let flip_door_calculated_height := flip_door_height - settings.handle_profile_height - 2.0
  [{ name := "base", width_cm := base_width, height_cm := base_length, qty := 1,
     edge_distribution := some { top := true, bottom := true, left := true, right := true },
     area_m2 := some (roundTo 4 (base_width * base_length / 10000)) },
   { name := "top_ceiling", width_cm := top_width, height_cm := top_length, qty := 1,
     edge_distribution := some { top := true, bottom := true, left := true, right := true },
     area_m2 := some (roundTo 4 (top_width * top_length / 10000)) },
   { name := "side_panel", width_cm := depth_cm, height_cm := height_cm, qty := 2,
     edge_distribution := some { top := true, bottom := true, left := true, right := true },
     area_m2 := some (roundTo 4 (depth_cm * height_cm * 2 / 10000)) }]
  ++ (if shelf_count > 0 then
        [{ name := "shelf", width_cm := depth_cm - settings.shelf_depth_deduction,
           height_cm := width_cm - board_thickness * 2, qty := shelf_count,
           edge_distribution := some { top := true, bottom := false, left := true, right := true },
           area_m2 := some (roundTo 4 ((depth_cm - settings.shelf_depth_deduction) *
             (width_cm - board_thickness * 2) * (shelf_count : ℚ) / 10000)) }]
      else [])
  ++ [{ name := "extra_shelf", width_cm := extra_shelf_width, height_cm := extra_shelf_length,
        qty := 1,
        edge_distribution := some { top := true, bottom := false, left := true, right := true },
        area_m2 := some (roundTo 4 (extra_shelf_width * extra_shelf_length / 10000)) },
      { name := "back_panel", width_cm := back_width, height_cm := back_height,
        depth_cm := some settings.router_thickness, qty := 1,
        edge_distribution := some { top := false, bottom := false, left := false, right := false },
        area_m2 := some (roundTo 4 (back_width * back_height / 10000)) }]
  ++ (if door_count > 0 then
        let door_width := width_cm / (door_count : ℚ) - settings.door_width_deduction_no_edge
        let door_height := height_cm - settings.handle_profile_height - flip_door_height - 0.5
        [{ name := "bottom_door", width_cm := door_width, height_cm := door_height,
           qty := door_count,
           edge_distribution := some { top := true, bottom := true, left := true, right := true },
           area_m2 := some (roundTo 4 (door_width * door_height * (door_count : ℚ) / 10000)) }]
      else [])
  ++ [{ name := "flip_door", width_cm := flip_door_width,
        height_cm := flip_door_calculated_height, qty := 1,
        edge_distribution := some { top := true, bottom := true, left := true, right := true },
        area_m2 := some (roundTo 4 (flip_door_width * flip_door_calculated_height / 10000)) }]

/-- Embeds `calculate_tall_doors_unit` (unit_calculators.py lines 1519-1682). -/
def calculate_tall_doors_unit (width_cm height_cm depth_cm : ℚ)
    (shelf_count door_count : ℤ) (bottom_door_height : ℚ) (settings : SettingsModel) : List Part :=
  let board_thickness := DEFAULT_BOARD_THICKNESS
  let base_width := depth_cm
  let base_length :=
    if settings.assembly_method = AssemblyMethod.base_full_top_sides_back_routed then width_cm
    else width_cm - board_thickness * 2
  let top_width := depth_cm
  let top_length :=
    if settings.assembly_method = AssemblyMethod.base_full_top_sides_back_routed then width_cm
    else width_cm - board_thickness * 2
  let side_width := depth_cm
  let side_height :=
    if settings.assembly_method = AssemblyMethod.base_full_top_sides_back_routed then
      height_cm - board_thickness * 2
    else height_cm
  let extra_shelf_width := depth_cm - settings.router_distance - settings.router_thickness - 0.2
  let extra_shelf_length := width_cm - board_thickness * 2
  let back_width := width_cm - settings.back_deduction
  let back_height := height_cm - settings.back_deduction
  [{ name := "base", width_cm := base_width, height_cm := base_length, qty := 1,
     edge_distribution := some { top := true, bottom := true, left := true, right := true },
     area_m2 := some (roundTo 4 (base_width * base_length / 10000)) },
   { name := "top_ceiling", width_cm := top_width, height_cm := top_length, qty := 1,
     edge_distribution := some { top := true, bottom := true, left := true, right := true },
     area_m2 := some (roundTo 4 (top_width * top_length / 10000)) },
   { name := "side_panel", width_cm := side_width, height_cm := side_height, qty := 2,
     edge_distribution := some { top := true, bottom := true, left := true, right := true },
     area_m2 := some (roundTo 4 (side_width * side_height * 2 / 10000)) }]
  ++ (if shelf_count > 0 then
        [{ name := "shelf", width_cm := depth_cm - settings.shelf_depth_deduction,
           height_cm := width_cm - board_thickness * 2, qty := shelf_count,
           edge_distribution := some { top := true, bottom := false, left := true, right := true },
           area_m2 := some (roundTo 4 ((depth_cm - settings.shelf_depth_deduction) *
             (width_cm - board_thickness * 2) * (shelf_count : ℚ) / 10000)) }]
      else [])
  ++ [{ name := "extra_shelf", width_cm := extra_shelf_width, height_cm := extra_shelf_length,
        qty := 1,
        edge_distribution := some { top := true, bottom := false, left := true, right := true },
        area_m2 := some (roundTo 4 (extra_shelf_width * extra_shelf_length / 10000)) },
      { name := "back_panel", width_cm := back_width, height_cm := back_height,
        depth_cm := some settings.router_thickness, qty := 1,
        edge_distribution := some { top := false, bottom := false, left := false, right := false },
        area_m2 := some (roundTo 4 (back_width * back_height / 10000)) }]
  ++ (if door_count > 0 then
        let door_width := width_cm / (door_count : ℚ) - settings.door_width_deduction_no_edge
        let bottom_door_calc_height := bottom_door_height -
          settings.ground_door_height_deduction_no_edge - settings.handle_profile_height
        let top_door_calc_height := height_cm - bottom_door_height -
          settings.handle_profile_height
        [{ name := "bottom_door", width_cm := door_width, height_cm := bottom_door_calc_height,
           qty := door_count,
           edge_distribution := some { top := true, bottom := true, left := true, right := true },
           area_m2 := some (roundTo 4 (door_width * bottom_door_calc_height *
             (door_count : ℚ) / 10000)) },
         { name := "top_door", width_cm := door_width, height_cm := top_door_calc_height,
           qty := door_count,
           edge_distribution := some { top := true, bottom := true, left := true, right := true },
           area_m2 := some (roundTo 4 (door_width * top_door_calc_height *
             (door_count : ℚ) / 10000)) }]
      else [])

/-- Embeds `calculate_corner_l_wall_unit` (unit_calculators.py lines 1684-1852). -/
def calculate_corner_l_wall_unit (width_cm width_2_cm height_cm depth_cm depth_2_cm : ℚ)
    (shelf_count : ℤ) (settings : SettingsModel) : List Part :=
  let board_thickness := DEFAULT_BOARD_THICKNESS
  let w1 := width_cm
  let w2 := if width_2_cm > 0 then width_2_cm else width_cm
  let d1 := depth_cm
  let d2 := if depth_2_cm > 0 then depth_2_cm else depth_cm
  let base_width := w1 - board_thickness
  let base_length := w2 - board_thickness
  let back_thickness := settings.router_thickness
  let back1_width := w1 - settings.back_deduction
  let back1_height := height_cm - settings.back_deduction
  let back2_width := w2 - settings.router_distance - settings.router_thickness - 5
  let back2_height := height_cm - settings.back_deduction
  let door1_width := w1 - d1 - 2.3
  let door1_height := height_cm - settings.handle_profile_height
  let flip_width := w2 - d2 - 1.2
  let flip_height := height_cm - settings.handle_profile_height
  [{ name := "base", width_cm := base_width, height_cm := base_length, qty := 1,
     edge_distribution := some { top := true, bottom := true, left := true, right := true },
     area_m2 := some (roundTo 4 (base_width * base_length / 10000)) },
   { name := "top_ceiling", width_cm := base_width, height_cm := base_length, qty := 1,
     edge_distribution := some { top := true, bottom := true, left := true, right := true },
     area_m2 := some (roundTo 4 (base_width * base_length / 10000)) },
   { name := "side_1", width_cm := d1, height_cm := height_cm, qty := 1,
     edge_distribution := some { top := true, bottom := true, left := true, right := true },
     area_m2 := some (roundTo 4 (d1 * height_cm / 10000)) },
   { name := "side_2", width_cm := d2, height_cm := height_cm, qty := 1,
     edge_distribution := some { top := true, bottom := true, left := true, right := true },
     area_m2 := some (roundTo 4 (d2 * height_cm / 10000)) }]
  ++ (if shelf_count > 0 then
        let shelf_width := w1 - board_thickness - settings.router_distance -
          settings.router_thickness
        let shelf_length := w2 - board_thickness - settings.router_distance -
          settings.router_thickness
        [{ name := "shelf", width_cm := shelf_width, height_cm := shelf_length,
           qty := shelf_count,
           edge_distribution := some { top := true, bottom := false, left := true, right := true },
           area_m2 := some (roundTo 4 (shelf_width * shelf_length * (shelf_count : ℚ) / 10000)) }]
      else [])
  ++ [{ name := "back_1", width_cm := back1_width, height_cm := back1_height,
        depth_cm := some back_thickness, qty := 1,
        edge_distribution := some { top := false, bottom := false, left := false, right := false },
        area_m2 := some (roundTo 4 (back1_width * back1_height / 10000)) },
      { name := "back_2", width_cm := back2_width, height_cm := back2_height,
        depth_cm := some back_thickness, qty := 1,
        edge_distribution := some { top := false, bottom := false, left := false, right := false },
        area_m2 := some (roundTo 4 (back2_width * back2_height / 10000)) },
      { name := "door_1", width_cm := door1_width, height_cm := door1_height, qty := 1,
        edge_distribution := some { top := true, bottom := true, left := true, right := true },
        area_m2 := some (roundTo 4 (door1_width * door1_height / 10000)) },
      { name := "flip_door", width_cm := flip_width, height_cm := flip_height, qty := 1,
        edge_distribution := some { top := true, bottom := true, left := true, right := true },
        area_m2 := some (roundTo 4 (flip_width * flip_height / 10000)) }]

/-- Embeds `calculate_tall_doors_appliances_unit` (unit_calculators.py lines
1854-2116).  The flip branch divides by `door_count` only when `door_count > 1`,
matching the source. -/
def calculate_tall_doors_appliances_unit (width_cm height_cm depth_cm : ℚ)
    (shelf_count door_count : ℤ) (door_type : String)
    (bottom_door_height oven_height microwave_height vent_height : ℚ)
    (settings : SettingsModel) : List Part :=
  let board_thickness := DEFAULT_BOARD_THICKNESS
  let base_width := depth_cm
  let base_length :=
    if settings.assembly_method = AssemblyMethod.base_full_top_sides_back_routed then width_cm
    else width_cm - board_thickness * 2
  let top_width := depth_cm
  let top_length :=
    if settings.assembly_method = AssemblyMethod.base_full_top_sides_back_routed then width_cm
    else width_cm - board_thickness * 2
  let side_width := depth_cm
  let side_height :=
    if settings.assembly_method = AssemblyMethod.base_full_top_sides_back_routed then
      height_cm - board_thickness * 2
    else height_cm
  let app_shelf_width := depth_cm - settings.router_distance - settings.router_thickness
  let app_shelf_length := width_cm - board_thickness * 2
  let back_width := width_cm - settings.back_deduction
  let back_height := height_cm - settings.back_deduction
  let vent_width := width_cm - settings.door_width_deduction_no_edge
  let vent_calculated_height := vent_height - 2.0
  [{ name := "base", width_cm := base_width, height_cm := base_length, qty := 1,
     edge_distribution := some { top := true, bottom := true, left := true, right := true },
     area_m2 := some (roundTo 4 (base_width * base_length / 10000)) },
   { name := "top_ceiling", width_cm := top_width, height_cm := top_length, qty := 1,
     edge_distribution := some { top := true, bottom := true, left := true, right := true },
     area_m2 := some (roundTo 4 (top_width * top_length / 10000)) },
   { name := "side_1", width_cm := side_width, height_cm := side_height, qty := 1,
     edge_distribution := some { top := true, bottom := true, left := true, right := true },
     area_m2 := some (roundTo 4 (side_width * side_height / 10000)) },
   { name := "side_2", width_cm := side_width, height_cm := side_height, qty := 1,
     edge_distribution := some { top := true, bottom := true, left := true, right := true },
     area_m2 := some (roundTo 4 (side_width * side_height / 10000)) }]
  ++ (if shelf_count > 0 then
        [{ name := "shelf", width_cm := depth_cm - settings.shelf_depth_deduction,
           height_cm := width_cm - board_thickness * 2, qty := shelf_count,
           edge_distribution := some { top := true, bottom := false, left := true, right := true },
           area_m2 := some (roundTo 4 ((depth_cm - settings.shelf_depth_deduction) *
             (width_cm - board_thickness * 2) * (shelf_count : ℚ) / 10000)) }]
      else [])
  ++ [{ name := "appliance_shelf", width_cm := app_shelf_width, height_cm := app_shelf_length,
        qty := 3,
        edge_distribution := some { top := true, bottom := false, left := true, right := true },
        area_m2 := some (roundTo 4 (app_shelf_width * app_shelf_length * 3 / 10000)) },
      { name := "back_panel", width_cm := back_width, height_cm := back_height,
        depth_cm := some settings.router_thickness, qty := 1,
        edge_distribution := some { top := false, bottom := false, left := false, right := false },
        area_m2 := some (roundTo 4 (back_width * back_height / 10000)) },
      { name := "vent", width_cm := vent_width, height_cm := vent_calculated_height, qty := 1,
        edge_distribution := some { top := true, bottom := true, left := true, right := true },
        area_m2 := some (roundTo 4 (vent_width * vent_calculated_height / 10000)) }]
  ++ (if door_count > 0 then
        let door_width := width_cm / (door_count : ℚ) - settings.door_width_deduction_no_edge
        let bottom_door_calc_height := bottom_door_height -
          settings.ground_door_height_deduction_no_edge - settings.handle_profile_height
        let appliances_height := oven_height + microwave_height + 2.0
        [{ name := "bottom_door", width_cm := door_width, height_cm := bottom_door_calc_height,
           qty := door_count,
           edge_distribution := some { top := true, bottom := true, left := true, right := true },
           area_m2 := some (roundTo 4 (door_width * bottom_door_calc_height *
             (door_count : ℚ) / 10000)) }]
        ++ (if door_type = "hinged" then
              let top_door_calc_height := (height_cm - bottom_door_height - appliances_height) -
                settings.handle_profile_height - (vent_height + 2.0) - 0.2
              [{ name := "top_door_hinged", width_cm := door_width,
                 height_cm := top_door_calc_height, qty := door_count,
                 edge_distribution :=
                   some { top := true, bottom := true, left := true, right := true },
                 area_m2 := some (roundTo 4 (door_width * top_door_calc_height *
                   (door_count : ℚ) / 10000)) }]
            else
              let top_flip_width := width_cm - settings.door_width_deduction_no_edge
              let base_height := (height_cm - bottom_door_height - appliances_height) -
                settings.handle_profile_height - (vent_height + 2.0) - 0.5
              let top_door_calc_height :=
                if door_count > 1 then base_height / (door_count : ℚ) else base_height
              [{ name := "top_door_flip", width_cm := top_flip_width,
                 height_cm := top_door_calc_height, qty := door_count,
                 edge_distribution :=
                   some { top := true, bottom := true, left := true, right := true },
                 area_m2 := some (roundTo 4 (top_flip_width * top_door_calc_height *
                   (door_count : ℚ) / 10000)) }])
      else [])

/-- Embeds `calculate_tall_drawers_side_doors_top_unit` (unit_calculators.py lines
2118-2350). -/
def calculate_tall_drawers_side_doors_top_unit (width_cm height_cm depth_cm : ℚ)
    (shelf_count door_count : ℤ) (door_type : String) (drawer_count : ℤ)
    (drawer_height_cm bottom_door_height : ℚ) (settings : SettingsModel) : List Part :=
  let board_thickness := DEFAULT_BOARD_THICKNESS
  let base_width := depth_cm
  let base_length :=
    if settings.assembly_method = AssemblyMethod.base_full_top_sides_back_routed then width_cm
    else width_cm - board_thickness * 2
  let top_width := depth_cm
  let top_length :=
    if settings.assembly_method = AssemblyMethod.base_full_top_sides_back_routed then width_cm
    else width_cm - board_thickness * 2
  let side_width := depth_cm
  let side_height :=
    if settings.assembly_method = AssemblyMethod.base_full_top_sides_back_routed then
      height_cm - board_thickness * 2
    else height_cm
  let back_width := width_cm - settings.back_deduction
  let back_height := height_cm - settings.back_deduction
  [{ name := "base", width_cm := base_width, height_cm := base_length, qty := 1,
     edge_distribution := some { top := true, bottom := true, left := true, right := true },
     area_m2 := some (roundTo 4 (base_width * base_length / 10000)) },
   { name := "top_ceiling", width_cm := top_width, height_cm := top_length, qty := 1,
     edge_distribution := some { top := true, bottom := true, left := true, right := true },
     area_m2 := some (roundTo 4 (top_width * top_length / 10000)) },
   { name := "side_panel", width_cm := side_width, height_cm := side_height, qty := 2,
     edge_distribution := some { top := true, bottom := true, left := true, right := true },
     area_m2 := some (roundTo 4 (side_width * side_height * 2 / 10000)) }]
  ++ (if shelf_count > 0 then
        [{ name := "shelf", width_cm := depth_cm - settings.shelf_depth_deduction,
           height_cm := width_cm - board_thickness * 2, qty := shelf_count,
           edge_distribution := some { top := true, bottom := false, left := true, right := true },
           area_m2 := some (roundTo 4 ((depth_cm - settings.shelf_depth_deduction) *
             (width_cm - board_thickness * 2) * (shelf_count : ℚ) / 10000)) }]
      else [])
  ++ [{ name := "back_panel", width_cm := back_width, height_cm := back_height,
        depth_cm := some settings.router_thickness, qty := 1,
        edge_distribution := some { top := false, bottom := false, left := false, right := false },
        area_m2 := some (roundTo 4 (back_width * back_height / 10000)) }]
  ++ (if drawer_count > 0 then
        let drawer_box_length := width_cm - board_thickness * 2 - 2.6 - board_thickness * 2
        let drawer_depth_length := depth_cm - 8.0
        let drawer_bottom_width := width_cm - board_thickness * 2 - 2.6 -
          settings.back_deduction
        let drawer_bottom_length := depth_cm - 8.0 - settings.back_deduction
        let drawer_face_width := width_cm - settings.door_width_deduction_no_edge
        let drawer_face_height := bottom_door_height / (drawer_count : ℚ) -
          settings.handle_profile_height - 0.5
        [{ name := "drawer_width_part", width_cm := drawer_height_cm,
           height_cm := drawer_box_length, qty := drawer_count * 2,
           edge_distribution := some { top := true, bottom := true, left := true, right := true },
           area_m2 := some (roundTo 4 (drawer_height_cm * drawer_box_length *
             (drawer_count : ℚ) * 2 / 10000)) },
         { name := "drawer_depth_part", width_cm := drawer_height_cm,
           height_cm := drawer_depth_length, qty := drawer_count * 2,
           edge_distribution := some { top := true, bottom := true, left := true, right := true },
           area_m2 := some (roundTo 4 (drawer_height_cm * drawer_depth_length *
             (drawer_count : ℚ) * 2 / 10000)) },
         { name := "drawer_bottom", width_cm := drawer_bottom_width,
           height_cm := drawer_bottom_length, qty := drawer_count,
           edge_distribution := some { top := false, bottom := false, left := false, right := false },
           area_m2 := some (roundTo 4 (drawer_bottom_width * drawer_bottom_length *
             (drawer_count : ℚ) / 10000)) },
         { name := "drawer_face", width_cm := drawer_face_width,
           height_cm := drawer_face_height, qty := drawer_count,
           edge_distribution := some { top := true, bottom := true, left := true, right := true },
           area_m2 := some (roundTo 4 (drawer_face_width * drawer_face_height *
             (drawer_count : ℚ) / 10000)) }]
      else [])
  ++ (if door_count > 0 then
        if door_type = "hinged" then
          let door_width := width_cm / (door_count : ℚ) - settings.door_width_deduction_no_edge
          let door_height := height_cm - bottom_door_height - settings.handle_profile_height - 0.3
          [{ name := "top_door_hinged", width_cm := door_width, height_cm := door_height,
             qty := door_count,
             edge_distribution := some { top := true, bottom := true, left := true, right := true },
             area_m2 := some (roundTo 4 (door_width * door_height * (door_count : ℚ) / 10000)) }]
        else
          let door_width := width_cm - settings.door_width_deduction_no_edge
          let door_height := (height_cm - bottom_door_height) / (door_count : ℚ) -
            settings.handle_profile_height - 0.4
          [{ name := "top_door_flip", width_cm := door_width, height_cm := door_height,
             qty := door_count,
             edge_distribution := some { top := true, bottom := true, left := true, right := true },
             area_m2 := some (roundTo 4 (door_width * door_height * (door_count : ℚ) / 10000)) }]
      else [])

/-- Embeds `calculate_tall_drawers_bottom_rail_top_doors_unit` (unit_calculators.py
lines 2353-2613). -/
def calculate_tall_drawers_bottom_rail_top_doors_unit (width_cm height_cm depth_cm : ℚ)
    (shelf_count door_count : ℤ) (door_type : String) (drawer_count : ℤ)
    (drawer_height_cm bottom_door_height : ℚ) (settings : SettingsModel) : List Part :=
  let board_thickness := DEFAULT_BOARD_THICKNESS
  let base_width := depth_cm
  let base_length :=
    if settings.assembly_method = AssemblyMethod.base_full_top_sides_back_routed then width_cm
    else width_cm - board_thickness * 2
  let top_width := depth_cm
  let top_length :=
    if settings.assembly_method = AssemblyMethod.base_full_top_sides_back_routed then width_cm
    else width_cm - board_thickness * 2
  let side_width := depth_cm
  let side_height :=
    if settings.assembly_method = AssemblyMethod.base_full_top_sides_back_routed then
      height_cm - board_thickness * 2
    else height_cm
  let extra_shelf_width := depth_cm - settings.router_distance - settings.router_thickness
  let extra_shelf_length := width_cm - board_thickness * 2
  let back_width := width_cm - settings.back_deduction
  let back_height := height_cm - settings.back_deduction
  [{ name := "base", width_cm := base_width, height_cm := base_length, qty := 1,
     edge_distribution := some { top := true, bottom := true, left := true, right := true },
     area_m2 := some (roundTo 4 (base_width * base_length / 10000)) },
   { name := "top_ceiling", width_cm := top_width, height_cm := top_length, qty := 1,
     edge_distribution := some { top := true, bottom := true, left := true, right := true },
     area_m2 := some (roundTo 4 (top_width * top_length / 10000)) },
   { name := "side_panel", width_cm := side_width, height_cm := side_height, qty := 2,
     edge_distribution := some { top := true, bottom := true, left := true, right := true },
     area_m2 := some (roundTo 4 (side_width * side_height * 2 / 10000)) }]
  ++ (if shelf_count > 0 then
        [{ name := "shelf", width_cm := depth_cm - settings.shelf_depth_deduction,
           height_cm := width_cm - board_thickness * 2, qty := shelf_count,
           edge_distribution := some { top := true, bottom := false, left := true, right := true },
           area_m2 := some (roundTo 4 ((depth_cm - settings.shelf_depth_deduction) *
             (width_cm - board_thickness * 2) * (shelf_count : ℚ) / 10000)) }]
      else [])
  ++ [{ name := "intermediate_shelf", width_cm := extra_shelf_width,
        height_cm := extra_shelf_length, qty := 1,
        edge_distribution := some { top := true, bottom := false, left := true, right := true },
        area_m2 := some (roundTo 4 (extra_shelf_width * extra_shelf_length / 10000)) }]
  ++ (if drawer_count > 0 then
        let drawer_width_length := width_cm - 8.4
        let drawer_depth_length := depth_cm - 8.0
        let drawer_bottom_length := depth_cm - 10.0
        let drawer_bottom_width := width_cm - 6.4
        let one_drawer_front_height := bottom_door_height / (drawer_count : ℚ) -
          settings.handle_profile_height - 0.5
        let drawer_front_width := width_cm - settings.door_width_deduction_no_edge
        [{ name := "drawer_width", width_cm := drawer_height_cm,
           height_cm := drawer_width_length, qty := drawer_count * 2,
           edge_distribution := some { top := true, bottom := true, left := true, right := true },
           area_m2 := some (roundTo 4 (drawer_height_cm * drawer_width_length *
             ((drawer_count * 2 : ℤ) : ℚ) / 10000)) },
         { name := "drawer_depth", width_cm := drawer_height_cm,
           height_cm := drawer_depth_length, qty := drawer_count * 2,
           edge_distribution := some { top := true, bottom := true, left := true, right := true },
           area_m2 := some (roundTo 4 (drawer_height_cm * drawer_depth_length *
             ((drawer_count * 2 : ℤ) : ℚ) / 10000)) },
         { name := "drawer_bottom", width_cm := drawer_bottom_width,
           height_cm := drawer_bottom_length, qty := drawer_count,
           edge_distribution := some { top := false, bottom := false, left := false, right := false },
           area_m2 := some (roundTo 4 (drawer_bottom_width * drawer_bottom_length *
             (drawer_count : ℚ) / 10000)) },
         { name := "drawer_front", width_cm := drawer_front_width,
           height_cm := one_drawer_front_height, qty := drawer_count,
           edge_distribution := some { top := true, bottom := true, left := true, right := true },
           area_m2 := some (roundTo 4 (drawer_front_width * one_drawer_front_height *
             (drawer_count : ℚ) / 10000)) }]
      else [])
  ++ [{ name := "back_panel", width_cm := back_width, height_cm := back_height,
        depth_cm := some settings.router_thickness, qty := 1,
        edge_distribution := some { top := false, bottom := false, left := false, right := false },
        area_m2 := some (roundTo 4 (back_width * back_height / 10000)) }]
  ++ (if door_count > 0 then
        if door_type = "hinged" then
          let door_width := width_cm / (door_count : ℚ) - settings.door_width_deduction_no_edge
          let top_door_height := height_cm - bottom_door_height - settings.handle_profile_height
          [{ name := "top_door_hinged", width_cm := door_width, height_cm := top_door_height,
             qty := door_count,
             edge_distribution := some { top := true, bottom := true, left := true, right := true },
             area_m2 := some (roundTo 4 (door_width * top_door_height *
               (door_count : ℚ) / 10000)) }]
        else
          let flip_door_width := width_cm - settings.door_width_deduction_no_edge
          let top_door_height := (height_cm - bottom_door_height) / (door_count : ℚ) -
            settings.handle_profile_height - 0.4
          [{ name := "top_door_flip", width_cm := flip_door_width, height_cm := top_door_height,
             qty := door_count,
             edge_distribution := some { top := true, bottom := true, left := true, right := true },
             area_m2 := some (roundTo 4 (flip_door_width * top_door_height *
               (door_count : ℚ) / 10000)) }]
      else [])

/-- Embeds `calculate_tall_drawers_side_appliances_doors_unit` (unit_calculators.py
lines 2616-2887).  The source's hinged test reads
`door_type == "hinged" or door_type == "hinged"`, i.e. plain equality with "hinged". -/
def calculate_tall_drawers_side_appliances_doors_unit (width_cm height_cm depth_cm : ℚ)
    (shelf_count door_count : ℤ) (door_type : String) (drawer_count : ℤ)
    (drawer_height_cm bottom_door_height oven_height microwave_height vent_height : ℚ)
    (settings : SettingsModel) : List Part :=
  let board_thickness := DEFAULT_BOARD_THICKNESS
  let base_width := depth_cm
  let base_length :=
    if settings.assembly_method = AssemblyMethod.base_full_top_sides_back_routed then width_cm
    else width_cm - board_thickness * 2
  let top_width := depth_cm
  let top_length :=
    if settings.assembly_method = AssemblyMethod.base_full_top_sides_back_routed then width_cm
    else width_cm - board_thickness * 2
  let side_width := depth_cm
  let side_height :=
    if settings.assembly_method = AssemblyMethod.base_full_top_sides_back_routed then
      height_cm - board_thickness * 2
    else height_cm
  let regular_shelf_count := max 0 (shelf_count - 3)
  let extra_shelf_width := depth_cm - settings.router_distance - settings.router_thickness
  let extra_shelf_length := width_cm - board_thickness * 2
  let back_width := width_cm - settings.back_deduction
  let back_height := height_cm - settings.back_deduction
  let vent_part_height := vent_height - 0.2
  let vent_part_width := width_cm - settings.door_width_deduction_no_edge
  [{ name := "base", width_cm := base_width, height_cm := base_length, qty := 1,
     edge_distribution := some { top := true, bottom := true, left := true, right := true },
     area_m2 := some (roundTo 4 (base_width * base_length / 10000)) },
   { name := "top_ceiling", width_cm := top_width, height_cm := top_length, qty := 1,
     edge_distribution := some { top := true, bottom := true, left := true, right := true },
     area_m2 := some (roundTo 4 (top_width * top_length / 10000)) },
   { name := "side_panel", width_cm := side_width, height_cm := side_height, qty := 2,
     edge_distribution := some { top := true, bottom := true, left := true, right := true },
     area_m2 := some (roundTo 4 (side_width * side_height * 2 / 10000)) }]
  ++ (if regular_shelf_count > 0 then
        [{ name := "shelf", width_cm := depth_cm - settings.shelf_depth_deduction,
           height_cm := width_cm - board_thickness * 2, qty := regular_shelf_count,
           edge_distribution := some { top := true, bottom := false, left := true, right := true },
           area_m2 := some (roundTo 4 ((depth_cm - settings.shelf_depth_deduction) *
             (width_cm - board_thickness * 2) * (regular_shelf_count : ℚ) / 10000)) }]
      else [])
  ++ [{ name := "appliance_shelf", width_cm := extra_shelf_width,
        height_cm := extra_shelf_length, qty := 3,
        edge_distribution := some { top := true, bottom := false, left := true, right := true },
        area_m2 := some (roundTo 4 (extra_shelf_width * extra_shelf_length * 3 / 10000)) }]
  ++ (if drawer_count > 0 then
        let drawer_width_length := width_cm - board_thickness * 2 - 2.6 - board_thickness * 2
        let drawer_depth_length := depth_cm - 8.0
        let drawer_bottom_length := depth_cm - 10.0
        let drawer_bottom_width := width_cm - board_thickness * 2 - 2.6 -
          settings.back_deduction
        let one_drawer_front_height := bottom_door_height / (drawer_count : ℚ) -
          settings.handle_profile_height - 0.5
        let drawer_front_width := width_cm - settings.door_width_deduction_no_edge
        [{ name := "drawer_width", width_cm := drawer_height_cm,
           height_cm := drawer_width_length, qty := drawer_count * 2,
           edge_distribution := some { top := true, bottom := true, left := true, right := true },
           area_m2 := some (roundTo 4 (drawer_height_cm * drawer_width_length *
             ((drawer_count * 2 : ℤ) : ℚ) / 10000)) },
         { name := "drawer_depth", width_cm := drawer_height_cm,
           height_cm := drawer_depth_length, qty := drawer_count * 2,
           edge_distribution := some { top := true, bottom := true, left := true, right := true },
           area_m2 := some (roundTo 4 (drawer_height_cm * drawer_depth_length *
             ((drawer_count * 2 : ℤ) : ℚ) / 10000)) },
         { name := "drawer_bottom", width_cm := drawer_bottom_width,
           height_cm := drawer_bottom_length, qty := drawer_count,
           edge_distribution := some { top := false, bottom := false, left := false, right := false },
           area_m2 := some (roundTo 4 (drawer_bottom_width * drawer_bottom_length *
             (drawer_count : ℚ) / 10000)) },
         { name := "drawer_front", width_cm := drawer_front_width,
           height_cm := one_drawer_front_height, qty := drawer_count,
           edge_distribution := some { top := true, bottom := true, left := true, right := true },
           area_m2 := some (roundTo 4 (drawer_front_width * one_drawer_front_height *
             (drawer_count : ℚ) / 10000)) }]
      else [])
  ++ [{ name := "back_panel", width_cm := back_width, height_cm := back_height,
        depth_cm := some settings.router_thickness, qty := 1,
        edge_distribution := some { top := false, bottom := false, left := false, right := false },
        area_m2 := some (roundTo 4 (back_width * back_height / 10000)) },
      { name := "vent_panel", width_cm := vent_part_width, height_cm := vent_part_height,
        qty := 1,
        edge_distribution := some { top := true, bottom := true, left := true, right := true },
        area_m2 := some (roundTo 4 (vent_part_width * vent_part_height / 10000)) }]
  ++ (if door_count > 0 then
        let available_height := height_cm - bottom_door_height - (oven_height + 2.0) -
          microwave_height
        if door_type = "hinged" then
          let door_width := width_cm / (door_count : ℚ) - settings.door_width_deduction_no_edge
          [{ name := "top_door_hinged", width_cm := door_width, height_cm := available_height,
             qty := door_count,
             edge_distribution := some { top := true, bottom := true, left := true, right := true },
             area_m2 := some (roundTo 4 (door_width * available_height *
               (door_count : ℚ) / 10000)) }]
        else
          let flip_door_width := width_cm - settings.door_width_deduction_no_edge
          let top_door_height := available_height / (door_count : ℚ) -
            settings.handle_profile_height - 0.4
          [{ name := "top_door_flip", width_cm := flip_door_width, height_cm := top_door_height,
             qty := door_count,
             edge_distribution := some { top := true, bottom := true, left := true, right := true },
             area_m2 := some (roundTo 4 (flip_door_width * top_door_height *
               (door_count : ℚ) / 10000)) }]
      else [])

/-- Embeds `calculate_tall_drawers_bottom_appliances_doors_top_unit`
(unit_calculators.py lines 2890-3163). -/
def calculate_tall_drawers_bottom_appliances_doors_top_unit (width_cm height_cm depth_cm : ℚ)
    (shelf_count door_count : ℤ) (door_type : String) (drawer_count : ℤ)
    (drawer_height_cm bottom_door_height oven_height microwave_height vent_height : ℚ)
    (settings : SettingsModel) : List Part :=
  let board_thickness := DEFAULT_BOARD_THICKNESS
  let base_width := depth_cm
  let base_length :=
    if settings.assembly_method = AssemblyMethod.base_full_top_sides_back_routed then width_cm
    else width_cm - board_thickness * 2
  let top_width := depth_cm
  let top_length :=
    if settings.assembly_method = AssemblyMethod.base_full_top_sides_back_routed then width_cm
    else width_cm - board_thickness * 2
  let side_width := depth_cm
  let side_height :=
    if settings.assembly_method = AssemblyMethod.base_full_top_sides_back_routed then
      height_cm - board_thickness * 2
    else height_cm
  let regular_shelf_count := max 0 (shelf_count - 3)
  let extra_shelf_width := depth_cm - settings.router_distance - settings.router_thickness
  let extra_shelf_length := width_cm - board_thickness * 2
  let back_width := width_cm - settings.back_deduction
  let back_height := height_cm - settings.back_deduction
  let vent_part_height := vent_height - 0.2
  let vent_part_width := width_cm - settings.door_width_deduction_no_edge
  [{ name := "base", width_cm := base_width, height_cm := base_length, qty := 1,
     edge_distribution := some { top := true, bottom := true, left := true, right := true },
     area_m2 := some (roundTo 4 (base_width * base_length / 10000)) },
   { name := "top_ceiling", width_cm := top_width, height_cm := top_length, qty := 1,
     edge_distribution := some { top := true, bottom := true, left := true, right := true },
     area_m2 := some (roundTo 4 (top_width * top_length / 10000)) },
   { name := "side_panel", width_cm := side_width, height_cm := side_height, qty := 2,
     edge_distribution := some { top := true, bottom := true, left := true, right := true },
     area_m2 := some (roundTo 4 (side_width * side_height * 2 / 10000)) }]
  ++ (if regular_shelf_count > 0 then
        [{ name := "shelf", width_cm := depth_cm - settings.shelf_depth_deduction,
           height_cm := width_cm - board_thickness * 2, qty := regular_shelf_count,
           edge_distribution := some { top := true, bottom := false, left := true, right := true },
           area_m2 := some (roundTo 4 ((depth_cm - settings.shelf_depth_deduction) *
             (width_cm - board_thickness * 2) * (regular_shelf_count : ℚ) / 10000)) }]
      else [])
  ++ [{ name := "appliance_shelf", width_cm := extra_shelf_width,
        height_cm := extra_shelf_length, qty := 3,
        edge_distribution := some { top := true, bottom := false, left := true, right := true },
        area_m2 := some (roundTo 4 (extra_shelf_width * extra_shelf_length * 3 / 10000)) }]
  ++ (if drawer_count > 0 then
        let drawer_width_length := width_cm - 8.4
        let drawer_depth_length := depth_cm - 8.0
        let drawer_bottom_length := depth_cm - 10.0
        let drawer_bottom_width := width_cm - 6.4
        let one_drawer_front_height := bottom_door_height / (drawer_count : ℚ) -
          settings.handle_profile_height - 0.5
        let drawer_front_width := width_cm - settings.door_width_deduction_no_edge
        [{ name := "drawer_width", width_cm := drawer_height_cm,
           height_cm := drawer_width_length, qty := drawer_count * 2,
           edge_distribution := some { top := true, bottom := true, left := true, right := true },
           area_m2 := some (roundTo 4 (drawer_height_cm * drawer_width_length *
             ((drawer_count * 2 : ℤ) : ℚ) / 10000)) },
         { name := "drawer_depth", width_cm := drawer_height_cm,
           height_cm := drawer_depth_length, qty := drawer_count * 2,
           edge_distribution := some { top := true, bottom := true, left := true, right := true },
           area_m2 := some (roundTo 4 (drawer_height_cm * drawer_depth_length *
             ((drawer_count * 2 : ℤ) : ℚ) / 10000)) },
         { name := "drawer_bottom", width_cm := drawer_bottom_width,
           height_cm := drawer_bottom_length, qty := drawer_count,
           edge_distribution := some { top := false, bottom := false, left := false, right := false },
           area_m2 := some (roundTo 4 (drawer_bottom_width * drawer_bottom_length *
             (drawer_count : ℚ) / 10000)) },
         { name := "drawer_front", width_cm := drawer_front_width,
           height_cm := one_drawer_front_height, qty := drawer_count,
           edge_distribution := some { top := true, bottom := true, left := true, right := true },
           area_m2 := some (roundTo 4 (drawer_front_width * one_drawer_front_height *
             (drawer_count : ℚ) / 10000)) }]
      else [])
  ++ [{ name := "back_panel", width_cm := back_width, height_cm := back_height,
        depth_cm := some settings.router_thickness, qty := 1,
        edge_distribution := some { top := false, bottom := false, left := false, right := false },
        area_m2 := some (roundTo 4 (back_width * back_height / 10000)) },
      { name := "vent_panel", width_cm := vent_part_width, height_cm := vent_part_height,
        qty := 1,
        edge_distribution := some { top := true, bottom := true, left := true, right := true },
        area_m2 := some (roundTo 4 (vent_part_width * vent_part_height / 10000)) }]
  ++ (if door_count > 0 then
        let available_height := height_cm - bottom_door_height - (oven_height + 2.0) -
          microwave_height
        if door_type = "hinged" then
          let door_width := width_cm / (door_count : ℚ) - settings.door_width_deduction_no_edge
          let top_door_height := available_height - settings.handle_profile_height
          [{ name := "top_door_hinged", width_cm := door_width, height_cm := top_door_height,
             qty := door_count,
             edge_distribution := some { top := true, bottom := true, left := true, right := true },
             area_m2 := some (roundTo 4 (door_width * top_door_height *
               (door_count : ℚ) / 10000)) }]
        else
          let flip_door_width := width_cm - settings.door_width_deduction_no_edge
          let top_door_height := available_height / (door_count : ℚ) -
            settings.handle_profile_height - 0.4
          [{ name := "top_door_flip", width_cm := flip_door_width, height_cm := top_door_height,
             qty := door_count,
             edge_distribution := some { top := true, bottom := true, left := true, right := true },
             area_m2 := some (roundTo 4 (flip_door_width * top_door_height *
               (door_count : ℚ) / 10000)) }]
      else [])

/-- Embeds `calculate_two_small_20_one_large_side_unit` (unit_calculators.py lines
3166-3395).  All drawer sub-parts are emitted unconditionally (the function ignores
its `drawer_count` argument). -/
def calculate_two_small_20_one_large_side_unit (width_cm height_cm depth_cm : ℚ)
    (_drawer_count : ℤ) (settings : SettingsModel) : List Part :=
  let board_thickness := DEFAULT_BOARD_THICKNESS
  let base_width := depth_cm
  let base_length :=
    if settings.assembly_method = AssemblyMethod.base_full_top_sides_back_routed then width_cm
    else width_cm - board_thickness * 2
  let rail_length := width_cm - board_thickness * 2
  let mirror_width := settings.mirror_width
  let side_width := depth_cm
  let side_height :=
    if settings.assembly_method = AssemblyMethod.base_full_top_sides_back_routed then
      height_cm - board_thickness
    else height_cm
  let small_drawer_side_length := width_cm - board_thickness * 2 - 2.6 - board_thickness * 2
  let small_drawer_depth_length := depth_cm - 8.0
  let large_drawer_side_length := width_cm - board_thickness * 2 - 2.6 - board_thickness * 2
  let large_drawer_side_width := height_cm - 46.0
  let large_drawer_depth_length := depth_cm - 8.0
  let back_width := width_cm - settings.back_deduction
  let back_height := height_cm - settings.back_deduction
  let drawer_bottom_length := depth_cm - 10.0
  let drawer_bottom_width := width_cm - board_thickness * 2 - 2.6 - settings.back_deduction
  let small_front_height := 19.6 - settings.handle_profile_height
  let front_width := width_cm - settings.door_width_deduction_no_edge
  let large_front_height := height_cm - 40.0 - settings.handle_profile_height - 0.5
  [{ name := "base", width_cm := base_width, height_cm := base_length, qty := 1,
     edge_distribution := some { top := true, bottom := true, left := true, right := true },
     area_m2 := some (roundTo 4 (base_width * base_length / 10000)) },
   { name := "front_rail_mirror", width_cm := mirror_width, height_cm := rail_length, qty := 1,
     edge_distribution := some { top := true, bottom := true, left := true, right := true },
     area_m2 := some (roundTo 4 (mirror_width * rail_length / 10000)) },
   { name := "back_rail_mirror", width_cm := mirror_width, height_cm := rail_length, qty := 1,
     edge_distribution := some { top := true, bottom := true, left := true, right := true },
     area_m2 := some (roundTo 4 (mirror_width * rail_length / 10000)) },
   { name := "side_panel", width_cm := side_width, height_cm := side_height, qty := 2,
     edge_distribution := some { top := true, bottom := true, left := true, right := true },
     area_m2 := some (roundTo 4 (side_width * side_height * 2 / 10000)) },
   { name := "small_drawer_width_side", width_cm := 12.0,
     height_cm := small_drawer_side_length, qty := 4,
     edge_distribution := some { top := true, bottom := true, left := true, right := true },
     area_m2 := some (roundTo 4 (12.0 * small_drawer_side_length * 4 / 10000)) },
   { name := "small_drawer_depth", width_cm := 12.0, height_cm := small_drawer_depth_length,
     qty := 4,
     edge_distribution := some { top := true, bottom := true, left := true, right := true },
     area_m2 := some (roundTo 4 (12.0 * small_drawer_depth_length * 4 / 10000)) },
   { name := "large_drawer_width_side", width_cm := large_drawer_side_width,
     height_cm := large_drawer_side_length, qty := 2,
     edge_distribution := some { top := true, bottom := true, left := true, right := true },
     area_m2 := some (roundTo 4 (large_drawer_side_width * large_drawer_side_length *
       2 / 10000)) },
   { name := "large_drawer_depth", width_cm := large_drawer_side_width,
     height_cm := large_drawer_depth_length, qty := 2,
     edge_distribution := some { top := true, bottom := true, left := true, right := true },
     area_m2 := some (roundTo 4 (large_drawer_side_width * large_drawer_depth_length *
       2 / 10000)) },
   { name := "back_panel", width_cm := back_width, height_cm := back_height,
     depth_cm := some settings.router_thickness, qty := 1,
     edge_distribution := some { top := false, bottom := false, left := false, right := false },
     area_m2 := some (roundTo 4 (back_width * back_height / 10000)) },
   { name := "drawer_bottom", width_cm := drawer_bottom_width,
     height_cm := drawer_bottom_length, qty := 3,
     edge_distribution := some { top := false, bottom := false, left := false, right := false },
     area_m2 := some (roundTo 4 (drawer_bottom_width * drawer_bottom_length * 3 / 10000)) },
   { name := "small_drawer_front", width_cm := front_width, height_cm := small_front_height,
     qty := 2,
     edge_distribution := some { top := true, bottom := true, left := true, right := true },
     area_m2 := some (roundTo 4 (front_width * small_front_height * 2 / 10000)) },
   { name := "large_drawer_front", width_cm := front_width, height_cm := large_front_height,
     qty := 1,
     edge_distribution := some { top := true, bottom := true, left := true, right := true },
     area_m2 := some (roundTo 4 (front_width * large_front_height / 10000)) }]

/-- Embeds `calculate_two_small_20_one_large_bottom_unit` (unit_calculators.py lines
3398-3623). -/
def calculate_two_small_20_one_large_bottom_unit (width_cm height_cm depth_cm : ℚ)
    (_drawer_count : ℤ) (settings : SettingsModel) : List Part :=
  let board_thickness := DEFAULT_BOARD_THICKNESS
  let base_width := depth_cm
  let base_length :=
    if settings.assembly_method = AssemblyMethod.base_full_top_sides_back_routed then width_cm
    else width_cm - board_thickness * 2
  let rail_length := width_cm - board_thickness * 2
  let mirror_width := settings.mirror_width
  let side_width := depth_cm
  let side_height :=
    if settings.assembly_method = AssemblyMethod.base_full_top_sides_back_routed then
      height_cm - board_thickness
    else height_cm
  let small_drawer_box_length := width_cm - board_thickness * 2
  let small_drawer_depth_length := depth_cm - 8.0
  let large_drawer_box_length := width_cm - board_thickness * 2
  let large_drawer_box_width := height_cm - 46.0
  let large_drawer_depth_length := depth_cm - 8.0
  let back_width := width_cm - settings.back_deduction
  let back_height := height_cm - settings.back_deduction
  let drawer_bottom_length := depth_cm - 10.0
  let drawer_bottom_width := width_cm - 6.4
  let small_front_height := 19.6 - settings.handle_profile_height
  let front_width := width_cm - settings.door_width_deduction_no_edge
  let large_front_height := height_cm - 40.0 - settings.handle_profile_height - 0.5
  [{ name := "base", width_cm := base_width, height_cm := base_length, qty := 1,
     edge_distribution := some { top := true, bottom := true, left := true, right := true },
     area_m2 := some (roundTo 4 (base_width * base_length / 10000)) },
   { name := "front_rail_mirror", width_cm := mirror_width, height_cm := rail_length, qty := 1,
     edge_distribution := some { top := true, bottom := true, left := true, right := true },
     area_m2 := some (roundTo 4 (mirror_width * rail_length / 10000)) },
   { name := "back_rail_mirror", width_cm := mirror_width, height_cm := rail_length, qty := 1,
     edge_distribution := some { top := true, bottom := true, left := true, right := true },
     area_m2 := some (roundTo 4 (mirror_width * rail_length / 10000)) },
   { name := "side_panel", width_cm := side_width, height_cm := side_height, qty := 2,
     edge_distribution := some { top := true, bottom := true, left := true, right := true },
     area_m2 := some (roundTo 4 (side_width * side_height * 2 / 10000)) },
   { name := "small_drawer_width_box", width_cm := 12.0,
     height_cm := small_drawer_box_length, qty := 4,
     edge_distribution := some { top := true, bottom := true, left := true, right := true },
     area_m2 := some (roundTo 4 (12.0 * small_drawer_box_length * 4 / 10000)) },
   { name := "small_drawer_depth", width_cm := 12.0, height_cm := small_drawer_depth_length,
     qty := 4,
     edge_distribution := some { top := true, bottom := true, left := true, right := true },
     area_m2 := some (roundTo 4 (12.0 * small_drawer_depth_length * 4 / 10000)) },
   { name := "large_drawer_width_box", width_cm := large_drawer_box_width,
     height_cm := large_drawer_box_length, qty := 2,
     edge_distribution := some { top := true, bottom := true, left := true, right := true },
     area_m2 := some (roundTo 4 (large_drawer_box_width * large_drawer_box_length *
       2 / 10000)) },
   { name := "large_drawer_depth", width_cm := large_drawer_box_width,
     height_cm := large_drawer_depth_length, qty := 2,
     edge_distribution := some { top := true, bottom := true, left := true, right := true },
     area_m2 := some (roundTo 4 (large_drawer_box_width * large_drawer_depth_length *
       2 / 10000)) },
   { name := "back_panel", width_cm := back_width, height_cm := back_height,
     depth_cm := some settings.router_thickness, qty := 1,
     edge_distribution := some { top := false, bottom := false, left := false, right := false },
     area_m2 := some (roundTo 4 (back_width * back_height / 10000)) },
   { name := "drawer_bottom", width_cm := drawer_bottom_width,
     height_cm := drawer_bottom_length, qty := 3,
     edge_distribution := some { top := false, bottom := false, left := false, right := false },
     area_m2 := some (roundTo 4 (drawer_bottom_width * drawer_bottom_length * 3 / 10000)) },
   { name := "small_drawer_front", width_cm := front_width, height_cm := small_front_height,
     qty := 2,
     edge_distribution := some { top := true, bottom := true, left := true, right := true },
     area_m2 := some (roundTo 4 (front_width * small_front_height * 2 / 10000)) },
   { name := "large_drawer_front", width_cm := front_width, height_cm := large_front_height,
     qty := 1,
     edge_distribution := some { top := true, bottom := true, left := true, right := true },
     area_m2 := some (roundTo 4 (front_width * large_front_height / 10000)) }]

/-- Embeds `calculate_one_small_16_two_large_side_unit` (unit_calculators.py lines
3626-3869). -/
def calculate_one_small_16_two_large_side_unit (width_cm height_cm depth_cm : ℚ)
    (_drawer_count : ℤ) (settings : SettingsModel) : List Part :=
  let board_thickness := DEFAULT_BOARD_THICKNESS
  let base_width := depth_cm
  let base_length :=
    if settings.assembly_method = AssemblyMethod.base_full_top_sides_back_routed then width_cm
    else width_cm - board_thickness * 2
  let rail_length := width_cm - board_thickness * 2
  let mirror_width := settings.mirror_width
  let side_width := depth_cm
  let side_height :=
    if settings.assembly_method = AssemblyMethod.base_full_top_sides_back_routed then
      height_cm - board_thickness
    else height_cm
  let small_drawer_side_length := width_cm - board_thickness * 2 - 2.6 - board_thickness * 2
  let small_drawer_depth_length := depth_cm - 8.0
  let large_drawer_side_length := width_cm - board_thickness * 2 - 2.6 - board_thickness * 2
  let large_drawer_side_width := height_cm - 46.0
  let large_drawer_depth_length := depth_cm - 8.0
  let back_width := width_cm - settings.back_deduction
  let back_height := height_cm - settings.back_deduction
  let drawer_bottom_length := depth_cm - 10.0
  let drawer_bottom_width := width_cm - board_thickness * 2 - 2.6 - settings.back_deduction
  let small_front_height := 19.6 - settings.handle_profile_height
  let front_width := width_cm - settings.door_width_deduction_no_edge
  let large_front_height := (height_cm - 20.0) / 2 - settings.handle_profile_height - 0.5
  [{ name := "base", width_cm := base_width, height_cm := base_length, qty := 1,
     edge_distribution := some { top := true, bottom := true, left := true, right := true },
     area_m2 := some (roundTo 4 (base_width * base_length / 10000)) },
   { name := "front_rail_mirror", width_cm := mirror_width, height_cm := rail_length, qty := 1,
     edge_distribution := some { top := true, bottom := true, left := true, right := true },
     area_m2 := some (roundTo 4 (mirror_width * rail_length / 10000)) },
   { name := "back_rail_mirror", width_cm := mirror_width, height_cm := rail_length, qty := 1,
     edge_distribution := some { top := true, bottom := true, left := true, right := true },
     area_m2 := some (roundTo 4 (mirror_width * rail_length / 10000)) },
   { name := "side_panel", width_cm := side_width, height_cm := side_height, qty := 2,
     edge_distribution := some { top := true, bottom := true, left := true, right := true },
     area_m2 := some (roundTo 4 (side_width * side_height * 2 / 10000)) },
   { name := "small_drawer_width_side", width_cm := 12.0,
     height_cm := small_drawer_side_length, qty := 2,
     edge_distribution := some { top := true, bottom := true, left := true, right := true },
     area_m2 := some (roundTo 4 (12.0 * small_drawer_side_length * 2 / 10000)) },
   { name := "small_drawer_depth", width_cm := 12.0, height_cm := small_drawer_depth_length,
     qty := 2,
     edge_distribution := some { top := true, bottom := true, left := true, right := true },
     area_m2 := some (roundTo 4 (12.0 * small_drawer_depth_length * 2 / 10000)) },
   { name := "large_drawer_width_side", width_cm := large_drawer_side_width,
     height_cm := large_drawer_side_length, qty := 4,
     edge_distribution := some { top := true, bottom := true, left := true, right := true },
     area_m2 := some (roundTo 4 (large_drawer_side_width * large_drawer_side_length *
       4 / 10000)) },
   { name := "large_drawer_depth", width_cm := large_drawer_side_width,
     height_cm := large_drawer_depth_length, qty := 4,
     edge_distribution := some { top := true, bottom := true, left := true, right := true },
     area_m2 := some (roundTo 4 (large_drawer_side_width * large_drawer_depth_length *
       4 / 10000)) },
   { name := "back_panel", width_cm := back_width, height_cm := back_height,
     depth_cm := some settings.router_thickness, qty := 1,
     edge_distribution := some { top := false, bottom := false, left := false, right := false },
     area_m2 := some (roundTo 4 (back_width * back_height / 10000)) },
   { name := "drawer_bottom", width_cm := drawer_bottom_width,
     height_cm := drawer_bottom_length, qty := 3,
     edge_distribution := some { top := false, bottom := false, left := false, right := false },
     area_m2 := some (roundTo 4 (drawer_bottom_width * drawer_bottom_length * 3 / 10000)) },
   { name := "small_drawer_front", width_cm := front_width, height_cm := small_front_height,
     qty := 1,
     edge_distribution := some { top := true, bottom := true, left := true, right := true },
     area_m2 := some (roundTo 4 (front_width * small_front_height * 1 / 10000)) },
   { name := "large_drawer_front", width_cm := front_width, height_cm := large_front_height,
     qty := 2,
     edge_distribution := some { top := true, bottom := true, left := true, right := true },
     area_m2 := some (roundTo 4 (front_width * large_front_height * 2 / 10000)) }]

/-- Embeds `calculate_one_small_16_two_large_bottom_unit` (unit_calculators.py lines
3872-4098). -/
def calculate_one_small_16_two_large_bottom_unit (width_cm height_cm depth_cm : ℚ)
    (_drawer_count : ℤ) (settings : SettingsModel) : List Part :=
  let board_thickness := DEFAULT_BOARD_THICKNESS
  let base_width := depth_cm
  let base_length :=
    if settings.assembly_method = AssemblyMethod.base_full_top_sides_back_routed then width_cm
    else width_cm - board_thickness * 2
  let rail_length := width_cm - board_thickness * 2
  let mirror_width := settings.mirror_width
  let side_width := depth_cm
  let side_height :=
    if settings.assembly_method = AssemblyMethod.base_full_top_sides_back_routed then
      height_cm - board_thickness
    else height_cm
  let small_drawer_box_length := width_cm - board_thickness * 2
  let small_drawer_depth_length := depth_cm - 8.0
  let large_drawer_box_length := width_cm - board_thickness * 2
  let large_drawer_box_width := height_cm - 46.0
  let large_drawer_depth_length := depth_cm - 8.0
  let back_width := width_cm - settings.back_deduction
  let back_height := height_cm - settings.back_deduction
  let drawer_bottom_length := depth_cm - 10.0
  let drawer_bottom_width := width_cm - 6.4
  let small_front_height := 19.6 - settings.handle_profile_height
  let front_width := width_cm - settings.door_width_deduction_no_edge
  let large_front_height := (height_cm - 20.0) / 2 - settings.handle_profile_height - 0.5
  [{ name := "base", width_cm := base_width, height_cm := base_length, qty := 1,
     edge_distribution := some { top := true, bottom := true, left := true, right := true },
     area_m2 := some (roundTo 4 (base_width * base_length / 10000)) },
   { name := "front_rail_mirror", width_cm := mirror_width, height_cm := rail_length, qty := 1,
     edge_distribution := some { top := true, bottom := true, left := true, right := true },
     area_m2 := some (roundTo 4 (mirror_width * rail_length / 10000)) },
   { name := "back_rail_mirror", width_cm := mirror_width, height_cm := rail_length, qty := 1,
     edge_distribution := some { top := true, bottom := true, left := true, right := true },
     area_m2 := some (roundTo 4 (mirror_width * rail_length / 10000)) },
   { name := "side_panel", width_cm := side_width, height_cm := side_height, qty := 2,
     edge_distribution := some { top := true, bottom := true, left := true, right := true },
     area_m2 := some (roundTo 4 (side_width * side_height * 2 / 10000)) },
   { name := "small_drawer_width_box", width_cm := 12.0,
     height_cm := small_drawer_box_length, qty := 2,
     edge_distribution := some { top := true, bottom := true, left := true, right := true },
     area_m2 := some (roundTo 4 (12.0 * small_drawer_box_length * 2 / 10000)) },
   { name := "small_drawer_depth", width_cm := 12.0, height_cm := small_drawer_depth_length,
     qty := 2,
     edge_distribution := some { top := true, bottom := true, left := true, right := true },
     area_m2 := some (roundTo 4 (12.0 * small_drawer_depth_length * 2 / 10000)) },
   { name := "large_drawer_width_box", width_cm := large_drawer_box_width,
     height_cm := large_drawer_box_length, qty := 4,
     edge_distribution := some { top := true, bottom := true, left := true, right := true },
     area_m2 := some (roundTo 4 (large_drawer_box_width * large_drawer_box_length *
       4 / 10000)) },
   { name := "large_drawer_depth", width_cm := large_drawer_box_width,
     height_cm := large_drawer_depth_length, qty := 4,
     edge_distribution := some { top := true, bottom := true, left := true, right := true },
     area_m2 := some (roundTo 4 (large_drawer_box_width * large_drawer_depth_length *
       4 / 10000)) },
   { name := "back_panel", width_cm := back_width, height_cm := back_height,
     depth_cm := some settings.router_thickness, qty := 1,
     edge_distribution := some { top := false, bottom := false, left := false, right := false },
     area_m2 := some (roundTo 4 (back_width * back_height / 10000)) },
   { name := "drawer_bottom", width_cm := drawer_bottom_width,
     height_cm := drawer_bottom_length, qty := 3,
     edge_distribution := some { top := false, bottom := false, left := false, right := false },
     area_m2 := some (roundTo 4 (drawer_bottom_width * drawer_bottom_length * 3 / 10000)) },
   { name := "small_drawer_front", width_cm := front_width, height_cm := small_front_height,
     qty := 1,
     edge_distribution := some { top := true, bottom := true, left := true, right := true },
     area_m2 := some (roundTo 4 (front_width * small_front_height * 1 / 10000)) },
   { name := "large_drawer_front", width_cm := front_width, height_cm := large_front_height,
     qty := 2,
     edge_distribution := some { top := true, bottom := true, left := true, right := true },
     area_m2 := some (roundTo 4 (front_width * large_front_height * 2 / 10000)) }]

/-- Embeds `calculate_wall_microwave_unit` (unit_calculators.py lines 4101-4280).
Both door branches divide by `door_count` without a guard, so a call with
`door_count = 0` raises ZeroDivisionError in Python; the embedding returns the
corresponding error. -/
def calculate_wall_microwave_unit (width_cm height_cm depth_cm : ℚ)
    (shelf_count door_count : ℤ) (door_type : String) (microwave_height : ℚ)
    (settings : SettingsModel) : Except PyError (List Part) :=
  let board_thickness := DEFAULT_BOARD_THICKNESS
  let base_length := width_cm - board_thickness * 2
  let base_width := depth_cm
  let top_length := width_cm - board_thickness * 2
  let top_width := depth_cm
  let regular_shelf_count := max 0 (shelf_count - 1)
  let special_shelf_length := width_cm - board_thickness * 2
  let special_shelf_width := depth_cm - settings.router_distance - settings.router_thickness -
    0.1
  let back_width := width_cm - settings.back_deduction
  let back_height := height_cm - settings.back_deduction
  let common :=
    [{ name := "base", width_cm := base_width, height_cm := base_length, qty := 1,
       edge_distribution := some { top := true, bottom := true, left := true, right := true },
       area_m2 := some (roundTo 4 (base_width * base_length / 10000)) },
     { name := "top_panel", width_cm := top_width, height_cm := top_length, qty := 1,
       edge_distribution := some { top := true, bottom := true, left := true, right := true },
       area_m2 := some (roundTo 4 (top_width * top_length / 10000)) },
     { name := "side_panel", width_cm := depth_cm, height_cm := height_cm, qty := 2,
       edge_distribution := some { top := true, bottom := true, left := true, right := true },
       area_m2 := some (roundTo 4 (depth_cm * height_cm * 2 / 10000)) }]
    ++ (if regular_shelf_count > 0 then
          [{ name := "shelf", width_cm := depth_cm - settings.shelf_depth_deduction,
             height_cm := width_cm - board_thickness * 2, qty := regular_shelf_count,
             edge_distribution := some { top := true, bottom := true, left := true, right := true },
             area_m2 := some (roundTo 4 ((depth_cm - settings.shelf_depth_deduction) *
               (width_cm - board_thickness * 2) * (regular_shelf_count : ℚ) / 10000)) }]
        else [])
    ++ [{ name := "microwave_shelf", width_cm := special_shelf_width,
          height_cm := special_shelf_length, qty := 1,
          edge_distribution := some { top := true, bottom := true, left := true, right := true },
          area_m2 := some (roundTo 4 (special_shelf_width * special_shelf_length / 10000)) },
        { name := "back_panel", width_cm := back_width, height_cm := back_height,
          depth_cm := some settings.router_thickness, qty := 1,
          edge_distribution := some { top := false, bottom := false, left := false, right := false },
          area_m2 := some (roundTo 4 (back_width * back_height / 10000)) }]
  if door_type = "flip" then
    if door_count = 0 then Except.error PyError.zeroDivisionError
    else
      let door_part_height := (height_cm - microwave_height) / (door_count : ℚ) -
        settings.handle_profile_height - 0.5
      let door_part_width := width_cm - settings.door_width_deduction_no_edge
      Except.ok (common ++
        [{ name := "flip_door", width_cm := door_part_width, height_cm := door_part_height,
           qty := door_count,
           edge_distribution := some { top := true, bottom := true, left := true, right := true },
           area_m2 := some (roundTo 4 (door_part_width * door_part_height *
             (door_count : ℚ) / 10000)) }])
  else
    if door_count = 0 then Except.error PyError.zeroDivisionError
    else
      let door_part_height := height_cm - settings.handle_profile_height - microwave_height -
        0.5
      let door_part_width := width_cm / (door_count : ℚ) -
        settings.door_width_deduction_no_edge
      Except.ok (common ++
        [{ name := "door", width_cm := door_part_width, height_cm := door_part_height,
           qty := door_count,
           edge_distribution := some { top := true, bottom := true, left := true, right := true },
           area_m2 := some (roundTo 4 (door_part_width * door_part_height *
             (door_count : ℚ) / 10000)) }])

/-- Embeds `calculate_tall_wooden_base_unit` (unit_calculators.py lines 4283-4438).
The door part divides by `door_count` without a guard, so a call with
`door_count = 0` raises ZeroDivisionError in Python. -/
def calculate_tall_wooden_base_unit (width_cm height_cm depth_cm : ℚ)
    (shelf_count door_count : ℤ) (settings : SettingsModel) : Except PyError (List Part) :=
  let board_thickness := DEFAULT_BOARD_THICKNESS
  let base_width := depth_cm
  let base_length :=
    if settings.assembly_method = AssemblyMethod.base_full_top_sides_back_routed then
      width_cm - 0.2
    else width_cm - board_thickness * 2
  let top_length := width_cm - board_thickness * 2
  let top_width := depth_cm
  let side_width := depth_cm
  let side_height :=
    if settings.assembly_method = AssemblyMethod.base_full_top_sides_back_routed then
      height_cm - board_thickness
    else height_cm
  let back_width := width_cm - settings.back_deduction
  let back_height := height_cm - settings.back_deduction
  if door_count = 0 then Except.error PyError.zeroDivisionError
  else
    let door_part_height := height_cm - settings.handle_profile_height - 0.5
    let door_part_width := width_cm / (door_count : ℚ) - settings.door_width_deduction_no_edge
    Except.ok
      ([{ name := "base", width_cm := base_width, height_cm := base_length, qty := 1,
          edge_distribution := some { top := true, bottom := true, left := true, right := true },
          area_m2 := some (roundTo 4 (base_width * base_length / 10000)) },
        { name := "top_panel", width_cm := top_width, height_cm := top_length, qty := 1,
          edge_distribution := some { top := true, bottom := true, left := true, right := true },
          area_m2 := some (roundTo 4 (top_width * top_length / 10000)) },
        { name := "side_panel", width_cm := side_width, height_cm := side_height, qty := 2,
          edge_distribution := some { top := true, bottom := true, left := true, right := true },
          area_m2 := some (roundTo 4 (side_width * side_height * 2 / 10000)) }]
      ++ (if shelf_count > 0 then
            [{ name := "shelf", width_cm := depth_cm - settings.shelf_depth_deduction,
               height_cm := width_cm - board_thickness * 2, qty := shelf_count,
               edge_distribution :=
                 some { top := true, bottom := true, left := true, right := true },
               area_m2 := some (roundTo 4 ((depth_cm - settings.shelf_depth_deduction) *
                 (width_cm - board_thickness * 2) * (shelf_count : ℚ) / 10000)) }]
          else [])
      ++ [{ name := "back_panel", width_cm := back_width, height_cm := back_height,
            depth_cm := some settings.router_thickness, qty := 1,
            edge_distribution :=
              some { top := false, bottom := false, left := false, right := false },
            area_m2 := some (roundTo 4 (back_width * back_height / 10000)) },
          { name := "door", width_cm := door_part_width, height_cm := door_part_height,
            qty := door_count,
            edge_distribution := some { top := true, bottom := true, left := true, right := true },
            area_m2 := some (roundTo 4 (door_part_width * door_part_height *
              (door_count : ℚ) / 10000)) }])

/-- Embeds `calculate_three_turbo_unit` (unit_calculators.py lines 4441-4634).  No
drawer-bottom part is produced (source section 8 skips the append). -/
def calculate_three_turbo_unit (width_cm height_cm depth_cm : ℚ)
    (settings : SettingsModel) : List Part :=
  let board_thickness := DEFAULT_BOARD_THICKNESS
  let base_width := depth_cm
  let base_length :=
    if settings.assembly_method = AssemblyMethod.base_full_top_sides_back_routed then width_cm
    else width_cm - board_thickness * 2
  let rail_length := width_cm - board_thickness * 2
  let mirror_width := settings.mirror_width
  let side_width := depth_cm
  let side_height :=
    if settings.assembly_method = AssemblyMethod.base_full_top_sides_back_routed then
      height_cm - board_thickness
    else height_cm
  let drawer_box_length := width_cm - board_thickness * 2 - 2.6 - board_thickness * 2
  let drawer_depth_length := depth_cm - 8.0
  let back_width := width_cm - settings.back_deduction
  let back_height := height_cm - settings.back_deduction
  let front_height := height_cm / 3 - settings.handle_profile_height - 0.4
  let front_width := width_cm - settings.door_width_deduction_no_edge
  [{ name := "base", width_cm := base_width, height_cm := base_length, qty := 1,
     edge_distribution := some { top := true, bottom := true, left := true, right := true },
     area_m2 := some (roundTo 4 (base_width * base_length / 10000)) },
   { name := "front_rail_mirror", width_cm := mirror_width, height_cm := rail_length, qty := 1,
     edge_distribution := some { top := true, bottom := true, left := true, right := true },
     area_m2 := some (roundTo 4 (mirror_width * rail_length / 10000)) },
   { name := "back_rail_mirror", width_cm := mirror_width, height_cm := rail_length, qty := 1,
     edge_distribution := some { top := true, bottom := true, left := true, right := true },
     area_m2 := some (roundTo 4 (mirror_width * rail_length / 10000)) },
   { name := "side_panel", width_cm := side_width, height_cm := side_height, qty := 2,
     edge_distribution := some { top := true, bottom := true, left := true, right := true },
     area_m2 := some (roundTo 4 (side_width * side_height * 2 / 10000)) },
   { name := "drawer_width_strip", width_cm := mirror_width, height_cm := drawer_box_length,
     qty := 6,
     edge_distribution := some { top := true, bottom := true, left := true, right := true },
     area_m2 := some (roundTo 4 (mirror_width * drawer_box_length * 6 / 10000)) },
   { name := "drawer_depth_strip", width_cm := mirror_width, height_cm := drawer_depth_length,
     qty := 6,
     edge_distribution := some { top := true, bottom := true, left := true, right := true },
     area_m2 := some (roundTo 4 (mirror_width * drawer_depth_length * 6 / 10000)) },
   { name := "back_panel", width_cm := back_width, height_cm := back_height,
     depth_cm := some settings.router_thickness, qty := 1,
     edge_distribution := some { top := false, bottom := false, left := false, right := false },
     area_m2 := some (roundTo 4 (back_width * back_height / 10000)) },
   { name := "drawer_front", width_cm := front_width, height_cm := front_height, qty := 3,
     edge_distribution := some { top := true, bottom := true, left := true, right := true },
     area_m2 := some (roundTo 4 (front_width * front_height * 3 / 10000)) }]

/-- Embeds `calculate_drawer_built_in_oven_unit` (unit_calculators.py lines
4637-4812).  No back panel is produced (source section 7 skips the append). -/
def calculate_drawer_built_in_oven_unit (width_cm height_cm depth_cm oven_height : ℚ)
    (settings : SettingsModel) : List Part :=
  let board_thickness := DEFAULT_BOARD_THICKNESS
  let base_width := depth_cm
  let base_length :=
    if settings.assembly_method = AssemblyMethod.base_full_top_sides_back_routed then width_cm
    else width_cm - board_thickness * 2
  let rail_length := width_cm - board_thickness * 2
  let mirror_width := settings.mirror_width
  let side_width := depth_cm
  let side_height :=
    if settings.assembly_method = AssemblyMethod.base_full_top_sides_back_routed then
      height_cm - board_thickness
    else height_cm
  let drawer_box_length := width_cm - board_thickness * 2 - 2.6 - board_thickness * 2
  let drawer_bottom_length := 40.0 - settings.back_deduction
  let drawer_bottom_width := width_cm - board_thickness * 2 - 2.6 - settings.back_deduction
  let front_height := height_cm - oven_height - settings.handle_profile_height - 0.5
  let front_width := width_cm - settings.door_width_deduction_no_edge
  [{ name := "base", width_cm := base_width, height_cm := base_length, qty := 1,
     edge_distribution := some { top := true, bottom := true, left := true, right := true },
     area_m2 := some (roundTo 4 (base_width * base_length / 10000)) },
   { name := "front_rail_mirror", width_cm := mirror_width, height_cm := rail_length, qty := 1,
     edge_distribution := some { top := true, bottom := true, left := true, right := true },
     area_m2 := some (roundTo 4 (mirror_width * rail_length / 10000)) },
   { name := "back_rail_mirror", width_cm := mirror_width, height_cm := rail_length, qty := 1,
     edge_distribution := some { top := true, bottom := true, left := true, right := true },
     area_m2 := some (roundTo 4 (mirror_width * rail_length / 10000)) },
   { name := "side_panel", width_cm := side_width, height_cm := side_height, qty := 2,
     edge_distribution := some { top := true, bottom := true, left := true, right := true },
     area_m2 := some (roundTo 4 (side_width * side_height * 2 / 10000)) },
   { name := "drawer_width_strip", width_cm := mirror_width, height_cm := drawer_box_length,
     qty := 2,
     edge_distribution := some { top := true, bottom := true, left := true, right := true },
     area_m2 := some (roundTo 4 (mirror_width * drawer_box_length * 2 / 10000)) },
   { name := "drawer_depth_strip", width_cm := mirror_width, height_cm := 40.0, qty := 2,
     edge_distribution := some { top := true, bottom := true, left := true, right := true },
     area_m2 := some (roundTo 4 (mirror_width * 40.0 * 2 / 10000)) },
   { name := "drawer_bottom", width_cm := drawer_bottom_width,
     height_cm := drawer_bottom_length, qty := 1,
     edge_distribution := some { top := false, bottom := false, left := false, right := false },
     area_m2 := some (roundTo 4 (drawer_bottom_width * drawer_bottom_length / 10000)) },
   { name := "drawer_front", width_cm := front_width, height_cm := front_height, qty := 1,
     edge_distribution := some { top := true, bottom := true, left := true, right := true },
     area_m2 := some (roundTo 4 (front_width * front_height / 10000)) }]

/-- Embeds `calculate_drawer_bottom_rail_built_in_oven_unit` (unit_calculators.py
lines 4815-4983). -/
def calculate_drawer_bottom_rail_built_in_oven_unit
    (width_cm height_cm depth_cm oven_height : ℚ) (settings : SettingsModel) : List Part :=
  let board_thickness := DEFAULT_BOARD_THICKNESS
  let base_width := depth_cm
  let base_length :=
    if settings.assembly_method = AssemblyMethod.base_full_top_sides_back_routed then width_cm
    else width_cm - board_thickness * 2
  let rail_length := width_cm - board_thickness * 2
  let mirror_width := settings.mirror_width
  let side_width := depth_cm
  let side_height :=
    if settings.assembly_method = AssemblyMethod.base_full_top_sides_back_routed then
      height_cm - board_thickness
    else height_cm
  let drawer_box_length := width_cm - 8.4
  let drawer_bottom_length := 40.0 - settings.back_deduction
  let drawer_bottom_width := width_cm - 6.4
  let front_height := height_cm - oven_height - settings.handle_profile_height - 0.5
  let front_width := width_cm - settings.door_width_deduction_no_edge
  [{ name := "base", width_cm := base_width, height_cm := base_length, qty := 1,
     edge_distribution := some { top := true, bottom := true, left := true, right := true },
     area_m2 := some (roundTo 4 (base_width * base_length / 10000)) },
   { name := "front_rail_mirror", width_cm := mirror_width, height_cm := rail_length, qty := 1,
     edge_distribution := some { top := true, bottom := true, left := true, right := true },
     area_m2 := some (roundTo 4 (mirror_width * rail_length / 10000)) },
   { name := "back_rail_mirror", width_cm := mirror_width, height_cm := rail_length, qty := 1,
     edge_distribution := some { top := true, bottom := true, left := true, right := true },
     area_m2 := some (roundTo 4 (mirror_width * rail_length / 10000)) },
   { name := "side_panel", width_cm := side_width, height_cm := side_height, qty := 2,
     edge_distribution := some { top := true, bottom := true, left := true, right := true },
     area_m2 := some (roundTo 4 (side_width * side_height * 2 / 10000)) },
   { name := "drawer_width_strip", width_cm := mirror_width, height_cm := drawer_box_length,
     qty := 2,
     edge_distribution := some { top := true, bottom := true, left := true, right := true },
     area_m2 := some (roundTo 4 (mirror_width * drawer_box_length * 2 / 10000)) },
   { name := "drawer_depth_strip", width_cm := mirror_width, height_cm := 40.0, qty := 2,
     edge_distribution := some { top := true, bottom := true, left := true, right := true },
     area_m2 := some (roundTo 4 (mirror_width * 40.0 * 2 / 10000)) },
   { name := "drawer_bottom", width_cm := drawer_bottom_width,
     height_cm := drawer_bottom_length, qty := 1,
     edge_distribution := some { top := false, bottom := false, left := false, right := false },
     area_m2 := some (roundTo 4 (drawer_bottom_width * drawer_bottom_length / 10000)) },
   { name := "drawer_front", width_cm := front_width, height_cm := front_height, qty := 1,
     edge_distribution := some { top := true, bottom := true, left := true, right := true },
     area_m2 := some (roundTo 4 (front_width * front_height / 10000)) }]

/-- Target part names of the edge-banding deduction (unit_calculators.py line 751). -/
def target_parts : List String :=
  ["base", "shelf", "internal_shelf", "top", "unit_top", "internal_base"]

/-- Banding-style codes that trigger the deduction (unit_calculators.py line 749). -/
def designatedBandingCodes : List String := ["O", "OM", "C", "CM"]

/-- Per-part mutation of the edge-banding deduction (unit_calculators.py lines
753-764): subtract 0.2 cm from width and from height, each only when the dimension
exceeds 0.2, round both to 2 decimals, and recompute the area as
`round(width * height / 10000, 4)` (without the qty factor, exactly as the source). -/
def deductBandingFromPart (p : Part) : Part :=
  let w := if p.width_cm > 0.2 then roundTo 2 (p.width_cm - 0.2) else p.width_cm
  let h := if p.height_cm > 0.2 then roundTo 2 (p.height_cm - 0.2) else p.height_cm
  { p with width_cm := w, height_cm := h, area_m2 := some (roundTo 4 (w * h / 10000)) }

/-- Applies the deduction to the parts whose name is in `target_parts`, leaving the
rest unchanged. -/
def bandingDeductionMap (p : Part) : Part :=
  if p.name ∈ target_parts then deductBandingFromPart p else p

/-- Post-processing step of the dispatcher (unit_calculators.py lines 747-765).
The guard in the source is `settings.edge_banding_type and settings.edge_banding_type.value
in ["O", "OM", "C", "CM"]`; the first conjunct is an enum member and hence always
truthy, so only the membership test remains. -/
def applyEdgeBandingDeduction (settings : SettingsModel) (parts : List Part) : List Part :=
  if settings.edge_banding_type.value ∈ designatedBandingCodes then
    parts.map bandingDeductionMap
  else parts

/-- Unit-type strings recognized by the dispatcher's if/elif ladder
(unit_calculators.py lines 626-741), in source order. -/
def implementedUnitTypes : List String :=
  ["ground", "sink", "wall", "drawers", "drawers_bottom_rail", "ground_fixed",
   "sink_fixed", "wall_fixed", "wall_flip_top_doors_bottom", "tall_doors",
   "tall_doors_appliances", "corner_l_wall", "tall_drawers_side_doors_top",
   "tall_drawers_bottom_rail_top_doors", "tall_drawers_side_appliances_doors",
   "tall_drawers_bottom_appliances_doors_top", "two_small_20_one_large_side",
   "two_small_20_one_large_bottom", "one_small_16_two_large_side",
   "one_small_16_two_large_bottom", "wall_microwave", "tall_wooden_base",
   "three_turbo", "drawer_built_in_oven", "drawer_bottom_rail_built_in_oven"]

/-- Embeds the topology dispatcher `calculate_unit_parts` (unit_calculators.py lines
585-766).  Every branch except "drawers" falls through to the edge-banding
deduction; the "drawers" branch is a `return` statement in the source (line 639) and
therefore bypasses it.  An unmatched unit type raises
`ValueError(f"Unit type ... not implemented yet")` (line 745), embedded as
`PyError.valueError unit_type`. -/
def calculate_unit_parts (unit_type : String) (width_cm height_cm depth_cm : ℚ)
    (shelf_count door_count : ℤ) (door_type : String)
    (flip_door_height bottom_door_height oven_height microwave_height vent_height : ℚ)
    (drawer_count : ℤ) (drawer_height_cm fixed_part_cm width_2_cm depth_2_cm : ℚ)
    (settings : SettingsModel) : Except PyError (List Part) :=
  if unit_type = "ground" then
    Except.ok (applyEdgeBandingDeduction settings (calculate_ground_unit width_cm height_cm depth_cm shelf_count door_count
      settings))
  else if unit_type = "sink" then
    Except.ok (applyEdgeBandingDeduction settings (calculate_sink_unit width_cm height_cm depth_cm shelf_count door_count
      settings))
  else if unit_type = "wall" then
    Except.ok (applyEdgeBandingDeduction settings (calculate_wall_unit width_cm height_cm depth_cm shelf_count door_count
      door_type settings))
  else if unit_type = "drawers" then
    Except.ok (calculate_drawers_unit width_cm height_cm depth_cm shelf_count door_count
      drawer_count drawer_height_cm settings)
  else if unit_type = "drawers_bottom_rail" then
    Except.ok (applyEdgeBandingDeduction settings (calculate_drawers_bottom_rail_unit width_cm height_cm depth_cm
      shelf_count door_count drawer_count drawer_height_cm settings))
  else if unit_type = "ground_fixed" then
    Except.ok (applyEdgeBandingDeduction settings (calculate_ground_fixed_unit width_cm height_cm depth_cm shelf_count
      door_count fixed_part_cm settings))
  else if unit_type = "sink_fixed" then
    Except.ok (applyEdgeBandingDeduction settings (calculate_sink_fixed_unit width_cm height_cm depth_cm shelf_count
      door_count fixed_part_cm settings))
  else if unit_type = "wall_fixed" then
    Except.ok (applyEdgeBandingDeduction settings (calculate_wall_fixed_unit width_cm height_cm depth_cm shelf_count
      door_count fixed_part_cm settings))
  else if unit_type = "wall_flip_top_doors_bottom" then
    Except.ok (applyEdgeBandingDeduction settings (calculate_wall_flip_top_doors_bottom_unit width_cm height_cm depth_cm
      shelf_count door_count flip_door_height settings))
  else if unit_type = "tall_doors" then
    Except.ok (applyEdgeBandingDeduction settings (calculate_tall_doors_unit width_cm height_cm depth_cm shelf_count
      door_count bottom_door_height settings))
  else if unit_type = "tall_doors_appliances" then
    Except.ok (applyEdgeBandingDeduction settings (calculate_tall_doors_appliances_unit width_cm height_cm depth_cm
      shelf_count door_count door_type bottom_door_height oven_height microwave_height
      vent_height settings))
  else if unit_type = "corner_l_wall" then
    Except.ok (applyEdgeBandingDeduction settings (calculate_corner_l_wall_unit width_cm width_2_cm height_cm depth_cm
      depth_2_cm shelf_count settings))
  else if unit_type = "tall_drawers_side_doors_top" then
    Except.ok (applyEdgeBandingDeduction settings (calculate_tall_drawers_side_doors_top_unit width_cm height_cm depth_cm
      shelf_count door_count door_type drawer_count drawer_height_cm bottom_door_height
      settings))
  else if unit_type = "tall_drawers_bottom_rail_top_doors" then
    Except.ok (applyEdgeBandingDeduction settings (calculate_tall_drawers_bottom_rail_top_doors_unit width_cm height_cm
      depth_cm shelf_count door_count door_type drawer_count drawer_height_cm
      bottom_door_height settings))
  else if unit_type = "tall_drawers_side_appliances_doors" then
    Except.ok (applyEdgeBandingDeduction settings (calculate_tall_drawers_side_appliances_doors_unit width_cm height_cm
      depth_cm shelf_count door_count door_type drawer_count drawer_height_cm
      bottom_door_height oven_height microwave_height vent_height settings))
  else if unit_type = "tall_drawers_bottom_appliances_doors_top" then
    Except.ok (applyEdgeBandingDeduction settings (calculate_tall_drawers_bottom_appliances_doors_top_unit width_cm
      height_cm depth_cm shelf_count door_count door_type drawer_count drawer_height_cm
      bottom_door_height oven_height microwave_height vent_height settings))
  else if unit_type = "two_small_20_one_large_side" then
    Except.ok (applyEdgeBandingDeduction settings (calculate_two_small_20_one_large_side_unit width_cm height_cm depth_cm
      drawer_count settings))
  else if unit_type = "two_small_20_one_large_bottom" then
    Except.ok (applyEdgeBandingDeduction settings (calculate_two_small_20_one_large_bottom_unit width_cm height_cm depth_cm
      drawer_count settings))
  else if unit_type = "one_small_16_two_large_side" then
    Except.ok (applyEdgeBandingDeduction settings (calculate_one_small_16_two_large_side_unit width_cm height_cm depth_cm
      drawer_count settings))
  else if unit_type = "one_small_16_two_large_bottom" then
    Except.ok (applyEdgeBandingDeduction settings (calculate_one_small_16_two_large_bottom_unit width_cm height_cm depth_cm
      drawer_count settings))
  else if unit_type = "wall_microwave" then
    (calculate_wall_microwave_unit width_cm height_cm depth_cm shelf_count door_count
      door_type microwave_height settings).map (applyEdgeBandingDeduction settings)
  else if unit_type = "tall_wooden_base" then
    (calculate_tall_wooden_base_unit width_cm height_cm depth_cm shelf_count door_count
      settings).map (applyEdgeBandingDeduction settings)
  else if unit_type = "three_turbo" then
    Except.ok (applyEdgeBandingDeduction settings (calculate_three_turbo_unit width_cm height_cm depth_cm settings))
  else if unit_type = "drawer_built_in_oven" then
    Except.ok (applyEdgeBandingDeduction settings (calculate_drawer_built_in_oven_unit width_cm height_cm depth_cm
      oven_height settings))
  else if unit_type = "drawer_bottom_rail_built_in_oven" then
    Except.ok (applyEdgeBandingDeduction settings (calculate_drawer_bottom_rail_built_in_oven_unit width_cm height_cm
      depth_cm oven_height settings))
  else
    Except.error (PyError.valueError unit_type)

/-- Embeds `calculate_total_edge_band` (unit_calculators.py lines 769-771):
`sum(part.edge_band_m or 0 for part in parts)`. -/
def calculate_total_edge_band (parts : List Part) : ℚ :=
  (parts.map (fun p => p.edge_band_m.getD 0)).sum

/-- Embeds `calculate_total_area` (unit_calculators.py lines 774-776). -/
def calculate_total_area (parts : List Part) : ℚ :=
  (parts.map (fun p => p.area_m2.getD 0)).sum

end UnitCalculators

namespace UnitCalculatorLegacy

/-- Embeds `calculate_piece_edge_meters` (unit_calculator.py lines 12-42): perimeter
of the flagged edges in meters, scaled by qty; an unset edge distribution defaults
to all-true. -/
def calculate_piece_edge_meters (part : Part) : ℚ :=
  let edge_dist := part.edge_distribution.getD {}
  let width_m := part.width_cm / 100
  let height_m := part.height_cm / 100
  ((if edge_dist.top then width_m else 0) + (if edge_dist.bottom then width_m else 0) +
    (if edge_dist.left then height_m else 0) + (if edge_dist.right then height_m else 0)) *
    (part.qty : ℚ)

/-- Models `options.get(key, settings.attr)` as written in unit_calculator.py lines
64-87: Python evaluates the attribute default before the dictionary lookup, so a
missing settings attribute raises AttributeError even when `options` contains the
key. -/
def optionsGetWithSettingsDefault (options : List (String × ℚ)) (key : String)
    (settings : SettingsModel) (attr : String) : Except PyError ℚ :=
  match settings.getFloatAttr attr with
  | none => Except.error (PyError.attributeError attr)
  | some dflt => Except.ok (((options.lookup key).getD dflt))

/-- Embeds the legacy `calculate_unit_parts` (unit_calculator.py lines 44-239).  The
function begins by reading `settings.default_board_thickness_cm`,
`settings.back_clearance_cm`, `settings.top_clearance_cm`,
`settings.bottom_clearance_cm`, `settings.side_overlap_cm` and
`settings.back_panel_thickness_cm` (lines 64-87); `SettingsModel` defines none of
these fields, so with it every call raises AttributeError on the first of them.
The remainder of the body — including the sink-unit cutout clamping of lines
122-144 and 201-224 — is embedded for completeness but is unreachable with a
`SettingsModel` argument. -/
def calculate_unit_parts (unit_type : UnitType) (width_cm height_cm depth_cm : ℚ)
    (shelf_count : ℤ) (settings : SettingsModel) (options : List (String × ℚ)) :
    Except PyError (List Part) := do
  let board_thickness_cm ← optionsGetWithSettingsDefault options "board_thickness_cm"
    settings "default_board_thickness_cm"
  let back_clearance_cm ← optionsGetWithSettingsDefault options "back_clearance_cm"
    settings "back_clearance_cm"
  let top_clearance_cm ← optionsGetWithSettingsDefault options "top_clearance_cm"
    settings "top_clearance_cm"
  let bottom_clearance_cm ← optionsGetWithSettingsDefault options "bottom_clearance_cm"
    settings "bottom_clearance_cm"
  let side_overlap_cm ← optionsGetWithSettingsDefault options "side_overlap_cm"
    settings "side_overlap_cm"
  let back_panel_thickness_cm ← optionsGetWithSettingsDefault options "back_panel_thickness_cm"
    settings "back_panel_thickness_cm"
  let side_panel : Part :=
    { name := "side_panel", width_cm := depth_cm, height_cm := height_cm, qty := 2,
      edge_distribution := some { top := true, left := true, right := true, bottom := true } }
  let side_panel :=
    { side_panel with
      area_m2 := some (side_panel.width_cm * side_panel.height_cm * (side_panel.qty : ℚ) /
        10000),
      edge_band_m := some (calculate_piece_edge_meters side_panel) }
  let top_bottom_width := width_cm - 2 * board_thickness_cm
  let bottom_panel : Part :=
    { name := "bottom_panel", width_cm := top_bottom_width, height_cm := depth_cm, qty := 1,
      edge_distribution := some { top := true, left := true, right := true, bottom := true } }
  let bottom_panel :=
    { bottom_panel with
      area_m2 := some (bottom_panel.width_cm * bottom_panel.height_cm *
        (bottom_panel.qty : ℚ) / 10000),
      edge_band_m := some (calculate_piece_edge_meters bottom_panel) }
  let top_panel : Part :=
    if unit_type = UnitType.SINK_GROUND then
      let sink_cutout_width_cm := (options.lookup "sink_cutout_width_cm").getD 50
      let sink_cutout_depth_cm := (options.lookup "sink_cutout_depth_cm").getD 40
      let total_top_area := top_bottom_width * depth_cm
      let actual_cutout_width := min sink_cutout_width_cm top_bottom_width
      let actual_cutout_depth := min sink_cutout_depth_cm depth_cm
      let sink_cutout_area := actual_cutout_width * actual_cutout_depth
      let top_panel_area := max 0 (total_top_area - sink_cutout_area)
      { name := "top_panel_sink", width_cm := top_bottom_width, height_cm := depth_cm,
        qty := 1,
        edge_distribution := some { top := true, left := true, right := true, bottom := true },
        area_m2 := some (top_panel_area * 1 / 10000) }
    else
      { name := "top_panel", width_cm := top_bottom_width, height_cm := depth_cm, qty := 1,
        edge_distribution := some { top := true, left := true, right := true, bottom := true },
        area_m2 := some (top_bottom_width * depth_cm * 1 / 10000) }
  let top_panel := { top_panel with edge_band_m := some (calculate_piece_edge_meters top_panel) }
  let shelf_width := top_bottom_width
  let shelf_depth := depth_cm - back_clearance_cm
  let mkShelf : ℕ → Part := fun i =>
    let shelf : Part :=
      { name := "shelf_" ++ toString (i + 1), width_cm := shelf_width, height_cm := shelf_depth,
        qty := 1,
        edge_distribution := some { top := true, left := true, right := true, bottom := false } }
    { shelf with
      area_m2 := some (shelf.width_cm * shelf.height_cm * (shelf.qty : ℚ) / 10000),
      edge_band_m := some (calculate_piece_edge_meters shelf) }
  let shelves : List Part :=
    if unit_type = UnitType.SINK_GROUND then
      (List.range (max 0 (shelf_count - 1)).toNat).map mkShelf
    else
      (List.range shelf_count.toNat).map mkShelf
  let back_width := width_cm - 2 * side_overlap_cm
  let back_height := height_cm - top_clearance_cm - bottom_clearance_cm
  let back_panel : Part :=
    if unit_type = UnitType.SINK_GROUND then
      let plumbing_cutout_width_cm := (options.lookup "plumbing_cutout_width_cm").getD 20
      let plumbing_cutout_height_cm := (options.lookup "plumbing_cutout_height_cm").getD 10
      let total_back_area := back_width * back_height
      let actual_plumbing_width := min plumbing_cutout_width_cm back_width
      let actual_plumbing_height := min plumbing_cutout_height_cm back_height
      let plumbing_cutout_area := actual_plumbing_width * actual_plumbing_height
      let back_panel_area := max 0 (total_back_area - plumbing_cutout_area)
      { name := "back_panel_sink", width_cm := back_width, height_cm := back_height,
        depth_cm := some back_panel_thickness_cm, qty := 1,
        edge_distribution := some { top := false, left := false, right := false, bottom := false },
        area_m2 := some (back_panel_area * 1 / 10000) }
    else
      { name := "back_panel", width_cm := back_width, height_cm := back_height,
        depth_cm := some back_panel_thickness_cm, qty := 1,
        edge_distribution := some { top := false, left := false, right := false, bottom := false },
        area_m2 := some (back_width * back_height * 1 / 10000) }
  let back_panel :=
    { back_panel with edge_band_m := some (calculate_piece_edge_meters back_panel) }
  return [side_panel, bottom_panel, top_panel] ++ shelves ++ [back_panel]

/-- Embeds the legacy `calculate_total_edge_band` (unit_calculator.py lines 241-243). -/
def calculate_total_edge_band (parts : List Part) : ℚ :=
  (parts.map (fun p => p.edge_band_m.getD 0)).sum

/-- Embeds the legacy `calculate_total_area` (unit_calculator.py lines 245-247). -/
def calculate_total_area (parts : List Part) : ℚ :=
  (parts.map (fun p => p.area_m2.getD 0)).sum

/-- Embeds the legacy `calculate_material_usage` (unit_calculator.py lines 249-277).
Its first statement reads `settings.sheet_size_m2`, a field `SettingsModel` does not
define, so with it every call raises AttributeError. -/
def calculate_material_usage (total_area_m2 edge_band_m : ℚ) (settings : SettingsModel) :
    Except PyError (List (String × ℚ)) := do
  let sheet_size_m2 ←
    match settings.getFloatAttr "sheet_size_m2" with
    | none => Except.error (PyError.attributeError "sheet_size_m2")
    | some v => Except.ok v
  let sheet_size_m2 :=
    match (settings.materials.lookup "plywood_sheet").bind (fun m => m.sheet_size_m2) with
    | some sheet_size => sheet_size
    | none => sheet_size_m2
  let plywood_sheets := if sheet_size_m2 > 0 then total_area_m2 / sheet_size_m2 else 0
  return [("ألواح الخشب", roundTo 2 plywood_sheets), ("شريط الحافة", roundTo 2 edge_band_m),
    ("المساحة الإجمالية", roundTo 4 total_area_m2)]

end UnitCalculatorLegacy

namespace EdgeBandCalculator

/-- Embeds `calculate_edge_breakdown_for_part` (edge_band_calculator.py lines 9-127).
The first statement of the body reads `settings.edge_overlap_cm` (line 21), a field
`SettingsModel` does not define, so with it every call raises AttributeError.  The
rest of the body — flagged edges first with the overlap added, then the unflagged
edges with raw lengths, and a total over flagged edges only — is embedded for
completeness but is unreachable with a `SettingsModel` argument. -/
def calculate_edge_breakdown_for_part (part : Part) (settings : SettingsModel)
    (edge_type : EdgeType) : Except PyError EdgeBandPart :=
  match settings.getFloatAttr "edge_overlap_cm" with
  | none => Except.error (PyError.attributeError "edge_overlap_cm")
  | some edge_overlap_cm =>
    let edge_dist := part.edge_distribution.getD {}
    let flagged : List EdgeDetail :=
      (if edge_dist.top then
        [{ edge := "top", length_mm := (part.width_cm + edge_overlap_cm) * 10,
           length_m := (part.width_cm + edge_overlap_cm) / 100, edge_type := edge_type,
           has_edge := true }]
      else []) ++
      (if edge_dist.bottom then
        [{ edge := "bottom", length_mm := (part.width_cm + edge_overlap_cm) * 10,
           length_m := (part.width_cm + edge_overlap_cm) / 100, edge_type := edge_type,
           has_edge := true }]
      else []) ++
      (if edge_dist.left then
        [{ edge := "left", length_mm := (part.height_cm + edge_overlap_cm) * 10,
           length_m := (part.height_cm + edge_overlap_cm) / 100, edge_type := edge_type,
           has_edge := true }]
      else []) ++
      (if edge_dist.right then
        [{ edge := "right", length_mm := (part.height_cm + edge_overlap_cm) * 10,
           length_m := (part.height_cm + edge_overlap_cm) / 100, edge_type := edge_type,
           has_edge := true }]
      else [])
    let unflagged : List EdgeDetail :=
      (if ¬edge_dist.top then
        [{ edge := "top", length_mm := part.width_cm * 10, length_m := part.width_cm / 100,
           edge_type := edge_type, has_edge := false }]
      else []) ++
      (if ¬edge_dist.bottom then
        [{ edge := "bottom", length_mm := part.width_cm * 10, length_m := part.width_cm / 100,
           edge_type := edge_type, has_edge := false }]
      else []) ++
      (if ¬edge_dist.left then
        [{ edge := "left", length_mm := part.height_cm * 10, length_m := part.height_cm / 100,
           edge_type := edge_type, has_edge := false }]
      else []) ++
      (if ¬edge_dist.right then
        [{ edge := "right", length_mm := part.height_cm * 10, length_m := part.height_cm / 100,
           edge_type := edge_type, has_edge := false }]
      else [])
    let total_edge_cm :=
      (if edge_dist.top then part.width_cm + edge_overlap_cm else 0) +
      (if edge_dist.bottom then part.width_cm + edge_overlap_cm else 0) +
      (if edge_dist.left then part.height_cm + edge_overlap_cm else 0) +
      (if edge_dist.right then part.height_cm + edge_overlap_cm else 0)
    Except.ok
      { part_name := part.name, qty := part.qty, edges := flagged ++ unflagged,
        total_edge_m := roundTo 3 (total_edge_cm / 100 * (part.qty : ℚ)),
        edge_type := edge_type }

/-- Embeds `calculate_edge_breakdown` (edge_band_calculator.py lines 129-146). -/
def calculate_edge_breakdown (parts : List Part) (settings : SettingsModel)
    (edge_type : EdgeType) : Except PyError (List EdgeBandPart) :=
  parts.mapM (fun part => calculate_edge_breakdown_for_part part settings edge_type)

/-- Embeds `calculate_total_edge_meters` (edge_band_calculator.py lines 148-150). -/
def calculate_total_edge_meters (edge_breakdown : List EdgeBandPart) : ℚ :=
  (edge_breakdown.map EdgeBandPart.total_edge_m).sum

/-- Iteration order of `for edge_type in EdgeType` (edge_band_calculator.py line 166):
the declaration order in app/models/edge_band.py. -/
def edgeTypeList : List EdgeType := [EdgeType.wood, EdgeType.pvc]

/-- Cost line computed by one iteration of the loop in `calculate_edge_cost`
(edge_band_calculator.py lines 166-188), before the 2-decimal rounding: `none` when
the loop adds no line for this edge type (no parts of the type, or no usable price).
The material-specific key `edge_band_<type>_per_meter` is consulted first; the
generic `edge_band_per_meter` key is consulted only when the specific key is absent
from `settings.materials`; a price that is `None` or `0` is falsy in Python and
yields no line. -/
def edgeCostLine (edge_breakdown : List EdgeBandPart) (settings : SettingsModel)
    (edge_type : EdgeType) : Option ℚ :=
  let type_parts := edge_breakdown.filter (fun p => p.edge_type = edge_type)
  if type_parts.isEmpty then none
  else
    let total_meters := (type_parts.map EdgeBandPart.total_edge_m).sum
    let material_key := "edge_band_" ++ edge_type.value ++ "_per_meter"
    match settings.materials.lookup material_key with
    | some info =>
      match info.price_per_meter with
      | some price => if price ≠ 0 then some (total_meters * price) else none
      | none => none
    | none =>
      match settings.materials.lookup "edge_band_per_meter" with
      | some info =>
        match info.price_per_meter with
        | some price => if price ≠ 0 then some (total_meters * price) else none
        | none => none
      | none => none

/-- Embeds `calculate_edge_cost` (edge_band_calculator.py lines 152-193): the
breakdown dictionary (each line rounded to 2 decimals) and the total (sum of the
unrounded costs, rounded to 2 decimals at the end, as in the source). -/
def calculate_edge_cost (edge_breakdown : List EdgeBandPart) (settings : SettingsModel) :
    List (String × ℚ) × ℚ :=
  let lines := edgeTypeList.filterMap (fun et =>
    (edgeCostLine edge_breakdown settings et).map (fun c => (et.value, c)))
  (lines.map (fun kv => (kv.fst, roundTo 2 kv.snd)), roundTo 2 (lines.map Prod.snd).sum)

end EdgeBandCalculator

namespace SummaryGenerator

/-- Python attribute lookup for the numeric fields of a `Part` value.  The model in
app/models/units.py names its fields `width_cm`/`height_cm`/`depth_cm`, so the
`width_mm`/`height_mm`/`depth_mm` attributes read by the summary generator do not
exist and the lookup returns `none` for them. -/
def partGetFloatAttr (p : Part) : String → Option ℚ
  | "width_cm" => some p.width_cm
  | "height_cm" => some p.height_cm
  | _ => none

/-- Reads a numeric attribute of a `Part`, raising AttributeError when the
attribute does not exist, as Python does. -/
def pyPartAttr (p : Part) (attr : String) : Except PyError ℚ :=
  match partGetFloatAttr p attr with
  | none => Except.error (PyError.attributeError attr)
  | some v => Except.ok v

/-- Embeds `part_to_summary_item` (summary_generator.py lines 24-35).  The
description f-string reads `part.width_mm` first; `Part` has no such attribute, so
every call raises AttributeError on `width_mm`. -/
def part_to_summary_item (part : Part) : Except PyError SummaryItem := do
  let width_mm ← pyPartAttr part "width_mm"
  let height_mm ← pyPartAttr part "height_mm"
  let depth_mm ← pyPartAttr part "depth_mm"
  return { part_name := part.name,
           description := some (part.name ++ " - " ++ toString width_mm ++ "mm × " ++
             toString height_mm ++ "mm"),
           width_mm := width_mm, height_mm := height_mm, depth_mm := some depth_mm,
           qty := part.qty, area_m2 := part.area_m2, edge_band_m := part.edge_band_m }

/-- Parameter names of the legacy `calculate_unit_parts`
(unit_calculator.py lines 44-52). -/
def legacy_calculate_unit_parts_params : List String :=
  ["unit_type", "width_cm", "height_cm", "depth_cm", "shelf_count", "settings", "options"]

/-- Keyword names used at the call inside `generate_summary`
(summary_generator.py lines 71-79). -/
def generate_summary_call_keywords : List String :=
  ["unit_type", "width_mm", "height_mm", "depth_mm", "shelf_count", "settings", "options"]

/-- Parameter names of `calculate_internal_counter_parts`
(internal_counter_calculator.py lines 17-24). -/
def internal_counter_params : List String :=
  ["unit_type", "unit_width_cm", "unit_height_cm", "unit_depth_cm", "settings", "options"]

/-- Keyword names used at the internal-counter call inside `generate_summary`
(summary_generator.py lines 105-112). -/
def internal_counter_call_keywords : List String :=
  ["unit_type", "unit_width_mm", "unit_height_mm", "unit_depth_mm", "settings", "options"]

/-- First keyword of a call that matches no parameter of the callee; Python raises
TypeError on such a keyword when binding the call. -/
def findBadKeyword (params kwargs : List String) : Option String :=
  kwargs.find? (fun k => !params.contains k)

/-- Models the call `calculate_unit_parts(unit_type=..., width_mm=..., ...)` at
summary_generator.py lines 71-79 with Python keyword binding.  The keyword
`width_mm` matches no parameter of the legacy `calculate_unit_parts`, so the
binding raises TypeError; the fallthrough shows the positional correspondence the
call intends and is unreachable with the actual keyword lists. -/
def callLegacyCalculateUnitParts (unit_type : UnitType) (width_mm height_mm depth_mm : ℚ)
    (shelf_count : ℤ) (settings : SettingsModel) (options : List (String × ℚ)) :
    Except PyError (List Part) :=
  match findBadKeyword legacy_calculate_unit_parts_params generate_summary_call_keywords with
  | some k => Except.error (PyError.typeError k)
  | none => UnitCalculatorLegacy.calculate_unit_parts unit_type width_mm height_mm depth_mm
      shelf_count settings options

/-- Models the call `calculate_internal_counter_parts(unit_type=..., unit_width_mm=...,
...)` at summary_generator.py lines 105-112.  The keyword `unit_width_mm` matches no
parameter of the callee, so the binding raises TypeError.  Even a successful binding
would immediately raise AttributeError: the callee's first statement reads
`settings.default_board_thickness_cm` (internal_counter_calculator.py line 32), a
field `SettingsModel` does not define. -/
def callCalculateInternalCounterParts (settings : SettingsModel) : Except PyError Unit :=
  match findBadKeyword internal_counter_params internal_counter_call_keywords with
  | some k => Except.error (PyError.typeError k)
  | none =>
    match settings.getFloatAttr "default_board_thickness_cm" with
    | none => Except.error (PyError.attributeError "default_board_thickness_cm")
    | some _ => Except.ok ()

/-- Result record of `generate_summary` (summary_generator.py lines 172-177): items,
totals, material usage and costs. -/
structure GeneratedSummary where
  items : List SummaryItem
  total_area_m2 : ℚ
  total_edge_band_m : ℚ
  total_parts : ℤ
  total_qty : ℤ
  material_usage : List (String × ℚ)
  costs : List (String × ℚ)
deriving Repr, DecidableEq

/-- Embeds `generate_summary` (summary_generator.py lines 50-177).  The first step
is the keyword call to the legacy `calculate_unit_parts` with `width_mm=...`
keywords (lines 71-79), which raises TypeError on every invocation; everything
after that first step is consequently unreachable, and the merge of internal
counter items into the summary (lines 114-140) is elided because the internal call
itself raises first. -/
def generate_summary (unit_type : UnitType) (width_mm height_mm depth_mm : ℚ)
    (shelf_count : ℤ) (settings : SettingsModel) (options : List (String × ℚ))
    (include_internal_counter : Bool) : Except PyError GeneratedSummary := do
  let parts ← callLegacyCalculateUnitParts unit_type width_mm height_mm depth_mm shelf_count
    settings options
  let total_edge_band_m := UnitCalculatorLegacy.calculate_total_edge_band parts
  let total_area_m2 := UnitCalculatorLegacy.calculate_total_area parts
  let material_usage ← UnitCalculatorLegacy.calculate_material_usage total_area_m2
    total_edge_band_m settings
  let summary_items ← parts.mapM part_to_summary_item
  if include_internal_counter then
    let _ ← callCalculateInternalCounterParts settings
    pure ()
  else
    pure ()
  let material_cost : Option ℚ :=
    match (settings.materials.lookup "plywood_sheet").bind (fun m => m.price_per_sheet) with
    | some price =>
      if price ≠ 0 then
        some (roundTo 2 (((material_usage.lookup "ألواح الخشب").getD 0) * price))
      else none
    | none => none
  let edge_band_cost : Option ℚ :=
    match (settings.materials.lookup "edge_band_per_meter").bind
        (fun m => m.price_per_meter) with
    | some price => if price ≠ 0 then some (roundTo 2 (total_edge_band_m * price)) else none
    | none => none
  let costs : List (String × ℚ) :=
    (match material_cost with | some c => [("material_cost", c)] | none => []) ++
    (match edge_band_cost with | some c => [("edge_band_cost", c)] | none => []) ++
    [("total_cost", roundTo 2 ((material_cost.getD 0) + (edge_band_cost.getD 0)))]
  return { items := summary_items,
           total_area_m2 := roundTo 4 total_area_m2,
           total_edge_band_m := roundTo 2 total_edge_band_m,
           total_parts := summary_items.length,
           total_qty := (summary_items.map SummaryItem.qty).sum,
           material_usage := material_usage,
           costs := costs }

end SummaryGenerator

namespace UnitCalculators

/-- Every part of the list leaves `edge_band_m` unset. -/
def edgeBandFree (L : List Part) : Prop := ∀ p ∈ L, p.edge_band_m = none

/-- Forgets exactly the fields of a part that the assembly-method selector is
allowed to influence in `calculate_ground_unit`: the base length and the side
height are both stored in `height_cm`, and the areas are derived from them.  Parts
of any other name are kept whole, so equality of images states that the selector
changes nothing else. -/
def neutralizeAssemblyDims (p : Part) : Part :=
  if p.name = "base" ∨ p.name = "side_panel" then { p with height_cm := 0, area_m2 := none }
  else p

/-- Dispatcher output for a ground unit 80×72×30 with 2 shelves, 2 doors and the
default configuration: concrete evaluation data. -/
def groundPartsExample : List Part :=
  applyEdgeBandingDeduction {} (calculate_ground_unit 80 72 30 2 2 {})

/-- Default configuration with the designated banding style O. -/
def bandedSettings : SettingsModel := { edge_banding_type := EdgeBandingType.O }

/-- Default configuration with the non-designated banding style `-`. -/
def unbandedSettings : SettingsModel := { edge_banding_type := EdgeBandingType.NONE }

/-- Dispatcher output for the ground unit 80×72×30 (2 shelves, 2 doors) under the
designated banding style O. -/
def bandedGroundParts : List Part :=
  applyEdgeBandingDeduction bandedSettings (calculate_ground_unit 80 72 30 2 2 bandedSettings)

/-- Dispatcher output for the same ground unit under the non-designated style. -/
def unbandedGroundParts : List Part :=
  applyEdgeBandingDeduction unbandedSettings
    (calculate_ground_unit 80 72 30 2 2 unbandedSettings)

/-- A one-part edge breakdown of wood type with 2 m of banding: concrete
evaluation data for the cost function. -/
def exampleEdgeBreakdown : List EdgeBandPart :=
  [{ part_name := "panel", qty := 1, edges := [], total_edge_m := 2,
     edge_type := EdgeType.wood }]

/-- Configuration pricing the wood-specific banding key at 5 per meter. -/
def woodPricedSettings : SettingsModel :=
  { materials := [("edge_band_wood_per_meter", { price_per_meter := some 5 })] }

/-- Configuration with only the generic banding key, at 3 per meter. -/
def genericPricedSettings : SettingsModel :=
  { materials := [("edge_band_per_meter", { price_per_meter := some 3 })] }

theorem edgeBandFree_nil : edgeBandFree [] := by
  intro p hp
  cases hp

theorem edgeBandFree_cons {p : Part} {l : List Part} (hp : p.edge_band_m = none)
    (hl : edgeBandFree l) : edgeBandFree (p :: l) := by
  intro q hq
  rcases List.mem_cons.mp hq with rfl | hq
  · exact hp
  · exact hl q hq

theorem edgeBandFree_append {l₁ l₂ : List Part} (h₁ : edgeBandFree l₁)
    (h₂ : edgeBandFree l₂) : edgeBandFree (l₁ ++ l₂) := by
  intro q hq
  rcases List.mem_append.mp hq with hq | hq
  · exact h₁ q hq
  · exact h₂ q hq

theorem edgeBandFree_ite {c : Prop} [Decidable c] {l : List Part} (h : edgeBandFree l) :
    edgeBandFree (if c then l else []) := by
  split
  · exact h
  · exact edgeBandFree_nil

theorem calculate_ground_unit_edgeBandFree (width_cm height_cm depth_cm : ℚ)
    (shelf_count door_count : ℤ) (settings : SettingsModel) :
    edgeBandFree (calculate_ground_unit width_cm height_cm depth_cm shelf_count door_count
      settings) := by
  unfold calculate_ground_unit
  repeat
    first
    | exact edgeBandFree_nil
    | refine edgeBandFree_cons rfl ?_
    | apply edgeBandFree_ite
    | apply edgeBandFree_append

theorem calculate_sink_unit_edgeBandFree (width_cm height_cm depth_cm : ℚ)
    (shelf_count door_count : ℤ) (settings : SettingsModel) :
    edgeBandFree (calculate_sink_unit width_cm height_cm depth_cm shelf_count door_count
      settings) := by
  unfold calculate_sink_unit
  repeat
    first
    | exact edgeBandFree_nil
    | refine edgeBandFree_cons rfl ?_
    | apply edgeBandFree_ite
    | apply edgeBandFree_append

theorem calculate_drawers_unit_edgeBandFree (width_cm height_cm depth_cm : ℚ)
    (shelf_count door_count drawer_count : ℤ) (drawer_height_cm : ℚ)
    (settings : SettingsModel) :
    edgeBandFree (calculate_drawers_unit width_cm height_cm depth_cm shelf_count door_count
      drawer_count drawer_height_cm settings) := by
  unfold calculate_drawers_unit
  repeat
    first
    | exact edgeBandFree_nil
    | refine edgeBandFree_cons rfl ?_
    | apply edgeBandFree_ite
    | apply edgeBandFree_append

theorem calculate_drawers_bottom_rail_unit_edgeBandFree (width_cm height_cm depth_cm : ℚ)
    (shelf_count door_count drawer_count : ℤ) (drawer_height_cm : ℚ)
    (settings : SettingsModel) :
    edgeBandFree (calculate_drawers_bottom_rail_unit width_cm height_cm depth_cm shelf_count
      door_count drawer_count drawer_height_cm settings) := by
  unfold calculate_drawers_bottom_rail_unit
  repeat
    first
    | exact edgeBandFree_nil
    | refine edgeBandFree_cons rfl ?_
    | apply edgeBandFree_ite
    | apply edgeBandFree_append

theorem calculate_ground_fixed_unit_edgeBandFree (width_cm height_cm depth_cm : ℚ)
    (shelf_count door_count : ℤ) (fixed_part_cm : ℚ) (settings : SettingsModel) :
    edgeBandFree (calculate_ground_fixed_unit width_cm height_cm depth_cm shelf_count
      door_count fixed_part_cm settings) := by
  unfold calculate_ground_fixed_unit
  repeat
    first
    | exact edgeBandFree_nil
    | refine edgeBandFree_cons rfl ?_
    | apply edgeBandFree_ite
    | apply edgeBandFree_append

theorem calculate_sink_fixed_unit_edgeBandFree (width_cm height_cm depth_cm : ℚ)
    (shelf_count door_count : ℤ) (fixed_part_cm : ℚ) (settings : SettingsModel) :
    edgeBandFree (calculate_sink_fixed_unit width_cm height_cm depth_cm shelf_count
      door_count fixed_part_cm settings) := by
  unfold calculate_sink_fixed_unit
  repeat
    first
    | exact edgeBandFree_nil
    | refine edgeBandFree_cons rfl ?_
    | apply edgeBandFree_ite
    | apply edgeBandFree_append

theorem calculate_wall_unit_edgeBandFree (width_cm height_cm depth_cm : ℚ)
    (shelf_count door_count : ℤ) (door_type : String) (settings : SettingsModel) :
    edgeBandFree (calculate_wall_unit width_cm height_cm depth_cm shelf_count door_count
      door_type settings) := by
  unfold calculate_wall_unit
  repeat
    first
    | exact edgeBandFree_nil
    | refine edgeBandFree_cons rfl ?_
    | apply edgeBandFree_ite
    | apply edgeBandFree_append
  split <;>
  repeat
    first
    | exact edgeBandFree_nil
    | refine edgeBandFree_cons rfl ?_

theorem calculate_wall_fixed_unit_edgeBandFree (width_cm height_cm depth_cm : ℚ)
    (shelf_count door_count : ℤ) (fixed_part_cm : ℚ) (settings : SettingsModel) :
    edgeBandFree (calculate_wall_fixed_unit width_cm height_cm depth_cm shelf_count
      door_count fixed_part_cm settings) := by
  unfold calculate_wall_fixed_unit
  repeat
    first
    | exact edgeBandFree_nil
    | refine edgeBandFree_cons rfl ?_
    | apply edgeBandFree_ite
    | apply edgeBandFree_append

theorem calculate_wall_flip_top_doors_bottom_unit_edgeBandFree
    (width_cm height_cm depth_cm : ℚ) (shelf_count door_count : ℤ)
    (flip_door_height : ℚ) (settings : SettingsModel) :
    edgeBandFree (calculate_wall_flip_top_doors_bottom_unit width_cm height_cm depth_cm
      shelf_count door_count flip_door_height settings) := by
  unfold calculate_wall_flip_top_doors_bottom_unit
  repeat
    first
    | exact edgeBandFree_nil
    | refine edgeBandFree_cons rfl ?_
    | apply edgeBandFree_ite
    | apply edgeBandFree_append

theorem calculate_tall_doors_unit_edgeBandFree (width_cm height_cm depth_cm : ℚ)
    (shelf_count door_count : ℤ) (bottom_door_height : ℚ) (settings : SettingsModel) :
    edgeBandFree (calculate_tall_doors_unit width_cm height_cm depth_cm shelf_count
      door_count bottom_door_height settings) := by
  unfold calculate_tall_doors_unit
  repeat
    first
    | exact edgeBandFree_nil
    | refine edgeBandFree_cons rfl ?_
    | apply edgeBandFree_ite
    | apply edgeBandFree_append

theorem calculate_corner_l_wall_unit_edgeBandFree (width_cm width_2_cm height_cm depth_cm
    depth_2_cm : ℚ) (shelf_count : ℤ) (settings : SettingsModel) :
    edgeBandFree (calculate_corner_l_wall_unit width_cm width_2_cm height_cm depth_cm
      depth_2_cm shelf_count settings) := by
  unfold calculate_corner_l_wall_unit
  repeat
    first
    | exact edgeBandFree_nil
    | refine edgeBandFree_cons rfl ?_
    | apply edgeBandFree_ite
    | apply edgeBandFree_append

theorem calculate_tall_doors_appliances_unit_edgeBandFree (width_cm height_cm depth_cm : ℚ)
    (shelf_count door_count : ℤ) (door_type : String)
    (bottom_door_height oven_height microwave_height vent_height : ℚ)
    (settings : SettingsModel) :
    edgeBandFree (calculate_tall_doors_appliances_unit width_cm height_cm depth_cm
      shelf_count door_count door_type bottom_door_height oven_height microwave_height
      vent_height settings) := by
  unfold calculate_tall_doors_appliances_unit
  repeat
    first
    | exact edgeBandFree_nil
    | refine edgeBandFree_cons rfl ?_
    | apply edgeBandFree_ite
    | apply edgeBandFree_append
  split <;>
  repeat
    first
    | exact edgeBandFree_nil
    | refine edgeBandFree_cons rfl ?_

theorem calculate_tall_drawers_side_doors_top_unit_edgeBandFree
    (width_cm height_cm depth_cm : ℚ) (shelf_count door_count : ℤ) (door_type : String)
    (drawer_count : ℤ) (drawer_height_cm bottom_door_height : ℚ)
    (settings : SettingsModel) :
    edgeBandFree (calculate_tall_drawers_side_doors_top_unit width_cm height_cm depth_cm
      shelf_count door_count door_type drawer_count drawer_height_cm bottom_door_height
      settings) := by
  unfold calculate_tall_drawers_side_doors_top_unit
  repeat
    first
    | exact edgeBandFree_nil
    | refine edgeBandFree_cons rfl ?_
    | apply edgeBandFree_ite
    | apply edgeBandFree_append
  split <;>
  repeat
    first
    | exact edgeBandFree_nil
    | refine edgeBandFree_cons rfl ?_

theorem calculate_tall_drawers_bottom_rail_top_doors_unit_edgeBandFree
    (width_cm height_cm depth_cm : ℚ) (shelf_count door_count : ℤ) (door_type : String)
    (drawer_count : ℤ) (drawer_height_cm bottom_door_height : ℚ)
    (settings : SettingsModel) :
    edgeBandFree (calculate_tall_drawers_bottom_rail_top_doors_unit width_cm height_cm
      depth_cm shelf_count door_count door_type drawer_count drawer_height_cm
      bottom_door_height settings) := by
  unfold calculate_tall_drawers_bottom_rail_top_doors_unit
  repeat
    first
    | exact edgeBandFree_nil
    | refine edgeBandFree_cons rfl ?_
    | apply edgeBandFree_ite
    | apply edgeBandFree_append
  split <;>
  repeat
    first
    | exact edgeBandFree_nil
    | refine edgeBandFree_cons rfl ?_

theorem calculate_tall_drawers_side_appliances_doors_unit_edgeBandFree
    (width_cm height_cm depth_cm : ℚ) (shelf_count door_count : ℤ) (door_type : String)
    (drawer_count : ℤ)
    (drawer_height_cm bottom_door_height oven_height microwave_height vent_height : ℚ)
    (settings : SettingsModel) :
    edgeBandFree (calculate_tall_drawers_side_appliances_doors_unit width_cm height_cm
      depth_cm shelf_count door_count door_type drawer_count drawer_height_cm
      bottom_door_height oven_height microwave_height vent_height settings) := by
  unfold calculate_tall_drawers_side_appliances_doors_unit
  repeat
    first
    | exact edgeBandFree_nil
    | refine edgeBandFree_cons rfl ?_
    | apply edgeBandFree_ite
    | apply edgeBandFree_append
  split <;>
  repeat
    first
    | exact edgeBandFree_nil
    | refine edgeBandFree_cons rfl ?_

theorem calculate_tall_drawers_bottom_appliances_doors_top_unit_edgeBandFree
    (width_cm height_cm depth_cm : ℚ) (shelf_count door_count : ℤ) (door_type : String)
    (drawer_count : ℤ)
    (drawer_height_cm bottom_door_height oven_height microwave_height vent_height : ℚ)
    (settings : SettingsModel) :
    edgeBandFree (calculate_tall_drawers_bottom_appliances_doors_top_unit width_cm height_cm
      depth_cm shelf_count door_count door_type drawer_count drawer_height_cm
      bottom_door_height oven_height microwave_height vent_height settings) := by
  unfold calculate_tall_drawers_bottom_appliances_doors_top_unit
  repeat
    first
    | exact edgeBandFree_nil
    | refine edgeBandFree_cons rfl ?_
    | apply edgeBandFree_ite
    | apply edgeBandFree_append
  split <;>
  repeat
    first
    | exact edgeBandFree_nil
    | refine edgeBandFree_cons rfl ?_

theorem calculate_two_small_20_one_large_side_unit_edgeBandFree
    (width_cm height_cm depth_cm : ℚ) (drawer_count : ℤ) (settings : SettingsModel) :
    edgeBandFree (calculate_two_small_20_one_large_side_unit width_cm height_cm depth_cm
      drawer_count settings) := by
  unfold calculate_two_small_20_one_large_side_unit
  repeat
    first
    | exact edgeBandFree_nil
    | refine edgeBandFree_cons rfl ?_
    | apply edgeBandFree_ite
    | apply edgeBandFree_append

theorem calculate_two_small_20_one_large_bottom_unit_edgeBandFree
    (width_cm height_cm depth_cm : ℚ) (drawer_count : ℤ) (settings : SettingsModel) :
    edgeBandFree (calculate_two_small_20_one_large_bottom_unit width_cm height_cm depth_cm
      drawer_count settings) := by
  unfold calculate_two_small_20_one_large_bottom_unit
  repeat
    first
    | exact edgeBandFree_nil
    | refine edgeBandFree_cons rfl ?_
    | apply edgeBandFree_ite
    | apply edgeBandFree_append

theorem calculate_one_small_16_two_large_side_unit_edgeBandFree
    (width_cm height_cm depth_cm : ℚ) (drawer_count : ℤ) (settings : SettingsModel) :
    edgeBandFree (calculate_one_small_16_two_large_side_unit width_cm height_cm depth_cm
      drawer_count settings) := by
  unfold calculate_one_small_16_two_large_side_unit
  repeat
    first
    | exact edgeBandFree_nil
    | refine edgeBandFree_cons rfl ?_
    | apply edgeBandFree_ite
    | apply edgeBandFree_append

theorem calculate_one_small_16_two_large_bottom_unit_edgeBandFree
    (width_cm height_cm depth_cm : ℚ) (drawer_count : ℤ) (settings : SettingsModel) :
    edgeBandFree (calculate_one_small_16_two_large_bottom_unit width_cm height_cm depth_cm
      drawer_count settings) := by
  unfold calculate_one_small_16_two_large_bottom_unit
  repeat
    first
    | exact edgeBandFree_nil
    | refine edgeBandFree_cons rfl ?_
    | apply edgeBandFree_ite
    | apply edgeBandFree_append

theorem calculate_three_turbo_unit_edgeBandFree (width_cm height_cm depth_cm : ℚ)
    (settings : SettingsModel) :
    edgeBandFree (calculate_three_turbo_unit width_cm height_cm depth_cm settings) := by
  unfold calculate_three_turbo_unit
  repeat
    first
    | exact edgeBandFree_nil
    | refine edgeBandFree_cons rfl ?_
    | apply edgeBandFree_ite
    | apply edgeBandFree_append

theorem calculate_drawer_built_in_oven_unit_edgeBandFree
    (width_cm height_cm depth_cm oven_height : ℚ) (settings : SettingsModel) :
    edgeBandFree (calculate_drawer_built_in_oven_unit width_cm height_cm depth_cm
      oven_height settings) := by
  unfold calculate_drawer_built_in_oven_unit
  repeat
    first
    | exact edgeBandFree_nil
    | refine edgeBandFree_cons rfl ?_
    | apply edgeBandFree_ite
    | apply edgeBandFree_append

theorem calculate_drawer_bottom_rail_built_in_oven_unit_edgeBandFree
    (width_cm height_cm depth_cm oven_height : ℚ) (settings : SettingsModel) :
    edgeBandFree (calculate_drawer_bottom_rail_built_in_oven_unit width_cm height_cm
      depth_cm oven_height settings) := by
  unfold calculate_drawer_bottom_rail_built_in_oven_unit
  repeat
    first
    | exact edgeBandFree_nil
    | refine edgeBandFree_cons rfl ?_
    | apply edgeBandFree_ite
    | apply edgeBandFree_append

theorem calculate_wall_microwave_unit_edgeBandFree (width_cm height_cm depth_cm : ℚ)
    (shelf_count door_count : ℤ) (door_type : String) (microwave_height : ℚ)
    (settings : SettingsModel) (parts : List Part)
    (h : calculate_wall_microwave_unit width_cm height_cm depth_cm shelf_count door_count
      door_type microwave_height settings = Except.ok parts) : edgeBandFree parts := by
  by_cases hdt : door_type = "flip" <;> by_cases hdc : door_count = 0 <;>
    simp [calculate_wall_microwave_unit, hdt, hdc] at h <;> subst h <;>
    repeat
      first
      | exact edgeBandFree_nil
      | refine edgeBandFree_cons rfl ?_
      | apply edgeBandFree_ite
      | apply edgeBandFree_append

theorem calculate_tall_wooden_base_unit_edgeBandFree (width_cm height_cm depth_cm : ℚ)
    (shelf_count door_count : ℤ) (settings : SettingsModel) (parts : List Part)
    (h : calculate_tall_wooden_base_unit width_cm height_cm depth_cm shelf_count door_count
      settings = Except.ok parts) : edgeBandFree parts := by
  by_cases hdc : door_count = 0
  · simp [calculate_tall_wooden_base_unit, hdc] at h
  · simp [calculate_tall_wooden_base_unit, hdc] at h
    subst h
    repeat
      first
      | exact edgeBandFree_nil
      | refine edgeBandFree_cons rfl ?_
      | apply edgeBandFree_ite
      | apply edgeBandFree_append

/-- The deduction map does not touch the `edge_band_m` field. -/
theorem bandingDeductionMap_edge_band (p : Part) :
    (bandingDeductionMap p).edge_band_m = p.edge_band_m := by
  unfold bandingDeductionMap deductBandingFromPart
  split <;> rfl

theorem applyEdgeBandingDeduction_edgeBandFree (settings : SettingsModel) {L : List Part}
    (h : edgeBandFree L) : edgeBandFree (applyEdgeBandingDeduction settings L) := by
  unfold applyEdgeBandingDeduction
  split
  · intro q hq
    obtain ⟨p, hp, rfl⟩ := List.mem_map.mp hq
    rw [bandingDeductionMap_edge_band]
    exact h p hp
  · exact h

theorem calculate_total_edge_band_eq_zero {L : List Part} (h : edgeBandFree L) :
    calculate_total_edge_band L = 0 := by
  induction L with
  | nil => rfl
  | cons p l ih =>
    have hp := h p (List.mem_cons_self p l)
    have hl : edgeBandFree l := fun q hq => h q (List.mem_cons_of_mem p hq)
    simp [calculate_total_edge_band, hp]
    simpa [calculate_total_edge_band] using ih hl

theorem except_map_ok {α β ε : Type} {f : α → β} {x : Except ε α} {b : β}
    (h : x.map f = Except.ok b) : ∃ a, x = Except.ok a ∧ b = f a := by
  cases x with
  | error e => exact Except.noConfusion h
  | ok a => exact ⟨a, rfl, (Except.ok.inj h).symm⟩

theorem except_map_error {α β ε : Type} {f : α → β} {x : Except ε α} {e : ε}
    (h : x.map f = Except.error e) : x = Except.error e := by
  cases x with
  | error e0 =>
    have he : e0 = e := Except.error.inj h
    rw [he]
  | ok a => exact Except.noConfusion h

/-- Under a designated banding style the post-processing step deducts from every
targeted part. -/
theorem applyEdgeBandingDeduction_designated (settings : SettingsModel) (L : List Part)
    (h : settings.edge_banding_type.value ∈ designatedBandingCodes) :
    applyEdgeBandingDeduction settings L = L.map bandingDeductionMap := by
  unfold applyEdgeBandingDeduction
  rw [if_pos h]

/-- Under a non-designated banding style the post-processing step is the identity. -/
theorem applyEdgeBandingDeduction_not_designated (settings : SettingsModel) (L : List Part)
    (h : settings.edge_banding_type.value ∉ designatedBandingCodes) :
    applyEdgeBandingDeduction settings L = L := by
  unfold applyEdgeBandingDeduction
  rw [if_neg h]

/-- The wall-microwave calculator can fail only with ZeroDivisionError, never with
the dispatcher's unrecognized-type ValueError. -/
theorem calculate_wall_microwave_unit_no_valueError (width_cm height_cm depth_cm : ℚ)
    (shelf_count door_count : ℤ) (door_type : String) (microwave_height : ℚ)
    (settings : SettingsModel) (msg : String) :
    calculate_wall_microwave_unit width_cm height_cm depth_cm shelf_count door_count
      door_type microwave_height settings ≠ Except.error (PyError.valueError msg) := by
  intro h
  by_cases hdt : door_type = "flip" <;> by_cases hdc : door_count = 0 <;>
    simp [calculate_wall_microwave_unit, hdt, hdc] at h

/-- The tall-wooden-base calculator can fail only with ZeroDivisionError, never with
the dispatcher's unrecognized-type ValueError. -/
theorem calculate_tall_wooden_base_unit_no_valueError (width_cm height_cm depth_cm : ℚ)
    (shelf_count door_count : ℤ) (settings : SettingsModel) (msg : String) :
    calculate_tall_wooden_base_unit width_cm height_cm depth_cm shelf_count door_count
      settings ≠ Except.error (PyError.valueError msg) := by
  intro h
  by_cases hdc : door_count = 0 <;>
    simp [calculate_tall_wooden_base_unit, hdc] at h

/-- Exhaustive branch analysis of the dispatcher, quantified over the configured
edge-banding style: an unrecognized type always yields the ValueError; "drawers"
always returns the raw drawer calculator output, ignoring the banding style; every
other implemented type equals a style-independent core result post-processed by the
banding deduction, where the core is never a ValueError and its successful part
lists carry no `edge_band_m`. -/
theorem dispatcher_branches (unit_type : String) (width_cm height_cm depth_cm : ℚ)
    (shelf_count door_count : ℤ) (door_type : String)
    (flip_door_height bottom_door_height oven_height microwave_height vent_height : ℚ)
    (drawer_count : ℤ) (drawer_height_cm fixed_part_cm width_2_cm depth_2_cm : ℚ)
    (settings : SettingsModel) :
    (unit_type ∉ implementedUnitTypes ∧ ∀ e : EdgeBandingType,
        calculate_unit_parts unit_type width_cm height_cm depth_cm shelf_count door_count door_type flip_door_height bottom_door_height oven_height microwave_height vent_height drawer_count drawer_height_cm fixed_part_cm width_2_cm depth_2_cm
          {settings with edge_banding_type := e} =
          Except.error (PyError.valueError unit_type)) ∨
    (unit_type = "drawers" ∧ ∀ e : EdgeBandingType,
        calculate_unit_parts unit_type width_cm height_cm depth_cm shelf_count door_count door_type flip_door_height bottom_door_height oven_height microwave_height vent_height drawer_count drawer_height_cm fixed_part_cm width_2_cm depth_2_cm
          {settings with edge_banding_type := e} =
          Except.ok (calculate_drawers_unit width_cm height_cm depth_cm shelf_count
            door_count drawer_count drawer_height_cm settings)) ∨
    (unit_type ∈ implementedUnitTypes ∧ unit_type ≠ "drawers" ∧
      ∃ core : Except PyError (List Part),
        (∀ L, core = Except.ok L → edgeBandFree L) ∧
        (∀ msg, core ≠ Except.error (PyError.valueError msg)) ∧
        (∀ e : EdgeBandingType,
          calculate_unit_parts unit_type width_cm height_cm depth_cm shelf_count door_count door_type flip_door_height bottom_door_height oven_height microwave_height vent_height drawer_count drawer_height_cm fixed_part_cm width_2_cm depth_2_cm
          {settings with edge_banding_type := e} =
            core.map (applyEdgeBandingDeduction {settings with edge_banding_type := e}))) := by
  by_cases h0 : unit_type = "ground"
  · right; right
    refine ⟨?_, ?_, Except.ok (calculate_ground_unit width_cm height_cm depth_cm shelf_count door_count settings), ?_, ?_, ?_⟩
    · rw [h0]; decide
    · rw [h0]; decide
    · intro L hL
      injection hL with hL
      subst hL
      apply calculate_ground_unit_edgeBandFree
    · intro msg hmsg
      exact Except.noConfusion hmsg
    · intro e
      unfold calculate_unit_parts
      rw [if_pos h0]
      try rfl
  · by_cases h1 : unit_type = "sink"
    · right; right
      refine ⟨?_, ?_, Except.ok (calculate_sink_unit width_cm height_cm depth_cm shelf_count door_count settings), ?_, ?_, ?_⟩
      · rw [h1]; decide
      · rw [h1]; decide
      · intro L hL
        injection hL with hL
        subst hL
        apply calculate_sink_unit_edgeBandFree
      · intro msg hmsg
        exact Except.noConfusion hmsg
      · intro e
        unfold calculate_unit_parts
        rw [if_neg h0, if_pos h1]
        try rfl
    · by_cases h2 : unit_type = "wall"
      · right; right
        refine ⟨?_, ?_, Except.ok (calculate_wall_unit width_cm height_cm depth_cm shelf_count door_count door_type settings), ?_, ?_, ?_⟩
        · rw [h2]; decide
        · rw [h2]; decide
        · intro L hL
          injection hL with hL
          subst hL
          apply calculate_wall_unit_edgeBandFree
        · intro msg hmsg
          exact Except.noConfusion hmsg
        · intro e
          unfold calculate_unit_parts
          rw [if_neg h0, if_neg h1, if_pos h2]
          try rfl
      · by_cases h3 : unit_type = "drawers"
        · right; left
          refine ⟨h3, ?_⟩
          intro e
          unfold calculate_unit_parts
          rw [if_neg h0, if_neg h1, if_neg h2, if_pos h3]
          try rfl
        · by_cases h4 : unit_type = "drawers_bottom_rail"
          · right; right
            refine ⟨?_, ?_, Except.ok (calculate_drawers_bottom_rail_unit width_cm height_cm depth_cm shelf_count door_count drawer_count drawer_height_cm settings), ?_, ?_, ?_⟩
            · rw [h4]; decide
            · rw [h4]; decide
            · intro L hL
              injection hL with hL
              subst hL
              apply calculate_drawers_bottom_rail_unit_edgeBandFree
            · intro msg hmsg
              exact Except.noConfusion hmsg
            · intro e
              unfold calculate_unit_parts
              rw [if_neg h0, if_neg h1, if_neg h2, if_neg h3, if_pos h4]
              try rfl
          · by_cases h5 : unit_type = "ground_fixed"
            · right; right
              refine ⟨?_, ?_, Except.ok (calculate_ground_fixed_unit width_cm height_cm depth_cm shelf_count door_count fixed_part_cm settings), ?_, ?_, ?_⟩
              · rw [h5]; decide
              · rw [h5]; decide
              · intro L hL
                injection hL with hL
                subst hL
                apply calculate_ground_fixed_unit_edgeBandFree
              · intro msg hmsg
                exact Except.noConfusion hmsg
              · intro e
                unfold calculate_unit_parts
                rw [if_neg h0, if_neg h1, if_neg h2, if_neg h3, if_neg h4, if_pos h5]
                try rfl
            · by_cases h6 : unit_type = "sink_fixed"
              · right; right
                refine ⟨?_, ?_, Except.ok (calculate_sink_fixed_unit width_cm height_cm depth_cm shelf_count door_count fixed_part_cm settings), ?_, ?_, ?_⟩
                · rw [h6]; decide
                · rw [h6]; decide
                · intro L hL
                  injection hL with hL
                  subst hL
                  apply calculate_sink_fixed_unit_edgeBandFree
                · intro msg hmsg
                  exact Except.noConfusion hmsg
                · intro e
                  unfold calculate_unit_parts
                  rw [if_neg h0, if_neg h1, if_neg h2, if_neg h3, if_neg h4, if_neg h5, if_pos h6]
                  try rfl
              · by_cases h7 : unit_type = "wall_fixed"
                · right; right
                  refine ⟨?_, ?_, Except.ok (calculate_wall_fixed_unit width_cm height_cm depth_cm shelf_count door_count fixed_part_cm settings), ?_, ?_, ?_⟩
                  · rw [h7]; decide
                  · rw [h7]; decide
                  · intro L hL
                    injection hL with hL
                    subst hL
                    apply calculate_wall_fixed_unit_edgeBandFree
                  · intro msg hmsg
                    exact Except.noConfusion hmsg
                  · intro e
                    unfold calculate_unit_parts
                    rw [if_neg h0, if_neg h1, if_neg h2, if_neg h3, if_neg h4, if_neg h5, if_neg h6, if_pos h7]
                    try rfl
                · by_cases h8 : unit_type = "wall_flip_top_doors_bottom"
                  · right; right
                    refine ⟨?_, ?_, Except.ok (calculate_wall_flip_top_doors_bottom_unit width_cm height_cm depth_cm shelf_count door_count flip_door_height settings), ?_, ?_, ?_⟩
                    · rw [h8]; decide
                    · rw [h8]; decide
                    · intro L hL
                      injection hL with hL
                      subst hL
                      apply calculate_wall_flip_top_doors_bottom_unit_edgeBandFree
                    · intro msg hmsg
                      exact Except.noConfusion hmsg
                    · intro e
                      unfold calculate_unit_parts
                      rw [if_neg h0, if_neg h1, if_neg h2, if_neg h3, if_neg h4, if_neg h5, if_neg h6, if_neg h7, if_pos h8]
                      try rfl
                  · by_cases h9 : unit_type = "tall_doors"
                    · right; right
                      refine ⟨?_, ?_, Except.ok (calculate_tall_doors_unit width_cm height_cm depth_cm shelf_count door_count bottom_door_height settings), ?_, ?_, ?_⟩
                      · rw [h9]; decide
                      · rw [h9]; decide
                      · intro L hL
                        injection hL with hL
                        subst hL
                        apply calculate_tall_doors_unit_edgeBandFree
                      · intro msg hmsg
                        exact Except.noConfusion hmsg
                      · intro e
                        unfold calculate_unit_parts
                        rw [if_neg h0, if_neg h1, if_neg h2, if_neg h3, if_neg h4, if_neg h5, if_neg h6, if_neg h7, if_neg h8, if_pos h9]
                        try rfl
                    · by_cases h10 : unit_type = "tall_doors_appliances"
                      · right; right
                        refine ⟨?_, ?_, Except.ok (calculate_tall_doors_appliances_unit width_cm height_cm depth_cm shelf_count door_count door_type bottom_door_height oven_height microwave_height vent_height settings), ?_, ?_, ?_⟩
                        · rw [h10]; decide
                        · rw [h10]; decide
                        · intro L hL
                          injection hL with hL
                          subst hL
                          apply calculate_tall_doors_appliances_unit_edgeBandFree
                        · intro msg hmsg
                          exact Except.noConfusion hmsg
                        · intro e
                          unfold calculate_unit_parts
                          rw [if_neg h0, if_neg h1, if_neg h2, if_neg h3, if_neg h4, if_neg h5, if_neg h6, if_neg h7, if_neg h8, if_neg h9, if_pos h10]
                          try rfl
                      · by_cases h11 : unit_type = "corner_l_wall"
                        · right; right
                          refine ⟨?_, ?_, Except.ok (calculate_corner_l_wall_unit width_cm width_2_cm height_cm depth_cm depth_2_cm shelf_count settings), ?_, ?_, ?_⟩
                          · rw [h11]; decide
                          · rw [h11]; decide
                          · intro L hL
                            injection hL with hL
                            subst hL
                            apply calculate_corner_l_wall_unit_edgeBandFree
                          · intro msg hmsg
                            exact Except.noConfusion hmsg
                          · intro e
                            unfold calculate_unit_parts
                            rw [if_neg h0, if_neg h1, if_neg h2, if_neg h3, if_neg h4, if_neg h5, if_neg h6, if_neg h7, if_neg h8, if_neg h9, if_neg h10, if_pos h11]
                            try rfl
                        · by_cases h12 : unit_type = "tall_drawers_side_doors_top"
                          · right; right
                            refine ⟨?_, ?_, Except.ok (calculate_tall_drawers_side_doors_top_unit width_cm height_cm depth_cm shelf_count door_count door_type drawer_count drawer_height_cm bottom_door_height settings), ?_, ?_, ?_⟩
                            · rw [h12]; decide
                            · rw [h12]; decide
                            · intro L hL
                              injection hL with hL
                              subst hL
                              apply calculate_tall_drawers_side_doors_top_unit_edgeBandFree
                            · intro msg hmsg
                              exact Except.noConfusion hmsg
                            · intro e
                              unfold calculate_unit_parts
                              rw [if_neg h0, if_neg h1, if_neg h2, if_neg h3, if_neg h4, if_neg h5, if_neg h6, if_neg h7, if_neg h8, if_neg h9, if_neg h10, if_neg h11, if_pos h12]
                              try rfl
                          · by_cases h13 : unit_type = "tall_drawers_bottom_rail_top_doors"
                            · right; right
                              refine ⟨?_, ?_, Except.ok (calculate_tall_drawers_bottom_rail_top_doors_unit width_cm height_cm depth_cm shelf_count door_count door_type drawer_count drawer_height_cm bottom_door_height settings), ?_, ?_, ?_⟩
                              · rw [h13]; decide
                              · rw [h13]; decide
                              · intro L hL
                                injection hL with hL
                                subst hL
                                apply calculate_tall_drawers_bottom_rail_top_doors_unit_edgeBandFree
                              · intro msg hmsg
                                exact Except.noConfusion hmsg
                              · intro e
                                unfold calculate_unit_parts
                                rw [if_neg h0, if_neg h1, if_neg h2, if_neg h3, if_neg h4, if_neg h5, if_neg h6, if_neg h7, if_neg h8, if_neg h9, if_neg h10, if_neg h11, if_neg h12, if_pos h13]
                                try rfl
                            · by_cases h14 : unit_type = "tall_drawers_side_appliances_doors"
                              · right; right
                                refine ⟨?_, ?_, Except.ok (calculate_tall_drawers_side_appliances_doors_unit width_cm height_cm depth_cm shelf_count door_count door_type drawer_count drawer_height_cm bottom_door_height oven_height microwave_height vent_height settings), ?_, ?_, ?_⟩
                                · rw [h14]; decide
                                · rw [h14]; decide
                                · intro L hL
                                  injection hL with hL
                                  subst hL
                                  apply calculate_tall_drawers_side_appliances_doors_unit_edgeBandFree
                                · intro msg hmsg
                                  exact Except.noConfusion hmsg
                                · intro e
                                  unfold calculate_unit_parts
                                  rw [if_neg h0, if_neg h1, if_neg h2, if_neg h3, if_neg h4, if_neg h5, if_neg h6, if_neg h7, if_neg h8, if_neg h9, if_neg h10, if_neg h11, if_neg h12, if_neg h13, if_pos h14]
                                  try rfl
                              · by_cases h15 : unit_type = "tall_drawers_bottom_appliances_doors_top"
                                · right; right
                                  refine ⟨?_, ?_, Except.ok (calculate_tall_drawers_bottom_appliances_doors_top_unit width_cm height_cm depth_cm shelf_count door_count door_type drawer_count drawer_height_cm bottom_door_height oven_height microwave_height vent_height settings), ?_, ?_, ?_⟩
                                  · rw [h15]; decide
                                  · rw [h15]; decide
                                  · intro L hL
                                    injection hL with hL
                                    subst hL
                                    apply calculate_tall_drawers_bottom_appliances_doors_top_unit_edgeBandFree
                                  · intro msg hmsg
                                    exact Except.noConfusion hmsg
                                  · intro e
                                    unfold calculate_unit_parts
                                    rw [if_neg h0, if_neg h1, if_neg h2, if_neg h3, if_neg h4, if_neg h5, if_neg h6, if_neg h7, if_neg h8, if_neg h9, if_neg h10, if_neg h11, if_neg h12, if_neg h13, if_neg h14, if_pos h15]
                                    try rfl
                                · by_cases h16 : unit_type = "two_small_20_one_large_side"
                                  · right; right
                                    refine ⟨?_, ?_, Except.ok (calculate_two_small_20_one_large_side_unit width_cm height_cm depth_cm drawer_count settings), ?_, ?_, ?_⟩
                                    · rw [h16]; decide
                                    · rw [h16]; decide
                                    · intro L hL
                                      injection hL with hL
                                      subst hL
                                      apply calculate_two_small_20_one_large_side_unit_edgeBandFree
                                    · intro msg hmsg
                                      exact Except.noConfusion hmsg
                                    · intro e
                                      unfold calculate_unit_parts
                                      rw [if_neg h0, if_neg h1, if_neg h2, if_neg h3, if_neg h4, if_neg h5, if_neg h6, if_neg h7, if_neg h8, if_neg h9, if_neg h10, if_neg h11, if_neg h12, if_neg h13, if_neg h14, if_neg h15, if_pos h16]
                                      try rfl
                                  · by_cases h17 : unit_type = "two_small_20_one_large_bottom"
                                    · right; right
                                      refine ⟨?_, ?_, Except.ok (calculate_two_small_20_one_large_bottom_unit width_cm height_cm depth_cm drawer_count settings), ?_, ?_, ?_⟩
                                      · rw [h17]; decide
                                      · rw [h17]; decide
                                      · intro L hL
                                        injection hL with hL
                                        subst hL
                                        apply calculate_two_small_20_one_large_bottom_unit_edgeBandFree
                                      · intro msg hmsg
                                        exact Except.noConfusion hmsg
                                      · intro e
                                        unfold calculate_unit_parts
                                        rw [if_neg h0, if_neg h1, if_neg h2, if_neg h3, if_neg h4, if_neg h5, if_neg h6, if_neg h7, if_neg h8, if_neg h9, if_neg h10, if_neg h11, if_neg h12, if_neg h13, if_neg h14, if_neg h15, if_neg h16, if_pos h17]
                                        try rfl
                                    · by_cases h18 : unit_type = "one_small_16_two_large_side"
                                      · right; right
                                        refine ⟨?_, ?_, Except.ok (calculate_one_small_16_two_large_side_unit width_cm height_cm depth_cm drawer_count settings), ?_, ?_, ?_⟩
                                        · rw [h18]; decide
                                        · rw [h18]; decide
                                        · intro L hL
                                          injection hL with hL
                                          subst hL
                                          apply calculate_one_small_16_two_large_side_unit_edgeBandFree
                                        · intro msg hmsg
                                          exact Except.noConfusion hmsg
                                        · intro e
                                          unfold calculate_unit_parts
                                          rw [if_neg h0, if_neg h1, if_neg h2, if_neg h3, if_neg h4, if_neg h5, if_neg h6, if_neg h7, if_neg h8, if_neg h9, if_neg h10, if_neg h11, if_neg h12, if_neg h13, if_neg h14, if_neg h15, if_neg h16, if_neg h17, if_pos h18]
                                          try rfl
                                      · by_cases h19 : unit_type = "one_small_16_two_large_bottom"
                                        · right; right
                                          refine ⟨?_, ?_, Except.ok (calculate_one_small_16_two_large_bottom_unit width_cm height_cm depth_cm drawer_count settings), ?_, ?_, ?_⟩
                                          · rw [h19]; decide
                                          · rw [h19]; decide
                                          · intro L hL
                                            injection hL with hL
                                            subst hL
                                            apply calculate_one_small_16_two_large_bottom_unit_edgeBandFree
                                          · intro msg hmsg
                                            exact Except.noConfusion hmsg
                                          · intro e
                                            unfold calculate_unit_parts
                                            rw [if_neg h0, if_neg h1, if_neg h2, if_neg h3, if_neg h4, if_neg h5, if_neg h6, if_neg h7, if_neg h8, if_neg h9, if_neg h10, if_neg h11, if_neg h12, if_neg h13, if_neg h14, if_neg h15, if_neg h16, if_neg h17, if_neg h18, if_pos h19]
                                            try rfl
                                        · by_cases h20 : unit_type = "wall_microwave"
                                          · right; right
                                            refine ⟨?_, ?_, calculate_wall_microwave_unit width_cm height_cm depth_cm shelf_count door_count door_type microwave_height settings, ?_, ?_, ?_⟩
                                            · rw [h20]; decide
                                            · rw [h20]; decide
                                            · intro L hL
                                              exact calculate_wall_microwave_unit_edgeBandFree _ _ _ _ _ _ _ _ _ hL
                                            · intro msg hmsg
                                              exact calculate_wall_microwave_unit_no_valueError _ _ _ _ _ _ _ _ _ hmsg
                                            · intro e
                                              unfold calculate_unit_parts
                                              rw [if_neg h0, if_neg h1, if_neg h2, if_neg h3, if_neg h4, if_neg h5, if_neg h6, if_neg h7, if_neg h8, if_neg h9, if_neg h10, if_neg h11, if_neg h12, if_neg h13, if_neg h14, if_neg h15, if_neg h16, if_neg h17, if_neg h18, if_neg h19, if_pos h20]
                                              try rfl
                                          · by_cases h21 : unit_type = "tall_wooden_base"
                                            · right; right
                                              refine ⟨?_, ?_, calculate_tall_wooden_base_unit width_cm height_cm depth_cm shelf_count door_count settings, ?_, ?_, ?_⟩
                                              · rw [h21]; decide
                                              · rw [h21]; decide
                                              · intro L hL
                                                exact calculate_tall_wooden_base_unit_edgeBandFree _ _ _ _ _ _ _ hL
                                              · intro msg hmsg
                                                exact calculate_tall_wooden_base_unit_no_valueError _ _ _ _ _ _ _ hmsg
                                              · intro e
                                                unfold calculate_unit_parts
                                                rw [if_neg h0, if_neg h1, if_neg h2, if_neg h3, if_neg h4, if_neg h5, if_neg h6, if_neg h7, if_neg h8, if_neg h9, if_neg h10, if_neg h11, if_neg h12, if_neg h13, if_neg h14, if_neg h15, if_neg h16, if_neg h17, if_neg h18, if_neg h19, if_neg h20, if_pos h21]
                                                try rfl
                                            · by_cases h22 : unit_type = "three_turbo"
                                              · right; right
                                                refine ⟨?_, ?_, Except.ok (calculate_three_turbo_unit width_cm height_cm depth_cm settings), ?_, ?_, ?_⟩
                                                · rw [h22]; decide
                                                · rw [h22]; decide
                                                · intro L hL
                                                  injection hL with hL
                                                  subst hL
                                                  apply calculate_three_turbo_unit_edgeBandFree
                                                · intro msg hmsg
                                                  exact Except.noConfusion hmsg
                                                · intro e
                                                  unfold calculate_unit_parts
                                                  rw [if_neg h0, if_neg h1, if_neg h2, if_neg h3, if_neg h4, if_neg h5, if_neg h6, if_neg h7, if_neg h8, if_neg h9, if_neg h10, if_neg h11, if_neg h12, if_neg h13, if_neg h14, if_neg h15, if_neg h16, if_neg h17, if_neg h18, if_neg h19, if_neg h20, if_neg h21, if_pos h22]
                                                  try rfl
                                              · by_cases h23 : unit_type = "drawer_built_in_oven"
                                                · right; right
                                                  refine ⟨?_, ?_, Except.ok (calculate_drawer_built_in_oven_unit width_cm height_cm depth_cm oven_height settings), ?_, ?_, ?_⟩
                                                  · rw [h23]; decide
                                                  · rw [h23]; decide
                                                  · intro L hL
                                                    injection hL with hL
                                                    subst hL
                                                    apply calculate_drawer_built_in_oven_unit_edgeBandFree
                                                  · intro msg hmsg
                                                    exact Except.noConfusion hmsg
                                                  · intro e
                                                    unfold calculate_unit_parts
                                                    rw [if_neg h0, if_neg h1, if_neg h2, if_neg h3, if_neg h4, if_neg h5, if_neg h6, if_neg h7, if_neg h8, if_neg h9, if_neg h10, if_neg h11, if_neg h12, if_neg h13, if_neg h14, if_neg h15, if_neg h16, if_neg h17, if_neg h18, if_neg h19, if_neg h20, if_neg h21, if_neg h22, if_pos h23]
                                                    try rfl
                                                · by_cases h24 : unit_type = "drawer_bottom_rail_built_in_oven"
                                                  · right; right
                                                    refine ⟨?_, ?_, Except.ok (calculate_drawer_bottom_rail_built_in_oven_unit width_cm height_cm depth_cm oven_height settings), ?_, ?_, ?_⟩
                                                    · rw [h24]; decide
                                                    · rw [h24]; decide
                                                    · intro L hL
                                                      injection hL with hL
                                                      subst hL
                                                      apply calculate_drawer_bottom_rail_built_in_oven_unit_edgeBandFree
                                                    · intro msg hmsg
                                                      exact Except.noConfusion hmsg
                                                    · intro e
                                                      unfold calculate_unit_parts
                                                      rw [if_neg h0, if_neg h1, if_neg h2, if_neg h3, if_neg h4, if_neg h5, if_neg h6, if_neg h7, if_neg h8, if_neg h9, if_neg h10, if_neg h11, if_neg h12, if_neg h13, if_neg h14, if_neg h15, if_neg h16, if_neg h17, if_neg h18, if_neg h19, if_neg h20, if_neg h21, if_neg h22, if_neg h23, if_pos h24]
                                                      try rfl
                                                  · left
                                                    constructor
                                                    · simp [implementedUnitTypes, h0, h1, h2, h3, h4, h5, h6, h7, h8, h9, h10, h11, h12, h13, h14, h15, h16, h17, h18, h19, h20, h21, h22, h23, h24]
                                                    · intro e
                                                      unfold calculate_unit_parts
                                                      rw [if_neg h0, if_neg h1, if_neg h2, if_neg h3, if_neg h4, if_neg h5, if_neg h6, if_neg h7, if_neg h8, if_neg h9, if_neg h10, if_neg h11, if_neg h12, if_neg h13, if_neg h14, if_neg h15, if_neg h16, if_neg h17, if_neg h18, if_neg h19, if_neg h20, if_neg h21, if_neg h22, if_neg h23, if_neg h24]
                                                      try rfl

/-- Every part list the dispatcher returns successfully leaves `edge_band_m` unset:
no current-generation calculator ever assigns the field, and the banding deduction
does not touch it. -/
theorem dispatcher_ok_edgeBandFree (unit_type : String) (width_cm height_cm depth_cm : ℚ)
    (shelf_count door_count : ℤ) (door_type : String)
    (flip_door_height bottom_door_height oven_height microwave_height vent_height : ℚ)
    (drawer_count : ℤ) (drawer_height_cm fixed_part_cm width_2_cm depth_2_cm : ℚ)
    (settings : SettingsModel) (parts : List Part)
    (h : calculate_unit_parts unit_type width_cm height_cm depth_cm shelf_count door_count
      door_type flip_door_height bottom_door_height oven_height microwave_height vent_height
      drawer_count drawer_height_cm fixed_part_cm width_2_cm depth_2_cm settings =
      Except.ok parts) : edgeBandFree parts := by
  rcases dispatcher_branches unit_type width_cm height_cm depth_cm shelf_count door_count
      door_type flip_door_height bottom_door_height oven_height microwave_height vent_height
      drawer_count drawer_height_cm fixed_part_cm width_2_cm depth_2_cm settings with
    ⟨_, herr⟩ | ⟨_, hok⟩ | ⟨_, _, core, hfree, _, heq⟩
  · have h1 := herr settings.edge_banding_type
    rw [show ({settings with edge_banding_type := settings.edge_banding_type} :
      SettingsModel) = settings from rfl] at h1
    rw [h1] at h
    exact Except.noConfusion h
  · have h1 := hok settings.edge_banding_type
    rw [show ({settings with edge_banding_type := settings.edge_banding_type} :
      SettingsModel) = settings from rfl] at h1
    rw [h1] at h
    injection h with h
    subst h
    apply calculate_drawers_unit_edgeBandFree
  · have h1 := heq settings.edge_banding_type
    rw [show ({settings with edge_banding_type := settings.edge_banding_type} :
      SettingsModel) = settings from rfl] at h1
    rw [h1] at h
    obtain ⟨L, hL, rfl⟩ := except_map_ok h
    exact applyEdgeBandingDeduction_edgeBandFree _ (hfree L hL)

end UnitCalculators

/-- Rebuilding a settings record with its own banding style is the identity. -/
theorem settings_eta (settings : SettingsModel) :
    ({settings with edge_banding_type := settings.edge_banding_type} : SettingsModel) =
      settings := rfl

/-- C5: every `Part` in a list the topology dispatcher `calculate_unit_parts`
(unit_calculators.py) returns successfully has `edge_band_m = None`, for every
recognized unit type and any inputs; consequently `calculate_total_edge_band`
applied to that output returns exactly 0. -/
theorem claim_C5 (unit_type : String) (width_cm height_cm depth_cm : ℚ)
    (shelf_count door_count : ℤ) (door_type : String)
    (flip_door_height bottom_door_height oven_height microwave_height vent_height : ℚ)
    (drawer_count : ℤ) (drawer_height_cm fixed_part_cm width_2_cm depth_2_cm : ℚ)
    (settings : SettingsModel) (parts : List Part)
    (h : UnitCalculators.calculate_unit_parts unit_type width_cm height_cm depth_cm
      shelf_count door_count door_type flip_door_height bottom_door_height oven_height
      microwave_height vent_height drawer_count drawer_height_cm fixed_part_cm width_2_cm
      depth_2_cm settings = Except.ok parts) :
    (∀ p ∈ parts, p.edge_band_m = none) ∧
      UnitCalculators.calculate_total_edge_band parts = 0 := by
  have hf := UnitCalculators.dispatcher_ok_edgeBandFree unit_type width_cm height_cm depth_cm
    shelf_count door_count door_type flip_door_height bottom_door_height oven_height
    microwave_height vent_height drawer_count drawer_height_cm fixed_part_cm width_2_cm
    depth_2_cm settings parts h
  exact ⟨hf, UnitCalculators.calculate_total_edge_band_eq_zero hf⟩

/-- C5 witness: the ground unit 80×72×30 with 2 shelves, 2 doors and the default
configuration. -/
theorem claim_C5_witness :
    (∀ p ∈ UnitCalculators.groundPartsExample, p.edge_band_m = none) ∧
      UnitCalculators.calculate_total_edge_band UnitCalculators.groundPartsExample = 0 :=
  claim_C5 "ground" 80 72 30 2 2 "hinged" 0 0 0 0 0 3 12 0 0 0 {}
    UnitCalculators.groundPartsExample rfl

/-- C7: the topology dispatcher yields its unrecognized-type ValueError exactly for
the unit-type strings outside the implemented list — an unknown discriminant is a
hard failure with no part list, and no implemented topology code produces that
error. -/
theorem claim_C7 (unit_type : String) (width_cm height_cm depth_cm : ℚ)
    (shelf_count door_count : ℤ) (door_type : String)
    (flip_door_height bottom_door_height oven_height microwave_height vent_height : ℚ)
    (drawer_count : ℤ) (drawer_height_cm fixed_part_cm width_2_cm depth_2_cm : ℚ)
    (settings : SettingsModel) :
    (∃ msg, UnitCalculators.calculate_unit_parts unit_type width_cm height_cm depth_cm
        shelf_count door_count door_type flip_door_height bottom_door_height oven_height
        microwave_height vent_height drawer_count drawer_height_cm fixed_part_cm width_2_cm
        depth_2_cm settings = Except.error (PyError.valueError msg)) ↔
      unit_type ∉ UnitCalculators.implementedUnitTypes := by
  rcases UnitCalculators.dispatcher_branches unit_type width_cm height_cm depth_cm
      shelf_count door_count door_type flip_door_height bottom_door_height oven_height
      microwave_height vent_height drawer_count drawer_height_cm fixed_part_cm width_2_cm
      depth_2_cm settings with
    ⟨hnm, herr⟩ | ⟨hdr, hok⟩ | ⟨hmem, _, core, _, hnv, heq⟩
  · constructor
    · intro _
      exact hnm
    · intro _
      have h1 := herr settings.edge_banding_type
      rw [settings_eta] at h1
      exact ⟨unit_type, h1⟩
  · constructor
    · rintro ⟨msg, hmsg⟩
      have h1 := hok settings.edge_banding_type
      rw [settings_eta] at h1
      rw [h1] at hmsg
      exact Except.noConfusion hmsg
    · intro hnot
      exact absurd (by rw [hdr]; decide) hnot
  · constructor
    · rintro ⟨msg, hmsg⟩
      have h1 := heq settings.edge_banding_type
      rw [settings_eta] at h1
      rw [h1] at hmsg
      exact absurd (UnitCalculators.except_map_error hmsg) (hnv msg)
    · intro hnot
      exact absurd hmem hnot

/-- C1 counterexample: "drawers" is a recognized unit type, O is a designated
banding code and `-` is not, yet the dispatcher returns the very same part list
under both codes — and that list does contain a targeted part (the base) whose
width exceeds 0.2 cm, so the claimed 0.2 cm deduction demonstrably did not
happen. -/
theorem claim_C1_counterexample :
    "drawers" ∈ UnitCalculators.implementedUnitTypes ∧
    EdgeBandingType.O.value ∈ UnitCalculators.designatedBandingCodes ∧
    EdgeBandingType.NONE.value ∉ UnitCalculators.designatedBandingCodes ∧
    UnitCalculators.calculate_unit_parts "drawers" 80 72 30 2 2 "hinged" 0 0 0 0 0 3 12 0 0 0
        UnitCalculators.bandedSettings =
      UnitCalculators.calculate_unit_parts "drawers" 80 72 30 2 2 "hinged" 0 0 0 0 0 3 12
        0 0 0 UnitCalculators.unbandedSettings ∧
    ("base", (30 : ℚ)) ∈ (UnitCalculators.calculate_drawers_unit 80 72 30 2 2 3 12
        UnitCalculators.bandedSettings).map (fun p => (p.name, p.width_cm)) ∧
    "base" ∈ UnitCalculators.target_parts ∧ (0.2 : ℚ) < 30 :=
  ⟨by decide, by decide, by decide, rfl,
   by simp [UnitCalculators.calculate_drawers_unit, UnitCalculators.bandedSettings],
   by decide, by norm_num⟩

/-- C1 (amended): for every implemented unit type EXCEPT "drawers" (whose branch
returns before the post-processing step), two dispatcher runs that differ only in
the banding style — one designated (O/OM/C/CM), one not — are related exactly by
the per-part deduction map: deduct 0.2 cm from width and height of every part
named base/shelf/internal_shelf/top/unit_top/internal_base (each dimension only
when it exceeds 0.2, rounded to 2 decimals, area recomputed), all other parts
unchanged. -/
theorem claim_C1 (unit_type : String) (width_cm height_cm depth_cm : ℚ)
    (shelf_count door_count : ℤ) (door_type : String)
    (flip_door_height bottom_door_height oven_height microwave_height vent_height : ℚ)
    (drawer_count : ℤ) (drawer_height_cm fixed_part_cm width_2_cm depth_2_cm : ℚ)
    (settings : SettingsModel) (e₁ e₂ : EdgeBandingType)
    (hmem : unit_type ∈ UnitCalculators.implementedUnitTypes)
    (hne : unit_type ≠ "drawers")
    (hd : e₁.value ∈ UnitCalculators.designatedBandingCodes)
    (hnd : e₂.value ∉ UnitCalculators.designatedBandingCodes)
    (parts₁ parts₂ : List Part)
    (h₁ : UnitCalculators.calculate_unit_parts unit_type width_cm height_cm depth_cm
      shelf_count door_count door_type flip_door_height bottom_door_height oven_height
      microwave_height vent_height drawer_count drawer_height_cm fixed_part_cm width_2_cm
      depth_2_cm {settings with edge_banding_type := e₁} = Except.ok parts₁)
    (h₂ : UnitCalculators.calculate_unit_parts unit_type width_cm height_cm depth_cm
      shelf_count door_count door_type flip_door_height bottom_door_height oven_height
      microwave_height vent_height drawer_count drawer_height_cm fixed_part_cm width_2_cm
      depth_2_cm {settings with edge_banding_type := e₂} = Except.ok parts₂) :
    parts₁ = parts₂.map UnitCalculators.bandingDeductionMap := by
  rcases UnitCalculators.dispatcher_branches unit_type width_cm height_cm depth_cm
      shelf_count door_count door_type flip_door_height bottom_door_height oven_height
      microwave_height vent_height drawer_count drawer_height_cm fixed_part_cm width_2_cm
      depth_2_cm settings with
    ⟨hnm, _⟩ | ⟨hdl, _⟩ | ⟨_, _, core, _, _, heq⟩
  · exact absurd hmem hnm
  · exact absurd hdl hne
  · rw [heq e₁] at h₁
    rw [heq e₂] at h₂
    obtain ⟨L, hL, rfl⟩ := UnitCalculators.except_map_ok h₁
    obtain ⟨L₂, hL₂, rfl⟩ := UnitCalculators.except_map_ok h₂
    rw [hL] at hL₂
    injection hL₂ with hLe
    subst hLe
    rw [UnitCalculators.applyEdgeBandingDeduction_designated
      {settings with edge_banding_type := e₁} L hd,
      UnitCalculators.applyEdgeBandingDeduction_not_designated
      {settings with edge_banding_type := e₂} L hnd]

/-- C1 witness: the ground unit 80×72×30 with 2 shelves and 2 doors, compared under
the designated style O and the non-designated style `-`. -/
theorem claim_C1_witness :
    UnitCalculators.bandedGroundParts =
      UnitCalculators.unbandedGroundParts.map UnitCalculators.bandingDeductionMap :=
  claim_C1 "ground" 80 72 30 2 2 "hinged" 0 0 0 0 0 3 12 0 0 0 {}
    EdgeBandingType.O EdgeBandingType.NONE (by decide) (by decide) (by decide) (by decide)
    UnitCalculators.bandedGroundParts UnitCalculators.unbandedGroundParts rfl rfl

/-- C2 counterexample: the drawers topology with drawer_count=3 and
drawer_height=12 yields base, two rail mirrors, sides, 6 width-strips, 6
depth-strips, 3 bottoms and a back panel — there is no drawer-front part at all,
let alone 3 of them banded on 4 edges. -/
theorem claim_C2_counterexample :
    (UnitCalculators.calculate_drawers_unit 80 72 30 2 2 3 12 {}).map
        (fun p => (p.name, p.qty)) =
      [("base", 1), ("front_mirror", 1), ("back_mirror", 1), ("side_panel", 2),
       ("drawer_width", 6), ("drawer_depth", 6), ("drawer_bottom", 3), ("back_panel", 1)] :=
  rfl

/-- C2 (amended): for the drawers topology with drawer_count=3 and
drawer_height=12 and ANY dimensions and counts, the output consists of exactly
base, front mirror, back mirror, side panels (qty 2), 6 width-strips, 6
depth-strips, 3 drawer bottoms and a back panel, in that order — no drawer-front
faces, no door parts and no shelf parts. -/
theorem claim_C2 (width_cm height_cm depth_cm : ℚ) (shelf_count door_count : ℤ)
    (settings : SettingsModel) :
    (UnitCalculators.calculate_drawers_unit width_cm height_cm depth_cm shelf_count
        door_count 3 12 settings).map (fun p => (p.name, p.qty)) =
      [("base", 1), ("front_mirror", 1), ("back_mirror", 1), ("side_panel", 2),
       ("drawer_width", 6), ("drawer_depth", 6), ("drawer_bottom", 3), ("back_panel", 1)] :=
  rfl

/-- C3: `generate_summary` never returns the claimed combined summary: its first
step calls the legacy cut-list calculator with `width_mm=...` keyword arguments
that match no parameter of that function, so every invocation raises
TypeError on the keyword width_mm. -/
theorem claim_C3 (unit_type : UnitType) (width_mm height_mm depth_mm : ℚ)
    (shelf_count : ℤ) (settings : SettingsModel) (options : List (String × ℚ))
    (include_internal_counter : Bool) :
    SummaryGenerator.generate_summary unit_type width_mm height_mm depth_mm shelf_count
      settings options include_internal_counter =
      Except.error (PyError.typeError "width_mm") :=
  rfl

/-- C4: the legacy `calculate_unit_parts` at the claimed input (ground unit
80×72×30, 2 shelves, default configuration) returns no part list: it raises
AttributeError on `default_board_thickness_cm`, a field `SettingsModel` does not
define, before building any part. -/
theorem claim_C4 :
    UnitCalculatorLegacy.calculate_unit_parts UnitType.GROUND 80 72 30 2 {} [] =
      Except.error (PyError.attributeError "default_board_thickness_cm") :=
  rfl

/-- C6: the legacy `calculate_unit_parts` on a sink unit never reaches the sink
cutout clamping code: for every dimension, shelf count, configuration and options
dictionary it raises AttributeError on `default_board_thickness_cm` first. -/
theorem claim_C6 (width_cm height_cm depth_cm : ℚ) (shelf_count : ℤ)
    (settings : SettingsModel) (options : List (String × ℚ)) :
    UnitCalculatorLegacy.calculate_unit_parts UnitType.SINK_GROUND width_cm height_cm
      depth_cm shelf_count settings options =
      Except.error (PyError.attributeError "default_board_thickness_cm") :=
  rfl

/-- C8: the edge-band breakdown never emits the claimed 4 edge records: for every
part and every configuration it raises AttributeError on `edge_overlap_cm`, a
field `SettingsModel` does not define, before examining any edge flag. -/
theorem claim_C8 (part : Part) (settings : SettingsModel) (edge_type : EdgeType) :
    EdgeBandCalculator.calculate_edge_breakdown_for_part part settings edge_type =
      Except.error (PyError.attributeError "edge_overlap_cm") :=
  rfl

/-- C9: `calculate_edge_cost` prices an edge type from the material-specific key
`edge_band_<type>_per_meter` when it is present with a usable price, falls back to
the generic `edge_band_per_meter` key only when the specific key is absent, puts
every priced line (rounded to 2 decimals) into the cost breakdown, and omits the
edge type's line entirely when no key yields a price — and, being a total
function, it never raises. -/
theorem claim_C9 (edge_breakdown : List EdgeBandPart) (settings : SettingsModel)
    (edge_type : EdgeType) :
    (∀ info price,
        settings.materials.lookup ("edge_band_" ++ edge_type.value ++ "_per_meter") =
          some info →
        info.price_per_meter = some price → price ≠ 0 →
        (edge_breakdown.filter (fun p => p.edge_type = edge_type)).isEmpty = false →
        EdgeBandCalculator.edgeCostLine edge_breakdown settings edge_type =
          some (((edge_breakdown.filter (fun p => p.edge_type = edge_type)).map
            EdgeBandPart.total_edge_m).sum * price)) ∧
    (∀ info price,
        settings.materials.lookup ("edge_band_" ++ edge_type.value ++ "_per_meter") = none →
        settings.materials.lookup "edge_band_per_meter" = some info →
        info.price_per_meter = some price → price ≠ 0 →
        (edge_breakdown.filter (fun p => p.edge_type = edge_type)).isEmpty = false →
        EdgeBandCalculator.edgeCostLine edge_breakdown settings edge_type =
          some (((edge_breakdown.filter (fun p => p.edge_type = edge_type)).map
            EdgeBandPart.total_edge_m).sum * price)) ∧
    (∀ c, EdgeBandCalculator.edgeCostLine edge_breakdown settings edge_type = some c →
        (edge_type.value, roundTo 2 c) ∈
          (EdgeBandCalculator.calculate_edge_cost edge_breakdown settings).fst) ∧
    (EdgeBandCalculator.edgeCostLine edge_breakdown settings edge_type = none →
        ∀ c, (edge_type.value, c) ∉
          (EdgeBandCalculator.calculate_edge_cost edge_breakdown settings).fst) := by
  refine ⟨?_, ?_, ?_, ?_⟩
  · intro info price h1 h2 h3 h4
    simp [EdgeBandCalculator.edgeCostLine, h1, h2, h3, h4]
  · intro info price h0 h1 h2 h3 h4
    simp [EdgeBandCalculator.edgeCostLine, h0, h1, h2, h3, h4]
  · intro c hc
    cases edge_type with
    | wood =>
      rcases h2 : EdgeBandCalculator.edgeCostLine edge_breakdown settings EdgeType.pvc with
        _ | c2 <;>
      simp [EdgeBandCalculator.calculate_edge_cost, EdgeBandCalculator.edgeTypeList,
        hc, h2, EdgeType.value]
    | pvc =>
      rcases h2 : EdgeBandCalculator.edgeCostLine edge_breakdown settings EdgeType.wood with
        _ | c2 <;>
      simp [EdgeBandCalculator.calculate_edge_cost, EdgeBandCalculator.edgeTypeList,
        hc, h2, EdgeType.value]
  · intro h c hmem
    cases edge_type with
    | wood =>
      rcases h2 : EdgeBandCalculator.edgeCostLine edge_breakdown settings EdgeType.pvc with
        _ | c2 <;>
      simp [EdgeBandCalculator.calculate_edge_cost, EdgeBandCalculator.edgeTypeList,
        h, h2, EdgeType.value] at hmem
    | pvc =>
      rcases h2 : EdgeBandCalculator.edgeCostLine edge_breakdown settings EdgeType.wood with
        _ | c2 <;>
      simp [EdgeBandCalculator.calculate_edge_cost, EdgeBandCalculator.edgeTypeList,
        h, h2, EdgeType.value] at hmem

/-- C9 witness: a one-part wood breakdown of 2 m priced at 5/m by the specific key
(line 10, present in the breakdown), at 3/m by the generic key alone (line 6), and
unpriced under empty materials (line absent). -/
theorem claim_C9_witness :
    EdgeBandCalculator.edgeCostLine UnitCalculators.exampleEdgeBreakdown
        UnitCalculators.woodPricedSettings EdgeType.wood = some 10 ∧
    EdgeBandCalculator.edgeCostLine UnitCalculators.exampleEdgeBreakdown
        UnitCalculators.genericPricedSettings EdgeType.wood = some 6 ∧
    ("wood", roundTo 2 10) ∈ (EdgeBandCalculator.calculate_edge_cost
        UnitCalculators.exampleEdgeBreakdown UnitCalculators.woodPricedSettings).fst ∧
    ("wood", (7 : ℚ)) ∉ (EdgeBandCalculator.calculate_edge_cost
        UnitCalculators.exampleEdgeBreakdown ({} : SettingsModel)).fst := by
  have h1 := (claim_C9 UnitCalculators.exampleEdgeBreakdown UnitCalculators.woodPricedSettings
    EdgeType.wood).1 { price_per_meter := some 5 } 5 rfl rfl (by norm_num) rfl
  have h2 := (claim_C9 UnitCalculators.exampleEdgeBreakdown
    UnitCalculators.genericPricedSettings EdgeType.wood).2.1 { price_per_meter := some 3 } 3
    rfl rfl rfl (by norm_num) rfl
  have h1e : EdgeBandCalculator.edgeCostLine UnitCalculators.exampleEdgeBreakdown
      UnitCalculators.woodPricedSettings EdgeType.wood = some 10 := by
    rw [h1]
    norm_num [UnitCalculators.exampleEdgeBreakdown]
  have h2e : EdgeBandCalculator.edgeCostLine UnitCalculators.exampleEdgeBreakdown
      UnitCalculators.genericPricedSettings EdgeType.wood = some 6 := by
    rw [h2]
    norm_num [UnitCalculators.exampleEdgeBreakdown]
  refine ⟨h1e, h2e, ?_, ?_⟩
  · exact (claim_C9 UnitCalculators.exampleEdgeBreakdown UnitCalculators.woodPricedSettings
      EdgeType.wood).2.2.1 10 h1e
  · exact (claim_C9 UnitCalculators.exampleEdgeBreakdown ({} : SettingsModel)
      EdgeType.wood).2.2.2 rfl 7

/-- C10: in `calculate_ground_unit`, switching the assembly method between the
base-spans-full-width selector and any other method changes at most the base
panel's length and the side panels' height together with their derived areas:
after neutralizing exactly those fields of the base and side-panel parts, the two
part lists are equal, so every other part is identical between the two runs. -/
theorem claim_C10 (width_cm height_cm depth_cm : ℚ) (shelf_count door_count : ℤ)
    (settings : SettingsModel) (m : AssemblyMethod)
    (hm : m ≠ AssemblyMethod.base_full_top_sides_back_routed) :
    (UnitCalculators.calculate_ground_unit width_cm height_cm depth_cm shelf_count
        door_count
        {settings with assembly_method := AssemblyMethod.base_full_top_sides_back_routed}).map
      UnitCalculators.neutralizeAssemblyDims =
    (UnitCalculators.calculate_ground_unit width_cm height_cm depth_cm shelf_count
        door_count {settings with assembly_method := m}).map
      UnitCalculators.neutralizeAssemblyDims := by
  have h1 : ∀ (s : SettingsModel) (v : AssemblyMethod),
      ({s with assembly_method := v} : SettingsModel).assembly_method = v := fun _ _ => rfl
  simp only [UnitCalculators.calculate_ground_unit, h1, hm, if_true, if_false,
    eq_self_iff_true, ite_true, ite_false]
  rfl

/-- C10 witness: the ground unit 80×72×30 with 2 shelves and 2 doors under the
base-spans-full-width method versus the sides-on-top method. -/
theorem claim_C10_witness :
    (UnitCalculators.calculate_ground_unit 80 72 30 2 2
        { assembly_method := AssemblyMethod.base_full_top_sides_back_routed }).map
      UnitCalculators.neutralizeAssemblyDims =
    (UnitCalculators.calculate_ground_unit 80 72 30 2 2
        { assembly_method := AssemblyMethod.full_sides_back_routed }).map
      UnitCalculators.neutralizeAssemblyDims :=
  claim_C10 80 72 30 2 2 {} AssemblyMethod.full_sides_back_routed (by decide)

end SelemKitchen
